import Mathlib

/-!
# detri platform window shim, Win32 backend

A shallow embedding of `src/detri/window_win32.cpp` (with the event model of
`platform_event.hpp` and the facade of `window.hpp`) and theorems about it.

Conventions of the embedding:

* `HWND`, `UINT`, `WPARAM` are natural numbers (`0` is the null handle);
  `LPARAM` is the signed value, its bit pattern is taken with `to_DWORD_PTR`.
* `std::int32_t` arithmetic is integer arithmetic followed by `to_int32`.
* The operating system is a record `os_state`; every call the code makes into
  it is appended to `os_state.calls`, so that the order of side effects can
  be stated.
* A C++ function that may throw returns the exception (if any) together with
  the state it leaves behind.
-/

namespace Detri

/-! ## Portable event model (`platform_event.hpp`) -/

/-- The enumeration `key`; the enumerator `end` is written `end_`. -/
inductive key where
  | escape | enter | tab | backspace | space | left | right | up | down
  | page_up | page_down | home | end_ | insert | delete_
  | a | b | c | d | e | f | g | h | i | j | k | l | m | n | o | p | q | r | s | t | u | v | w | x
  | y | z
  | zero | one | two | three | four | five | six | seven | eight | nine
  | f1 | f2 | f3 | f4 | f5 | f6 | f7 | f8 | f9 | f10 | f11 | f12
  | left_shift | left_control | left_alt | left_system
  | right_shift | right_control | right_alt | right_system
  | unknown
  deriving DecidableEq, Repr

/-- The enumeration `mouse_button`. -/
inductive mouse_button where
  | left | right | middle | x1 | x2 | unknown
  deriving DecidableEq, Repr

/-- The variant `event`, one constructor per alternative. -/
inductive event where
  | close_event
  | resize_event (width height : Nat)
  | resize_begin_event
  | resize_end_event
  | key_event (value : key) (pressed repeated : Bool)
  | mouse_button_event (button : mouse_button) (pressed : Bool) (x y : Int)
  | mouse_move_event (x y : Int)
  | mouse_delta_event (dx dy : Int)
  deriving DecidableEq, Repr

/-- The enumeration `cursor_mode` (`window.hpp`). -/
inductive cursor_mode where
  | normal | captured_hidden
  deriving DecidableEq, Repr

/-! ## Native types and constants

The values below are those of the Windows SDK headers (`winuser.h`,
`windowsx.h`), which the sources include through `platform.hpp`. -/

abbrev HWND := Nat
abbrev UINT := Nat
abbrev WPARAM := Nat
abbrev LPARAM := Int

def VK_BACK : Nat := 0x08
def VK_TAB : Nat := 0x09
def VK_RETURN : Nat := 0x0D
def VK_CONTROL : Nat := 0x11
def VK_ESCAPE : Nat := 0x1B
def VK_SPACE : Nat := 0x20
def VK_LEFT : Nat := 0x25
def VK_UP : Nat := 0x26
def VK_RIGHT : Nat := 0x27
def VK_DOWN : Nat := 0x28
def VK_F1 : Nat := 0x70
def VK_F2 : Nat := 0x71
def VK_F3 : Nat := 0x72
def VK_F4 : Nat := 0x73
def VK_F5 : Nat := 0x74
def VK_F6 : Nat := 0x75
def VK_F7 : Nat := 0x76
def VK_F8 : Nat := 0x77
def VK_F9 : Nat := 0x78
def VK_F10 : Nat := 0x79
def VK_F11 : Nat := 0x7A
def VK_F12 : Nat := 0x7B
def VK_LSHIFT : Nat := 0xA0
def VK_RSHIFT : Nat := 0xA1
def VK_LCONTROL : Nat := 0xA2
def VK_RCONTROL : Nat := 0xA3

def WM_DESTROY : Nat := 0x0002
def WM_SIZE : Nat := 0x0005
def WM_CLOSE : Nat := 0x0010
def WM_NCCREATE : Nat := 0x0081
def WM_KEYDOWN : Nat := 0x0100
def WM_KEYUP : Nat := 0x0101
def WM_SYSKEYDOWN : Nat := 0x0104
def WM_SYSKEYUP : Nat := 0x0105
def WM_MOUSEMOVE : Nat := 0x0200
def WM_LBUTTONDOWN : Nat := 0x0201
def WM_LBUTTONUP : Nat := 0x0202
def WM_RBUTTONDOWN : Nat := 0x0204
def WM_RBUTTONUP : Nat := 0x0205
def WM_MBUTTONDOWN : Nat := 0x0207
def WM_MBUTTONUP : Nat := 0x0208
def WM_XBUTTONDOWN : Nat := 0x020B
def WM_XBUTTONUP : Nat := 0x020C
def WM_ENTERSIZEMOVE : Nat := 0x0231
def WM_EXITSIZEMOVE : Nat := 0x0232

def XBUTTON1 : Nat := 0x0001
def XBUTTON2 : Nat := 0x0002

/-- The cast `(DWORD_PTR)` of a signed pointer-sized value: its 64-bit pattern. -/
def to_DWORD_PTR (v : Int) : Nat := (v % 18446744073709551616).toNat

/-- The macro `LOWORD`: bits 0..15. -/
def LOWORD (v : Nat) : Nat := v % 65536

/-- The macro `HIWORD`: bits 16..31. -/
def HIWORD (v : Nat) : Nat := (v / 65536) % 65536

/-- The cast `(int)(short)` of a 16-bit word. -/
def to_short (v : Nat) : Int := if v % 65536 < 32768 then (v % 65536 : Nat) else (v % 65536 : Nat) - 65536

/-- The macro `GET_X_LPARAM`: the low word, sign-extended. -/
def GET_X_LPARAM (lparam : LPARAM) : Int := to_short (LOWORD (to_DWORD_PTR lparam))

/-- The macro `GET_Y_LPARAM`: the high word, sign-extended. -/
def GET_Y_LPARAM (lparam : LPARAM) : Int := to_short (HIWORD (to_DWORD_PTR lparam))

/-- The macro `GET_XBUTTON_WPARAM`: the high word of `wparam`. -/
def GET_XBUTTON_WPARAM (wparam : WPARAM) : Nat := HIWORD wparam

/-- Wrap-around of a result into `std::int32_t`. -/
def to_int32 (v : Int) : Int := (v + 2147483648) % 4294967296 - 2147483648

/-! ## Code mapper -/

/-- The function `map_key`: the `switch` over `wparam`, one test per label. -/
def map_key (wparam : WPARAM) : key :=
  if wparam = VK_ESCAPE then key.escape
  else if wparam = VK_RETURN then key.enter
  else if wparam = VK_TAB then key.tab
  else if wparam = VK_BACK then key.backspace
  else if wparam = VK_SPACE then key.space
  else if wparam = VK_LEFT then key.left
  else if wparam = VK_RIGHT then key.right
  else if wparam = VK_UP then key.up
  else if wparam = VK_DOWN then key.down
  else if wparam = VK_LCONTROL then key.left_control
  else if wparam = VK_RCONTROL then key.right_control
  else if wparam = VK_CONTROL then key.left_control
  else if wparam = VK_LSHIFT then key.left_shift
  else if wparam = VK_RSHIFT then key.right_shift
  else if wparam = Char.toNat 'A' then key.a
  else if wparam = Char.toNat 'B' then key.b
  else if wparam = Char.toNat 'C' then key.c
  else if wparam = Char.toNat 'D' then key.d
  else if wparam = Char.toNat 'E' then key.e
  else if wparam = Char.toNat 'F' then key.f
  else if wparam = Char.toNat 'G' then key.g
  else if wparam = Char.toNat 'H' then key.h
  else if wparam = Char.toNat 'I' then key.i
  else if wparam = Char.toNat 'J' then key.j
  else if wparam = Char.toNat 'K' then key.k
  else if wparam = Char.toNat 'L' then key.l
  else if wparam = Char.toNat 'M' then key.m
  else if wparam = Char.toNat 'N' then key.n
  else if wparam = Char.toNat 'O' then key.o
  else if wparam = Char.toNat 'P' then key.p
  else if wparam = Char.toNat 'Q' then key.q
  else if wparam = Char.toNat 'R' then key.r
  else if wparam = Char.toNat 'S' then key.s
  else if wparam = Char.toNat 'T' then key.t
  else if wparam = Char.toNat 'U' then key.u
  else if wparam = Char.toNat 'V' then key.v
  else if wparam = Char.toNat 'W' then key.w
  else if wparam = Char.toNat 'X' then key.x
  else if wparam = Char.toNat 'Y' then key.y
  else if wparam = Char.toNat 'Z' then key.z
  else if wparam = Char.toNat '0' then key.zero
  else if wparam = Char.toNat '1' then key.one
  else if wparam = Char.toNat '2' then key.two
  else if wparam = Char.toNat '3' then key.three
  else if wparam = Char.toNat '4' then key.four
  else if wparam = Char.toNat '5' then key.five
  else if wparam = Char.toNat '6' then key.six
  else if wparam = Char.toNat '7' then key.seven
  else if wparam = Char.toNat '8' then key.eight
  else if wparam = Char.toNat '9' then key.nine
  else if wparam = VK_F1 then key.f1
  else if wparam = VK_F2 then key.f2
  else if wparam = VK_F3 then key.f3
  else if wparam = VK_F4 then key.f4
  else if wparam = VK_F5 then key.f5
  else if wparam = VK_F6 then key.f6
  else if wparam = VK_F7 then key.f7
  else if wparam = VK_F8 then key.f8
  else if wparam = VK_F9 then key.f9
  else if wparam = VK_F10 then key.f10
  else if wparam = VK_F11 then key.f11
  else if wparam = VK_F12 then key.f12
  else key.unknown

/-- The function `map_mouse_button`: the `switch` over `message`. -/
def map_mouse_button (message : UINT) (wparam : WPARAM) : mouse_button :=
  if message = WM_LBUTTONDOWN ∨ message = WM_LBUTTONUP then mouse_button.left
  else if message = WM_RBUTTONDOWN ∨ message = WM_RBUTTONUP then mouse_button.right
  else if message = WM_MBUTTONDOWN ∨ message = WM_MBUTTONUP then mouse_button.middle
  else if message = WM_XBUTTONDOWN ∨ message = WM_XBUTTONUP then
    (if GET_XBUTTON_WPARAM wparam = XBUTTON1 then mouse_button.x1 else mouse_button.x2)
  else mouse_button.unknown

/-! ### The documented key table

`map_key_documented` is written from the specification's table, by ranges,
to be compared with `map_key`. -/

def letter_keys : List key :=
  [key.a, key.b, key.c, key.d, key.e, key.f, key.g, key.h, key.i, key.j, key.k, key.l, key.m,
   key.n, key.o, key.p, key.q, key.r, key.s, key.t, key.u, key.v, key.w, key.x, key.y, key.z]

def digit_keys : List key :=
  [key.zero, key.one, key.two, key.three, key.four, key.five, key.six, key.seven, key.eight,
   key.nine]

def function_keys : List key :=
  [key.f1, key.f2, key.f3, key.f4, key.f5, key.f6, key.f7, key.f8, key.f9, key.f10, key.f11,
   key.f12]

/-- The named (non-range) rows of the documented table. -/
def named_key_table : List (Nat × key) :=
  [(VK_ESCAPE, key.escape), (VK_RETURN, key.enter), (VK_TAB, key.tab),
   (VK_BACK, key.backspace), (VK_SPACE, key.space),
   (VK_LEFT, key.left), (VK_RIGHT, key.right), (VK_UP, key.up), (VK_DOWN, key.down),
   (VK_LCONTROL, key.left_control), (VK_CONTROL, key.left_control),
   (VK_RCONTROL, key.right_control),
   (VK_LSHIFT, key.left_shift), (VK_RSHIFT, key.right_shift)]

/-- The documented table of `map_key`, as the specification words it. -/
def map_key_documented (code : Nat) : key :=
  match named_key_table.lookup code with
  | some value => value
  | none =>
    if Char.toNat 'A' ≤ code ∧ code ≤ Char.toNat 'Z' then
      letter_keys.getD (code - Char.toNat 'A') key.unknown
    else if Char.toNat '0' ≤ code ∧ code ≤ Char.toNat '9' then
      digit_keys.getD (code - Char.toNat '0') key.unknown
    else if VK_F1 ≤ code ∧ code ≤ VK_F12 then
      function_keys.getD (code - VK_F1) key.unknown
    else key.unknown

/-- Whether a native code is in the supported set of the documented table. -/
def supported_key_code (code : Nat) : Bool :=
  (named_key_table.lookup code).isSome
    || (decide (Char.toNat 'A' ≤ code) && decide (code ≤ Char.toNat 'Z'))
    || (decide (Char.toNat '0' ≤ code) && decide (code ≤ Char.toNat '9'))
    || (decide (VK_F1 ≤ code) && decide (code ≤ VK_F12))

/-! ## Operating-system model

The native calls the code makes, modelled on the state they read and change.
Each call is recorded, in order, in `os_state.calls`. -/

/-- The structure `RECT`. -/
structure RECT where
  left : Int
  top : Int
  right : Int
  bottom : Int
  deriving DecidableEq, Repr

/-- The structure `POINT`. -/
structure POINT where
  x : Int
  y : Int
  deriving DecidableEq, Repr

/-- The fields of `MSG` that the dispatcher hands to the window procedure. -/
structure MSG where
  hwnd : HWND
  message : UINT
  wParam : WPARAM
  lParam : LPARAM
  deriving DecidableEq, Repr

/-- What the OS knows of a live native window: its client rectangle and the
screen position of the origin of its client area. -/
structure native_window where
  client : RECT
  origin : POINT
  deriving DecidableEq, Repr

/-- One call into the OS (or into the installed native-message hook). -/
inductive os_call where
  | GetWindowLongPtrW (hwnd : HWND)
  | SetWindowLongPtrW (hwnd : HWND)
  | DefWindowProcW (hwnd : HWND) (message : UINT) (wparam : WPARAM) (lparam : LPARAM)
  | native_message_hook (hwnd : HWND) (message : UINT) (wparam : WPARAM) (lparam : LPARAM)
  | DestroyWindow (hwnd : HWND)
  | IsWindow (hwnd : HWND)
  | GetClientRect (hwnd : HWND)
  | ClientToScreen (hwnd : HWND) (point : POINT)
  | ClipCursor (rect : Option RECT)
  | SetCursorPos (x y : Int)
  | ShowCursor (bShow : Bool)
  | PostMessageW (hwnd : HWND) (message : UINT) (wparam : WPARAM) (lparam : LPARAM)
  | ShowWindow (hwnd : HWND)
  | UpdateWindow (hwnd : HWND)
  | PeekMessageW
  | TranslateMessage (msg : MSG)
  | DispatchMessageW (msg : MSG)
  deriving DecidableEq, Repr

/-- The state outside the window object.

* `windows`: the live native windows, by handle;
* `userdata`: the handles whose `GWLP_USERDATA` slot holds the address of the
  `window_state` (set at `WM_NCCREATE`, never cleared by the code);
* `g_native_message_hook`: whether the process-wide hook slot is non-null;
* `display_count`: the cursor display counter of `ShowCursor` (the cursor is
  visible when it is `≥ 0`);
* `clip`: the installed cursor clip rectangle, if any;
* `clip_allowed`: whether `ClipCursor` succeeds;
* `cursor_pos`: the screen position of the cursor;
* `pending`: the native messages `PeekMessageW` is going to hand out, oldest first;
* `calls`: every call made so far, oldest first. -/
structure os_state where
  windows : List (HWND × native_window)
  userdata : List HWND
  g_native_message_hook : Bool
  display_count : Int
  clip : Option RECT
  clip_allowed : Bool
  cursor_pos : POINT
  pending : List MSG
  calls : List os_call
  deriving DecidableEq, Repr

/-- Append a call to the record of calls. -/
def os_state.record (os : os_state) (c : os_call) : os_state :=
  { os with calls := os.calls ++ [c] }

/-- The value a window procedure returns: the literal `0`, or whatever
`DefWindowProcW` returned for the given arguments. -/
inductive LRESULT where
  | zero
  | def_window_proc (hwnd : HWND) (message : UINT) (wparam : WPARAM) (lparam : LPARAM)
  deriving DecidableEq, Repr

/-- `GetWindowLongPtrW(hwnd, GWLP_USERDATA)`: whether the slot is non-null. -/
def GetWindowLongPtrW (os : os_state) (hwnd : HWND) : Bool × os_state :=
  (decide (hwnd ∈ os.userdata), os.record (os_call.GetWindowLongPtrW hwnd))

/-- `SetWindowLongPtrW(hwnd, GWLP_USERDATA, state)`. -/
def SetWindowLongPtrW (os : os_state) (hwnd : HWND) : os_state :=
  { os with userdata := hwnd :: os.userdata,
            calls := os.calls ++ [os_call.SetWindowLongPtrW hwnd] }

/-- `DefWindowProcW`: the platform default handler. -/
def DefWindowProcW (os : os_state) (hwnd : HWND) (message : UINT) (wparam : WPARAM)
    (lparam : LPARAM) : LRESULT × os_state :=
  (LRESULT.def_window_proc hwnd message wparam lparam,
   os.record (os_call.DefWindowProcW hwnd message wparam lparam))

/-- `IsWindow`: whether the handle names a live window. -/
def IsWindow (os : os_state) (hwnd : HWND) : Bool × os_state :=
  ((os.windows.lookup hwnd).isSome, os.record (os_call.IsWindow hwnd))

/-- `DestroyWindow`: the native window ceases to exist. The `WM_DESTROY` that
the OS sends to the window procedure while destroying is a notification of its
own (it only stores `is_open = false`, see `window_proc`). -/
def DestroyWindow (os : os_state) (hwnd : HWND) : os_state :=
  { os with windows := os.windows.filter (fun p => p.1 != hwnd),
            calls := os.calls ++ [os_call.DestroyWindow hwnd] }

/-- `GetClientRect`: the client rectangle of a live window, failure otherwise. -/
def GetClientRect (os : os_state) (hwnd : HWND) : Option RECT × os_state :=
  ((os.windows.lookup hwnd).map (fun nw => nw.client), os.record (os_call.GetClientRect hwnd))

/-- `ClientToScreen`: translate a client point by the window's origin; the
point is left as it is when the handle names no live window. -/
def ClientToScreen (os : os_state) (hwnd : HWND) (point : POINT) : POINT × os_state :=
  (match os.windows.lookup hwnd with
   | some nw => { x := point.x + nw.origin.x, y := point.y + nw.origin.y }
   | none => point,
   os.record (os_call.ClientToScreen hwnd point))

/-- `ClipCursor`: install (`some`) or clear (`none`) the clip rectangle. -/
def ClipCursor (os : os_state) (rect : Option RECT) : Bool × os_state :=
  if os.clip_allowed then
    (true, { os with clip := rect, calls := os.calls ++ [os_call.ClipCursor rect] })
  else
    (false, os.record (os_call.ClipCursor rect))

/-- `SetCursorPos`: warp the cursor. -/
def SetCursorPos (os : os_state) (x y : Int) : os_state :=
  { os with cursor_pos := { x := x, y := y }, calls := os.calls ++ [os_call.SetCursorPos x y] }

/-- `ShowCursor`: step the display counter and return its new value. -/
def ShowCursor (os : os_state) (bShow : Bool) : Int × os_state :=
  (if bShow then os.display_count + 1 else os.display_count - 1,
   { os with display_count := if bShow then os.display_count + 1 else os.display_count - 1,
             calls := os.calls ++ [os_call.ShowCursor bShow] })

/-- `PostMessageW`: queue a message behind those already pending. -/
def PostMessageW (os : os_state) (hwnd : HWND) (message : UINT) (wparam : WPARAM)
    (lparam : LPARAM) : os_state :=
  { os with pending := os.pending ++ [{ hwnd := hwnd, message := message, wParam := wparam,
                                         lParam := lparam }],
            calls := os.calls ++ [os_call.PostMessageW hwnd message wparam lparam] }

/-- `PeekMessageW(&message, nullptr, 0, 0, PM_REMOVE)`: take the oldest pending message. -/
def PeekMessageW (os : os_state) : Option MSG × os_state :=
  match os.pending with
  | [] => (none, os.record os_call.PeekMessageW)
  | msg :: rest => (some msg, { os with pending := rest, calls := os.calls ++ [os_call.PeekMessageW] })

/-! ## Window state and the native message translator -/

/-- The structure `window_state`; the defaults are its member initialisers.
The member `instance` is written `instance_`. -/
structure window_state where
  hwnd : HWND := 0
  instance_ : Nat := 0
  is_open : Bool := true
  cursor : cursor_mode := cursor_mode.normal
  suppress_next_mouse_move : Bool := false
  events : List event := []
  deriving DecidableEq, Repr

/-- The callback `window_proc`.

`heap` is the one `window_state` object (`none` when there is none); the local
pointer `state` of the source is that object when the `GWLP_USERDATA` slot of
`hwnd` is non-null, and null otherwise. At `WM_NCCREATE` the pointer comes from
`lpCreateParams`, which `window::create` sets to the same object. The installed
hook is foreign code: its call is recorded and it is taken to leave the window
state and the OS state alone. The result is the returned value, the object
after the call and the OS state after the call. -/
def window_proc (heap : Option window_state) (os : os_state) (hwnd : HWND) (message : UINT)
    (wparam : WPARAM) (lparam : LPARAM) : LRESULT × Option window_state × os_state :=
  let looked_up := GetWindowLongPtrW os hwnd
  let os := looked_up.2
  if message = WM_NCCREATE then
    let os := SetWindowLongPtrW os hwnd
    let heap := heap.map (fun st => { st with hwnd := hwnd })
    let r := DefWindowProcW os hwnd message wparam lparam
    (r.1, heap, r.2)
  else
    match (if looked_up.1 then heap else none) with
    | none =>
      let r := DefWindowProcW os hwnd message wparam lparam
      (r.1, heap, r.2)
    | some state =>
      let os := if os.g_native_message_hook then
          os.record (os_call.native_message_hook hwnd message wparam lparam)
        else os
      if message = WM_CLOSE then
        let state := { state with is_open := false }
        let state := { state with events := state.events ++ [event.close_event] }
        let os := DestroyWindow os hwnd
        (LRESULT.zero, some state, os)
      else if message = WM_DESTROY then
        (LRESULT.zero, some { state with is_open := false }, os)
      else if message = WM_SIZE then
        (LRESULT.zero,
         some { state with events := state.events ++
           [event.resize_event (LOWORD (to_DWORD_PTR lparam)) (HIWORD (to_DWORD_PTR lparam))] },
         os)
      else if message = WM_ENTERSIZEMOVE then
        (LRESULT.zero, some { state with events := state.events ++ [event.resize_begin_event] }, os)
      else if message = WM_EXITSIZEMOVE then
        (LRESULT.zero, some { state with events := state.events ++ [event.resize_end_event] }, os)
      else if message = WM_KEYDOWN ∨ message = WM_SYSKEYDOWN then
        (LRESULT.zero,
         some { state with events := state.events ++
           [event.key_event (map_key wparam) true (Nat.testBit (to_DWORD_PTR lparam) 30)] },
         os)
      else if message = WM_KEYUP ∨ message = WM_SYSKEYUP then
        (LRESULT.zero,
         some { state with events := state.events ++ [event.key_event (map_key wparam) false false] },
         os)
      else if message = WM_MOUSEMOVE then
        let x := GET_X_LPARAM lparam
        let y := GET_Y_LPARAM lparam
        let state := { state with events := state.events ++ [event.mouse_move_event x y] }
        if state.cursor = cursor_mode.captured_hidden then
          if state.suppress_next_mouse_move then
            (LRESULT.zero, some { state with suppress_next_mouse_move := false }, os)
          else
            let got := GetClientRect os hwnd
            match got.1 with
            | some client =>
              let center_x := to_int32 (Int.tdiv (to_int32 (client.right - client.left)) 2)
              let center_y := to_int32 (Int.tdiv (to_int32 (client.bottom - client.top)) 2)
              let dx := to_int32 (x - center_x)
              let dy := to_int32 (y - center_y)
              if dx ≠ 0 ∨ dy ≠ 0 then
                let state := { state with events := state.events ++ [event.mouse_delta_event dx dy] }
                let center := ClientToScreen got.2 hwnd { x := center_x, y := center_y }
                let state := { state with suppress_next_mouse_move := true }
                let os := SetCursorPos center.2 center.1.x center.1.y
                (LRESULT.zero, some state, os)
              else
                (LRESULT.zero, some state, got.2)
            | none => (LRESULT.zero, some state, got.2)
        else
          (LRESULT.zero, some state, os)
      else if message = WM_LBUTTONDOWN ∨ message = WM_LBUTTONUP ∨ message = WM_RBUTTONDOWN
          ∨ message = WM_RBUTTONUP ∨ message = WM_MBUTTONDOWN ∨ message = WM_MBUTTONUP
          ∨ message = WM_XBUTTONDOWN ∨ message = WM_XBUTTONUP then
        (LRESULT.zero,
         some { state with events := state.events ++
           [event.mouse_button_event (map_mouse_button message wparam)
             (decide (message = WM_LBUTTONDOWN ∨ message = WM_RBUTTONDOWN
               ∨ message = WM_MBUTTONDOWN ∨ message = WM_XBUTTONDOWN))
             (GET_X_LPARAM lparam) (GET_Y_LPARAM lparam)] },
         os)
      else
        let r := DefWindowProcW os hwnd message wparam lparam
        (r.1, some state, r.2)

/-! ## Window facade -/

/-- The structure `window::impl`: the owning pointer `state` (`none` is null). -/
structure impl where
  state : Option window_state
  deriving DecidableEq, Repr

/-- The class `window`: the owning pointer `m_impl` (`none` is null). -/
structure window where
  m_impl : Option impl
  deriving DecidableEq, Repr

/-- A window object together with everything outside it. -/
structure world where
  win : window
  os : os_state
  deriving DecidableEq, Repr

/-- The exceptions of `platform_exceptions.hpp` that the window code throws. -/
inductive exception where
  | window_error (what : String)
  deriving DecidableEq, Repr

/-- The `window_state` object reached through `m_impl->state`, if both pointers are set. -/
def window.state (w : window) : Option window_state :=
  match w.m_impl with
  | none => none
  | some i => i.state

/-- The window object with `st` stored in the object `m_impl->state` points to. -/
def window.store (w : window) (st : window_state) : window :=
  match w.m_impl with
  | none => w
  | some i =>
    match i.state with
    | none => w
    | some _ => { m_impl := some { state := some st } }

/-- `DispatchMessageW`: the dispatcher calls `window_proc` with the message. -/
def DispatchMessageW (w : world) (msg : MSG) : world :=
  let r := window_proc w.win.state (w.os.record (os_call.DispatchMessageW msg)) msg.hwnd
    msg.message msg.wParam msg.lParam
  match r.2.1 with
  | some st => { win := w.win.store st, os := r.2.2 }
  | none => { win := w.win, os := r.2.2 }

/-- The loop of `window::pump_messages`, at most `fuel` calls of `PeekMessageW`. -/
def pump_messages_loop : Nat → world → world
  | 0, w => w
  | fuel + 1, w =>
    match (PeekMessageW w.os).1 with
    | none => { w with os := (PeekMessageW w.os).2 }
    | some msg =>
      pump_messages_loop fuel
        (DispatchMessageW
          { w with os := (PeekMessageW w.os).2.record (os_call.TranslateMessage msg) } msg)

/-- The function `window::pump_messages`: one `PeekMessageW` per pending message
and the one that finds the queue empty. -/
def pump_messages (w : world) : world :=
  pump_messages_loop (w.os.pending.length + 1) w

/-- The function `window::poll_event`. -/
def poll_event (w : world) : Option event × world :=
  let w := pump_messages w
  match w.win.m_impl with
  | none => (none, w)
  | some i =>
    match i.state with
    | none => (none, w)
    | some st =>
      match st.events with
      | [] => (none, w)
      | next_event :: rest =>
        (some next_event, { w with win := { m_impl := some { state := some { st with events := rest } } } })

/-- The function `window::is_open`. -/
def is_open (w : world) : Bool :=
  match w.win.m_impl with
  | none => false
  | some i =>
    match i.state with
    | none => false
    | some st => st.is_open

/-- The function `window::get_cursor_mode`. -/
def get_cursor_mode (w : world) : cursor_mode :=
  match w.win.m_impl with
  | none => cursor_mode.normal
  | some i =>
    match i.state with
    | none => cursor_mode.normal
    | some st => st.cursor

/-- The function `window::request_close`. -/
def request_close (w : world) : world :=
  match w.win.m_impl with
  | none => w
  | some i =>
    match i.state with
    | none => w
    | some st =>
      if st.hwnd ≠ 0 then
        if (IsWindow w.os st.hwnd).1 then
          { w with os := PostMessageW (IsWindow w.os st.hwnd).2 st.hwnd WM_CLOSE 0 0 }
        else { w with os := (IsWindow w.os st.hwnd).2 }
      else w

/-- The function `window::show` (`show` is reserved, hence `show_`). -/
def show_ (w : world) : world :=
  match w.win.m_impl with
  | none => w
  | some i =>
    match i.state with
    | none => w
    | some st =>
      if st.hwnd ≠ 0 then
        { w with os := (w.os.record (os_call.ShowWindow st.hwnd)).record (os_call.UpdateWindow st.hwnd) }
      else w

/-- The structure `window_size`. -/
structure window_size where
  width : Nat := 0
  height : Nat := 0
  deriving DecidableEq, Repr

/-- The function `window::size`. -/
def size (w : world) : window_size × world :=
  match w.win.m_impl with
  | none => ({}, w)
  | some i =>
    match i.state with
    | none => ({}, w)
    | some st =>
      if st.hwnd = 0 then ({}, w)
      else
        match (GetClientRect w.os st.hwnd).1 with
        | none => ({}, { w with os := (GetClientRect w.os st.hwnd).2 })
        | some client_rect =>
          let width := to_int32 (client_rect.right - client_rect.left)
          let height := to_int32 (client_rect.bottom - client_rect.top)
          ({ width := if width > 0 then width.toNat else 0,
             height := if height > 0 then height.toNat else 0 },
           { w with os := (GetClientRect w.os st.hwnd).2 })

/-- The loop `while (ShowCursor(FALSE) >= 0)`, at most `fuel` calls. -/
def hide_cursor_loop : Nat → os_state → os_state
  | 0, os => os
  | fuel + 1, os =>
    if (ShowCursor os false).1 ≥ 0 then hide_cursor_loop fuel (ShowCursor os false).2
    else (ShowCursor os false).2

/-- The loop `while (ShowCursor(TRUE) < 0)`, at most `fuel` calls. -/
def show_cursor_loop : Nat → os_state → os_state
  | 0, os => os
  | fuel + 1, os =>
    if (ShowCursor os true).1 < 0 then show_cursor_loop fuel (ShowCursor os true).2
    else (ShowCursor os true).2

/-- The function `window::set_cursor_mode`: the exception thrown, if any, and
the world the call leaves behind. The two loops get the number of calls after
which their exit test holds (`hide_cursor_loop_exit`, `show_cursor_loop_exit`). -/
def set_cursor_mode (w : world) (mode : cursor_mode) : Option exception × world :=
  match w.win.m_impl with
  | none => (some (exception.window_error "Cannot set cursor mode on an invalid window."), w)
  | some i =>
    match i.state with
    | none => (some (exception.window_error "Cannot set cursor mode on an invalid window."), w)
    | some st =>
      if st.hwnd = 0 then
        (some (exception.window_error "Cannot set cursor mode on an invalid window."), w)
      else if st.cursor = mode then (none, w)
      else
        let st := { st with cursor := mode }
        let hwnd := st.hwnd
        if mode = cursor_mode.captured_hidden then
          let os := hide_cursor_loop (w.os.display_count.toNat + 1) w.os
          let got := GetClientRect os hwnd
          match got.1 with
          | none =>
            (some (exception.window_error "GetClientRect failed while enabling captured cursor mode."),
             { win := { m_impl := some { state := some st } }, os := got.2 })
          | some client =>
            let tl := ClientToScreen got.2 hwnd { x := client.left, y := client.top }
            let br := ClientToScreen tl.2 hwnd { x := client.right, y := client.bottom }
            let clip_rect : RECT :=
              { left := tl.1.x, top := tl.1.y, right := br.1.x, bottom := br.1.y }
            let clipped := ClipCursor br.2 (some clip_rect)
            if clipped.1 = false then
              (some (exception.window_error "ClipCursor failed while enabling captured cursor mode."),
               { win := { m_impl := some { state := some st } }, os := clipped.2 })
            else
              let center_x := to_int32 (Int.tdiv (to_int32 (client.right - client.left)) 2)
              let center_y := to_int32 (Int.tdiv (to_int32 (client.bottom - client.top)) 2)
              let center := ClientToScreen clipped.2 hwnd { x := center_x, y := center_y }
              let st := { st with suppress_next_mouse_move := true }
              let os := SetCursorPos center.2 center.1.x center.1.y
              (none, { win := { m_impl := some { state := some st } }, os := os })
        else
          let os := (ClipCursor w.os none).2
          let os := show_cursor_loop ((-os.display_count).toNat + 1) os
          let st := { st with suppress_next_mouse_move := false }
          (none, { win := { m_impl := some { state := some st } }, os := os })

/-- The destructor `window::~window`, up to the release of the members: the
exception that escapes, if any, and the world at that point. -/
def window_destructor (w : world) : Option exception × world :=
  match w.win.m_impl with
  | none => (none, w)
  | some i =>
    match i.state with
    | none => (none, w)
    | some st =>
      if st.hwnd ≠ 0 then
        if (IsWindow w.os st.hwnd).1 then
          let w := { w with os := (IsWindow w.os st.hwnd).2 }
          if st.cursor = cursor_mode.captured_hidden then
            let r := set_cursor_mode w cursor_mode.normal
            match r.1 with
            | some e => (some e, r.2)
            | none => (none, { r.2 with os := DestroyWindow r.2.os st.hwnd })
          else
            (none, { w with os := DestroyWindow w.os st.hwnd })
        else (none, { w with os := (IsWindow w.os st.hwnd).2 })
      else (none, w)

/-! ## Vocabulary of the properties -/

/-- Width of a client rectangle as the code computes it, in 32-bit `LONG`. -/
def RECT.width (r : RECT) : Int := to_int32 (r.right - r.left)

/-- Height of a client rectangle as the code computes it, in 32-bit `LONG`. -/
def RECT.height (r : RECT) : Int := to_int32 (r.bottom - r.top)

/-- The call of the native-message hook that `window_proc` makes when one is installed. -/
def hook_calls (os : os_state) (hwnd : HWND) (message : UINT) (wparam : WPARAM)
    (lparam : LPARAM) : List os_call :=
  if os.g_native_message_hook then [os_call.native_message_hook hwnd message wparam lparam]
  else []

/-- Whether a recorded call warps the cursor. -/
def is_warp : os_call → Bool
  | os_call.SetCursorPos _ _ => true
  | _ => false

/-- Whether an event is a `mouse_delta`. -/
def is_mouse_delta : event → Bool
  | event.mouse_delta_event _ _ => true
  | _ => false

/-- Whether a warp is among the calls recorded after `before` and up to `after`. -/
def warp_issued (before after : os_state) : Bool :=
  (after.calls.drop before.calls.length).any is_warp

/-- The event queue of the window (empty when it has no state). -/
def queue (w : world) : List event :=
  match w.win.state with
  | some st => st.events
  | none => []

/-- The suppression flag of the window (clear when it has no state). -/
def suppress_flag (w : world) : Bool :=
  match w.win.state with
  | some st => st.suppress_next_mouse_move
  | none => false

/-- The window is in captured mode with the suppression flag set. -/
def armed (w : world) : Bool :=
  match w.win.state with
  | some st => decide (st.cursor = cursor_mode.captured_hidden) && st.suppress_next_mouse_move
  | none => false

/-- Something that happens to a window: a notification is dispatched to the
translator, or the application calls `set_cursor_mode`. -/
inductive action where
  | notification (msg : MSG)
  | set_cursor_mode (mode : cursor_mode)
  deriving DecidableEq, Repr

/-- The world after an action. -/
def perform (w : world) : action → world
  | action.notification msg => DispatchMessageW w msg
  | action.set_cursor_mode mode => (set_cursor_mode w mode).2

/-- The mouse-move notification for `hwnd` with the given parameters. -/
def mouse_move_msg (hwnd : HWND) (wparam : WPARAM) (lparam : LPARAM) : MSG :=
  { hwnd := hwnd, message := WM_MOUSEMOVE, wParam := wparam, lParam := lparam }

/-- Dispatch a sequence of notifications, in order. -/
def dispatch_all (w : world) (msgs : List MSG) : world :=
  msgs.foldl DispatchMessageW w

/-- One round of the loop of `pump_messages` in which `PeekMessageW` hands out `msg`. -/
def deliver (w : world) (msg : MSG) : world :=
  DispatchMessageW { w with os := (PeekMessageW w.os).2.record (os_call.TranslateMessage msg) } msg

/-- The events the translator appends when `msg` is delivered in world `w`. -/
def translated (w : world) (msg : MSG) : List event :=
  (queue (deliver w msg)).drop (queue w).length

/-- The events the translator appends for a sequence of notifications delivered
one after the other, in the order of the notifications. -/
def translated_all : world → List MSG → List event
  | _, [] => []
  | w, msg :: rest => translated w msg ++ translated_all (deliver w msg) rest

/-- The results of `n` successive calls of `poll_event`, and the world after them. -/
def poll_all : Nat → world → List (Option event) × world
  | 0, w => ([], w)
  | n + 1, w => ((poll_event w).1 :: (poll_all n (poll_event w).2).1, (poll_all n (poll_event w).2).2)

/-- A window that `set_cursor_mode` accepts: `m_impl`, `state` and `hwnd` are all non-null. -/
def valid_window (w : world) : Bool :=
  match w.win.state with
  | some st => st.hwnd != 0
  | none => false

/-! ## Concrete inputs -/

/-- The macro `MAKELPARAM`: the `lParam` of a mouse message at the client
point `(x, y)`, each coordinate given as a 16-bit word. -/
def MAKELPARAM (x y : Nat) : Int := ((x % 65536 + (y % 65536) * 65536 : Nat) : Int)

/-- A 640 by 480 client rectangle. -/
def example_client : RECT := { left := 0, top := 0, right := 640, bottom := 480 }

/-- An OS state with one live window, handle `1`, associated with the window
state, its client area at screen position `(100, 50)`, the cursor visible. -/
def example_os : os_state :=
  { windows := [(1, { client := example_client, origin := { x := 100, y := 50 } })],
    userdata := [1],
    g_native_message_hook := false,
    display_count := 0,
    clip := none,
    clip_allowed := true,
    cursor_pos := { x := 0, y := 0 },
    pending := [],
    calls := [] }

/-- The state of window `1` in normal mode, as `window::create` leaves it. -/
def example_state : window_state := { hwnd := 1 }

/-- The state of window `1` in captured mode with the suppression flag clear. -/
def example_captured_state : window_state :=
  { hwnd := 1, cursor := cursor_mode.captured_hidden }

/-- The window object of `example_state` in `example_os`. -/
def example_world : world :=
  { win := { m_impl := some { state := some example_state } }, os := example_os }

/-- The world of `example_world` once capture has been entered. -/
def example_captured_world : world :=
  (set_cursor_mode example_world cursor_mode.captured_hidden).2

/-- The close notification for window `1`. -/
def example_close_msg : MSG := { hwnd := 1, message := WM_CLOSE, wParam := 0, lParam := 0 }

/-- The world of `example_world` after a close notification: the native
window is destroyed, the window object still holds its handle. -/
def example_closed_world : world :=
  DispatchMessageW example_world example_close_msg

/-- A key-down notification for the key `A`, first press. -/
def example_key_msg : MSG :=
  { hwnd := 1, message := WM_KEYDOWN, wParam := Char.toNat 'A', lParam := 0 }

/-- A size notification for a client area of 800 by 600. -/
def example_size_msg : MSG :=
  { hwnd := 1, message := WM_SIZE, wParam := 0, lParam := MAKELPARAM 800 600 }

/-- A mouse-move notification at the client point `(500, 10)`. -/
def example_move_msg : MSG :=
  { hwnd := 1, message := WM_MOUSEMOVE, wParam := 0, lParam := MAKELPARAM 500 10 }

/-- The example window with three notifications pending. -/
def example_pending_world : world :=
  { win := example_world.win,
    os := { example_os with pending := [example_key_msg, example_size_msg, example_close_msg] } }

/-! ## Reachable worlds -/

/-- Whether a recorded call installs or clears the cursor clip. -/
def is_clip_call : os_call → Bool
  | os_call.ClipCursor _ => true
  | _ => false

/-- The window state as its member initialisers and `window::create` leave it:
open, in normal mode, the suppression flag clear, no event queued. -/
def initial_state (hwnd instance_ : Nat) : window_state :=
  { hwnd := hwnd, instance_ := instance_ }

/-- The worlds a program can get to: a window is created, in any OS state, and
then notifications are dispatched to the translator and the application calls
the operations of the facade, in any order. -/
inductive reachable : world → Prop
  | created (hwnd instance_ : Nat) (os : os_state) :
      reachable { win := { m_impl := some { state := some (initial_state hwnd instance_) } },
                  os := os }
  | by_notification {w : world} (msg : MSG) : reachable w → reachable (DispatchMessageW w msg)
  | by_set_cursor_mode {w : world} (mode : cursor_mode) :
      reachable w → reachable (set_cursor_mode w mode).2
  | by_pump_messages {w : world} : reachable w → reachable (pump_messages w)
  | by_poll_event {w : world} : reachable w → reachable (poll_event w).2
  | by_request_close {w : world} : reachable w → reachable (request_close w)
  | by_show {w : world} : reachable w → reachable (show_ w)
  | by_size {w : world} : reachable w → reachable (size w).2

/-- The suppression flag is set only in captured mode. -/
def flag_implies_capture (w : world) : Bool :=
  !suppress_flag w || decide (get_cursor_mode w = cursor_mode.captured_hidden)

/-- The world `w1` comes from the world `w` by notifications dispatched to the
translator and operations of the facade, in any number and order. -/
inductive evolves (w : world) : world → Prop
  | here : evolves w w
  | by_notification {w1 : world} (msg : MSG) : evolves w w1 → evolves w (DispatchMessageW w1 msg)
  | by_set_cursor_mode {w1 : world} (mode : cursor_mode) :
      evolves w w1 → evolves w (set_cursor_mode w1 mode).2
  | by_pump_messages {w1 : world} : evolves w w1 → evolves w (pump_messages w1)
  | by_poll_event {w1 : world} : evolves w w1 → evolves w (poll_event w1).2
  | by_request_close {w1 : world} : evolves w w1 → evolves w (request_close w1)
  | by_show {w1 : world} : evolves w w1 → evolves w (show_ w1)
  | by_size {w1 : world} : evolves w w1 → evolves w (size w1).2

/-- Whether a native message is a close or a destroy notification. -/
def closes (msg : MSG) : Bool :=
  decide (msg.message = WM_CLOSE ∨ msg.message = WM_DESTROY)

/-- The example window on a system that refuses to install a cursor clip. -/
def example_refused_world : world :=
  { win := example_world.win, os := { example_os with clip_allowed := false } }

/-! # Theorems -/

/-! ## Machine arithmetic -/

theorem to_int32_range (v : Int) : -2147483648 ≤ to_int32 v ∧ to_int32 v < 2147483648 := by
  unfold to_int32; omega

theorem to_int32_of_range (v : Int) (h1 : -2147483648 ≤ v) (h2 : v < 2147483648) :
    to_int32 v = v := by
  unfold to_int32; omega

theorem tdiv_two_bounds (v : Int) (h1 : -2147483648 ≤ v) (h2 : v < 2147483648) :
    -1073741824 ≤ Int.tdiv v 2 ∧ Int.tdiv v 2 ≤ 1073741823 := by
  rcases Int.le_total 0 v with h | h
  · rw [Int.tdiv_eq_ediv h (by norm_num)]; omega
  · have e : Int.tdiv v 2 = -((-v) / 2) := by
      rw [← Int.tdiv_eq_ediv (by omega) (by norm_num), Int.neg_tdiv, neg_neg]
    rw [e]; omega

theorem to_short_range (v : Nat) : -32768 ≤ to_short v ∧ to_short v ≤ 32767 := by
  unfold to_short; split <;> omega

/-- Halving a 32-bit value does not wrap. -/
theorem center_no_wrap (a : Int) :
    to_int32 (Int.tdiv (to_int32 a) 2) = Int.tdiv (to_int32 a) 2 := by
  have h := to_int32_range a
  have h2 := tdiv_two_bounds (to_int32 a) h.1 h.2
  exact to_int32_of_range _ (by omega) (by omega)

/-- A 16-bit coordinate minus half a 32-bit extent does not wrap. -/
theorem delta_no_wrap (v : Nat) (a : Int) :
    to_int32 (to_short v - Int.tdiv (to_int32 a) 2) = to_short v - Int.tdiv (to_int32 a) 2 := by
  have h := to_int32_range a
  have h2 := tdiv_two_bounds (to_int32 a) h.1 h.2
  have h3 := to_short_range v
  exact to_int32_of_range _ (by omega) (by omega)

/-! ## Code mapper -/

theorem ne_of_ge_256 {w c : Nat} (h : 256 ≤ w) (hc : c < 256) : ¬ w = c := by omega

theorem map_key_large (wparam : Nat) (h : 256 ≤ wparam) : map_key wparam = key.unknown := by
  unfold map_key
  repeat (refine (if_neg (ne_of_ge_256 h ?_)).trans ?_; decide)
  rfl

theorem map_key_documented_large (wparam : Nat) (h : 256 ≤ wparam) :
    map_key_documented wparam = key.unknown := by
  have hl : named_key_table.lookup wparam = none := by
    rw [List.lookup_eq_none_iff]
    intro p hp
    have hlt : p.1 < 256 := by
      revert p
      decide
    simp
    omega
  unfold map_key_documented
  rw [hl]
  have e1 : Char.toNat 'Z' < 256 := by decide
  have e2 : Char.toNat '9' < 256 := by decide
  have e3 : VK_F12 < 256 := by decide
  simp only
  rw [if_neg (by omega), if_neg (by omega), if_neg (by omega)]

/-- C4. `map_key` is total and equals its documented table: the named keys
(`VK_ESCAPE`, `VK_RETURN`, `VK_TAB`, `VK_BACK`, `VK_SPACE`, the four arrows,
`VK_LCONTROL` and `VK_CONTROL` to `left_control`, `VK_RCONTROL` to
`right_control`, the two shifts), `'A'..'Z'` to `a..z`, `'0'..'9'` to
`zero..nine`, `VK_F1..VK_F12` to `f1..f12`; every native code outside that
supported set maps to `unknown`. -/
theorem map_key_equals_documented_table (wparam : Nat) :
    map_key wparam = map_key_documented wparam ∧
    (supported_key_code wparam = false → map_key wparam = key.unknown) ∧
    (map_key VK_LCONTROL = key.left_control ∧ map_key VK_CONTROL = key.left_control ∧
      map_key VK_RCONTROL = key.right_control) := by
  refine ⟨?_, ?_, by decide⟩
  · by_cases h : wparam < 256
    · interval_cases wparam <;> rfl
    · rw [map_key_large wparam (by omega), map_key_documented_large wparam (by omega)]
  · by_cases h : wparam < 256
    · interval_cases wparam <;> decide
    · intro _
      exact map_key_large wparam (by omega)

/-- C5. `map_mouse_button` is total and equals its documented table over
(message, code) pairs: the left, right and middle button messages map to
`left`, `right`, `middle` for every code; the X-button messages map to `x1`
when the high word of the code is `XBUTTON1` and to `x2` when it is `XBUTTON2`;
every other message maps to `unknown` for every code. -/
theorem map_mouse_button_equals_documented_table (message wparam : Nat) :
    ((message = WM_LBUTTONDOWN ∨ message = WM_LBUTTONUP) →
      map_mouse_button message wparam = mouse_button.left) ∧
    ((message = WM_RBUTTONDOWN ∨ message = WM_RBUTTONUP) →
      map_mouse_button message wparam = mouse_button.right) ∧
    ((message = WM_MBUTTONDOWN ∨ message = WM_MBUTTONUP) →
      map_mouse_button message wparam = mouse_button.middle) ∧
    ((message = WM_XBUTTONDOWN ∨ message = WM_XBUTTONUP) → GET_XBUTTON_WPARAM wparam = XBUTTON1 →
      map_mouse_button message wparam = mouse_button.x1) ∧
    ((message = WM_XBUTTONDOWN ∨ message = WM_XBUTTONUP) → GET_XBUTTON_WPARAM wparam = XBUTTON2 →
      map_mouse_button message wparam = mouse_button.x2) ∧
    (message ∉ [WM_LBUTTONDOWN, WM_LBUTTONUP, WM_RBUTTONDOWN, WM_RBUTTONUP, WM_MBUTTONDOWN,
        WM_MBUTTONUP, WM_XBUTTONDOWN, WM_XBUTTONUP] →
      map_mouse_button message wparam = mouse_button.unknown) := by
  refine ⟨?_, ?_, ?_, ?_, ?_, ?_⟩
  · intro h; simp [map_mouse_button, h]
  · rintro (h | h) <;> subst h <;>
      simp [map_mouse_button, WM_LBUTTONDOWN, WM_LBUTTONUP, WM_RBUTTONDOWN, WM_RBUTTONUP]
  · rintro (h | h) <;> subst h <;>
      simp [map_mouse_button, WM_LBUTTONDOWN, WM_LBUTTONUP, WM_RBUTTONDOWN, WM_RBUTTONUP,
        WM_MBUTTONDOWN, WM_MBUTTONUP]
  · rintro (h | h) hx <;> subst h <;>
      simp [map_mouse_button, WM_LBUTTONDOWN, WM_LBUTTONUP, WM_RBUTTONDOWN, WM_RBUTTONUP,
        WM_MBUTTONDOWN, WM_MBUTTONUP, WM_XBUTTONDOWN, WM_XBUTTONUP, hx]
  · rintro (h | h) hx <;> subst h <;>
      simp [map_mouse_button, WM_LBUTTONDOWN, WM_LBUTTONUP, WM_RBUTTONDOWN, WM_RBUTTONUP,
        WM_MBUTTONDOWN, WM_MBUTTONUP, WM_XBUTTONDOWN, WM_XBUTTONUP, hx, XBUTTON1, XBUTTON2]
  · intro h
    simp only [List.mem_cons, List.mem_singleton, List.not_mem_nil, or_false, not_or] at h
    obtain ⟨h1, h2, h3, h4, h5, h6, h7, h8⟩ := h
    simp [map_mouse_button, h1, h2, h3, h4, h5, h6, h7, h8]

/-! ## The translator, message by message -/

theorem window_proc_mouse_move_delta (st : window_state) (os : os_state) (hwnd wparam : Nat)
    (lparam : Int) (client : RECT)
    (hassoc : hwnd ∈ os.userdata)
    (hmode : st.cursor = cursor_mode.captured_hidden)
    (hflag : st.suppress_next_mouse_move = false)
    (hrect : (GetClientRect os hwnd).1 = some client)
    (hP : (GET_X_LPARAM lparam, GET_Y_LPARAM lparam)
      ≠ (Int.tdiv client.width 2, Int.tdiv client.height 2)) :
    window_proc (some st) os hwnd WM_MOUSEMOVE wparam lparam =
      (LRESULT.zero,
       some { st with
         events := st.events ++
           [event.mouse_move_event (GET_X_LPARAM lparam) (GET_Y_LPARAM lparam),
            event.mouse_delta_event (GET_X_LPARAM lparam - Int.tdiv client.width 2)
              (GET_Y_LPARAM lparam - Int.tdiv client.height 2)],
         suppress_next_mouse_move := true },
       { os with
         cursor_pos :=
           (ClientToScreen os hwnd
             { x := Int.tdiv client.width 2, y := Int.tdiv client.height 2 }).1,
         calls := os.calls ++ [os_call.GetWindowLongPtrW hwnd]
           ++ hook_calls os hwnd WM_MOUSEMOVE wparam lparam
           ++ [os_call.GetClientRect hwnd,
               os_call.ClientToScreen hwnd
                 { x := Int.tdiv client.width 2, y := Int.tdiv client.height 2 },
               os_call.SetCursorPos
                 (ClientToScreen os hwnd
                   { x := Int.tdiv client.width 2, y := Int.tdiv client.height 2 }).1.x
                 (ClientToScreen os hwnd
                   { x := Int.tdiv client.width 2, y := Int.tdiv client.height 2 }).1.y] }) := by
  have hx := delta_no_wrap (LOWORD (to_DWORD_PTR lparam)) (client.right - client.left)
  have hy := delta_no_wrap (HIWORD (to_DWORD_PTR lparam)) (client.bottom - client.top)
  simp only [RECT.width, RECT.height, GET_X_LPARAM, GET_Y_LPARAM] at hP ⊢
  have hd : ¬ (to_short (LOWORD (to_DWORD_PTR lparam))
        - Int.tdiv (to_int32 (client.right - client.left)) 2 = 0 ∧
      to_short (HIWORD (to_DWORD_PTR lparam))
        - Int.tdiv (to_int32 (client.bottom - client.top)) 2 = 0) := by
    rintro ⟨h1, h2⟩
    apply hP
    rw [Prod.mk.injEq]
    constructor <;> omega
  rcases os with ⟨windows, userdata, hook, dc, clip, ca, cp, pending, calls⟩
  simp only [GetClientRect] at hrect
  cases hook <;>
  simp [window_proc, GetWindowLongPtrW, hassoc, WM_MOUSEMOVE, WM_NCCREATE, WM_CLOSE, WM_DESTROY,
    WM_SIZE, WM_ENTERSIZEMOVE, WM_EXITSIZEMOVE, WM_KEYDOWN, WM_SYSKEYDOWN, WM_KEYUP, WM_SYSKEYUP,
    hmode, hflag, GetClientRect, hrect, center_no_wrap, hx, hy, os_state.record, SetCursorPos,
    ClientToScreen, hook_calls, GET_X_LPARAM, GET_Y_LPARAM] <;>
  exact fun h1 h2 => hd ⟨h1, h2⟩

theorem window_proc_mouse_move_suppressed (st : window_state) (os : os_state) (hwnd wparam : Nat)
    (lparam : Int)
    (hassoc : hwnd ∈ os.userdata)
    (hmode : st.cursor = cursor_mode.captured_hidden)
    (hflag : st.suppress_next_mouse_move = true) :
    window_proc (some st) os hwnd WM_MOUSEMOVE wparam lparam =
      (LRESULT.zero,
       some { st with
         events := st.events ++
           [event.mouse_move_event (GET_X_LPARAM lparam) (GET_Y_LPARAM lparam)],
         suppress_next_mouse_move := false },
       { os with
         calls := os.calls ++ [os_call.GetWindowLongPtrW hwnd]
           ++ hook_calls os hwnd WM_MOUSEMOVE wparam lparam }) := by
  rcases os with ⟨windows, userdata, hook, dc, clip, ca, cp, pending, calls⟩
  cases hook <;>
  simp [window_proc, GetWindowLongPtrW, hassoc, WM_MOUSEMOVE, WM_NCCREATE, WM_CLOSE, WM_DESTROY,
    WM_SIZE, WM_ENTERSIZEMOVE, WM_EXITSIZEMOVE, WM_KEYDOWN, WM_SYSKEYDOWN, WM_KEYUP, WM_SYSKEYUP,
    hmode, hflag, os_state.record, hook_calls]

theorem window_proc_close (st : window_state) (os : os_state) (hwnd wparam : Nat) (lparam : Int)
    (hassoc : hwnd ∈ os.userdata) :
    window_proc (some st) os hwnd WM_CLOSE wparam lparam =
      (LRESULT.zero,
       some { st with is_open := false, events := st.events ++ [event.close_event] },
       { os with
         windows := os.windows.filter (fun p => p.1 != hwnd),
         calls := os.calls ++ [os_call.GetWindowLongPtrW hwnd]
           ++ hook_calls os hwnd WM_CLOSE wparam lparam ++ [os_call.DestroyWindow hwnd] }) := by
  rcases os with ⟨windows, userdata, hook, dc, clip, ca, cp, pending, calls⟩
  cases hook <;>
  simp [window_proc, GetWindowLongPtrW, hassoc, WM_NCCREATE, WM_CLOSE, os_state.record, hook_calls,
    DestroyWindow]

theorem window_proc_destroy (st : window_state) (os : os_state) (hwnd wparam : Nat) (lparam : Int)
    (hassoc : hwnd ∈ os.userdata) :
    window_proc (some st) os hwnd WM_DESTROY wparam lparam =
      (LRESULT.zero,
       some { st with is_open := false },
       { os with
         calls := os.calls ++ [os_call.GetWindowLongPtrW hwnd]
           ++ hook_calls os hwnd WM_DESTROY wparam lparam }) := by
  rcases os with ⟨windows, userdata, hook, dc, clip, ca, cp, pending, calls⟩
  cases hook <;>
  simp [window_proc, GetWindowLongPtrW, hassoc, WM_NCCREATE, WM_CLOSE, WM_DESTROY, os_state.record,
    hook_calls]

/-- C1. Capture delta correctness: in `captured_hidden` mode with the
suppression flag clear, for a successfully read client rectangle of width `W`
and height `H` and a mouse-move to a point `(x, y)` other than
`(W/2, H/2)`, the translator appends `mouse_move{x,y}` immediately followed by
exactly one `mouse_delta{x - W/2, y - H/2}`, sets the suppression flag and warps
the cursor to the screen position of the centre; the next mouse-move, at the
centre, appends only its `mouse_move`, no `mouse_delta`, issues no warp and
clears the flag. -/
theorem capture_delta_correctness (st : window_state) (os : os_state) (hwnd wparam wparam2 : Nat)
    (lparam lparam2 : Int) (client : RECT)
    (hassoc : hwnd ∈ os.userdata)
    (hmode : st.cursor = cursor_mode.captured_hidden)
    (hflag : st.suppress_next_mouse_move = false)
    (hrect : (GetClientRect os hwnd).1 = some client)
    (hP : (GET_X_LPARAM lparam, GET_Y_LPARAM lparam)
      ≠ (Int.tdiv client.width 2, Int.tdiv client.height 2))
    (hC : (GET_X_LPARAM lparam2, GET_Y_LPARAM lparam2)
      = (Int.tdiv client.width 2, Int.tdiv client.height 2)) :
    ∃ st1 os1,
      window_proc (some st) os hwnd WM_MOUSEMOVE wparam lparam = (LRESULT.zero, some st1, os1) ∧
      st1 = { st with
        events := st.events ++
          [event.mouse_move_event (GET_X_LPARAM lparam) (GET_Y_LPARAM lparam),
           event.mouse_delta_event (GET_X_LPARAM lparam - Int.tdiv client.width 2)
             (GET_Y_LPARAM lparam - Int.tdiv client.height 2)],
        suppress_next_mouse_move := true } ∧
      os1 = { os with
        cursor_pos :=
          (ClientToScreen os hwnd
            { x := Int.tdiv client.width 2, y := Int.tdiv client.height 2 }).1,
        calls := os.calls ++ [os_call.GetWindowLongPtrW hwnd]
          ++ hook_calls os hwnd WM_MOUSEMOVE wparam lparam
          ++ [os_call.GetClientRect hwnd,
              os_call.ClientToScreen hwnd
                { x := Int.tdiv client.width 2, y := Int.tdiv client.height 2 },
              os_call.SetCursorPos
                (ClientToScreen os hwnd
                  { x := Int.tdiv client.width 2, y := Int.tdiv client.height 2 }).1.x
                (ClientToScreen os hwnd
                  { x := Int.tdiv client.width 2, y := Int.tdiv client.height 2 }).1.y] } ∧
      window_proc (some st1) os1 hwnd WM_MOUSEMOVE wparam2 lparam2 =
        (LRESULT.zero,
         some { st1 with
           events := st1.events ++
             [event.mouse_move_event (Int.tdiv client.width 2) (Int.tdiv client.height 2)],
           suppress_next_mouse_move := false },
         { os1 with
           calls := os1.calls ++ [os_call.GetWindowLongPtrW hwnd]
             ++ hook_calls os1 hwnd WM_MOUSEMOVE wparam2 lparam2 }) := by
  refine ⟨_, _, window_proc_mouse_move_delta st os hwnd wparam lparam client hassoc hmode hflag
    hrect hP, rfl, rfl, ?_⟩
  rw [Prod.mk.injEq] at hC
  rw [← hC.1, ← hC.2]
  exact window_proc_mouse_move_suppressed _ _ hwnd wparam2 lparam2 hassoc hmode rfl

/-- C1 at a concrete input: a 640 by 480 client area and a move to `(330, 235)`. -/
theorem capture_delta_correctness_witness :
    ∃ st1 os1,
      window_proc (some example_captured_state) example_os 1 WM_MOUSEMOVE 0 (MAKELPARAM 330 235)
        = (LRESULT.zero, some st1, os1) ∧
      st1.events = [event.mouse_move_event 330 235, event.mouse_delta_event 10 (-5)] ∧
      st1.suppress_next_mouse_move = true ∧
      os1.cursor_pos = { x := 420, y := 290 } ∧
      (window_proc (some st1) os1 1 WM_MOUSEMOVE 0 (MAKELPARAM 320 240)).2.1 =
        some { st1 with
          events := [event.mouse_move_event 330 235, event.mouse_delta_event 10 (-5),
            event.mouse_move_event 320 240],
          suppress_next_mouse_move := false } := by
  obtain ⟨st1, os1, h1, h2, h3, h4⟩ :=
    capture_delta_correctness example_captured_state example_os 1 0 0 (MAKELPARAM 330 235)
      (MAKELPARAM 320 240) example_client (by decide) (by decide) (by decide) (by decide)
      (by decide) (by decide)
  subst h2 h3
  refine ⟨_, _, h1, ?_, ?_, ?_, ?_⟩
  · decide
  · rfl
  · decide
  · rw [h4]; decide

/-- C6. Close and destroy: for a window state associated with the handle, a
close notification sets `is_open` to false and appends exactly one `close`
event (and requests native destruction); a destroy notification sets `is_open`
to false and appends no event. Neither changes the cursor mode, the
suppression flag or the events already queued. With a previously empty queue
and the close notification pending, `poll_event` yields `close` and `is_open()`
is false afterwards. -/
theorem close_and_destroy (st : window_state) (os : os_state) (hwnd wparam : Nat) (lparam : Int)
    (hassoc : hwnd ∈ os.userdata) :
    window_proc (some st) os hwnd WM_CLOSE wparam lparam =
      (LRESULT.zero,
       some { st with is_open := false, events := st.events ++ [event.close_event] },
       { os with
         windows := os.windows.filter (fun p => p.1 != hwnd),
         calls := os.calls ++ [os_call.GetWindowLongPtrW hwnd]
           ++ hook_calls os hwnd WM_CLOSE wparam lparam ++ [os_call.DestroyWindow hwnd] }) ∧
    window_proc (some st) os hwnd WM_DESTROY wparam lparam =
      (LRESULT.zero,
       some { st with is_open := false },
       { os with
         calls := os.calls ++ [os_call.GetWindowLongPtrW hwnd]
           ++ hook_calls os hwnd WM_DESTROY wparam lparam }) ∧
    (st.events = [] →
      (poll_event
        { win := { m_impl := some { state := some st } },
          os := { os with pending :=
            [{ hwnd := hwnd, message := WM_CLOSE, wParam := wparam, lParam := lparam }] } }).1
        = some event.close_event ∧
      is_open (poll_event
        { win := { m_impl := some { state := some st } },
          os := { os with pending :=
            [{ hwnd := hwnd, message := WM_CLOSE, wParam := wparam, lParam := lparam }] } }).2
        = false ∧
      queue (poll_event
        { win := { m_impl := some { state := some st } },
          os := { os with pending :=
            [{ hwnd := hwnd, message := WM_CLOSE, wParam := wparam, lParam := lparam }] } }).2
        = []) := by
  refine ⟨window_proc_close st os hwnd wparam lparam hassoc,
    window_proc_destroy st os hwnd wparam lparam hassoc, ?_⟩
  intro hq
  simp only [poll_event, pump_messages, pump_messages_loop, PeekMessageW, DispatchMessageW,
    os_state.record, window.state, window.store, List.length_singleton]
  rw [window_proc_close _ _ _ _ _ (by simpa using hassoc)]
  simp [hq, is_open, queue, window.state, PeekMessageW]


/-- C6 at a concrete input: the example window in captured mode. -/
theorem close_and_destroy_witness :
    (window_proc (some example_captured_state) example_os 1 WM_CLOSE 0 0).2.1 =
      some { example_captured_state with is_open := false, events := [event.close_event] } ∧
    (window_proc (some example_captured_state) example_os 1 WM_DESTROY 0 0).2.1 =
      some { example_captured_state with is_open := false } ∧
    (poll_event
      { win := { m_impl := some { state := some example_captured_state } },
        os := { example_os with pending :=
          [{ hwnd := 1, message := WM_CLOSE, wParam := 0, lParam := 0 }] } }).1
      = some event.close_event := by
  have h := close_and_destroy example_captured_state example_os 1 0 0 (by decide)
  exact ⟨by rw [h.1]; rfl, by rw [h.2.1], (h.2.2 rfl).1⟩

/-! ## The cursor capture controller -/

/-- With `display_count.toNat + 1` calls or more the hiding loop leaves by its
exit test: the result does not depend on the bound. -/
theorem hide_cursor_loop_exit (fuel : Nat) (os : os_state)
    (h : os.display_count.toNat + 1 ≤ fuel) :
    hide_cursor_loop fuel os =
      { os with display_count := min (os.display_count - 1) (-1),
                calls := os.calls ++
                  List.replicate (os.display_count.toNat + 1) (os_call.ShowCursor false) } := by
  induction fuel generalizing os with
  | zero => omega
  | succ n ih =>
    rcases os with ⟨windows, userdata, hook, dc, clip, ca, cp, pending, calls⟩
    simp only at h
    unfold hide_cursor_loop
    simp only [ShowCursor, Bool.false_eq_true, if_false]
    by_cases hc : dc - 1 ≥ 0
    · rw [if_pos hc, ih _ (by simp only; omega)]
      have e1 : (dc - 1).toNat + 1 = dc.toNat := by omega
      have e2 : dc.toNat + 1 = (dc.toNat) + 1 := rfl
      simp only [e1, List.append_assoc, List.singleton_append, ← List.replicate_succ]
      congr 1
      omega
    · rw [if_neg hc]
      have e1 : dc.toNat = 0 := by omega
      simp only [e1, Nat.zero_add, List.replicate_one]
      congr 1
      omega

/-- With `(-display_count).toNat` calls (at least one) or more the showing loop
leaves by its exit test: the result does not depend on the bound. -/
theorem show_cursor_loop_exit (fuel : Nat) (os : os_state)
    (h : (-os.display_count).toNat ≤ fuel) (hf : 1 ≤ fuel) :
    show_cursor_loop fuel os =
      { os with display_count := max (os.display_count + 1) 0,
                calls := os.calls ++
                  List.replicate (max (-os.display_count).toNat 1) (os_call.ShowCursor true) } := by
  induction fuel generalizing os with
  | zero => omega
  | succ n ih =>
    rcases os with ⟨windows, userdata, hook, dc, clip, ca, cp, pending, calls⟩
    simp only at h
    unfold show_cursor_loop
    simp only [ShowCursor, if_true]
    by_cases hc : dc + 1 < 0
    · rw [if_pos hc, ih _ (by simp only; omega) (by omega)]
      have e1 : max (-(dc + 1)).toNat 1 + 1 = max (-dc).toNat 1 := by omega
      simp only [← e1, List.append_assoc, List.singleton_append, ← List.replicate_succ]
      congr 1
      omega
    · rw [if_neg hc]
      have e1 : max (-dc).toNat 1 = 1 := by omega
      simp only [e1, List.replicate_one]
      congr 1
      omega


theorem valid_window_iff (w : world) :
    valid_window w = true ↔ ∃ st, w.win.m_impl = some { state := some st } ∧ st.hwnd ≠ 0 := by
  rcases w with ⟨⟨_ | ⟨_ | st⟩⟩, os⟩ <;> simp [valid_window, window.state]

theorem set_cursor_mode_same (st : window_state) (os : os_state) (mode : cursor_mode)
    (hh : st.hwnd ≠ 0) (hm : st.cursor = mode) :
    set_cursor_mode { win := { m_impl := some { state := some st } }, os := os } mode =
      (none, { win := { m_impl := some { state := some st } }, os := os }) := by
  simp [set_cursor_mode, hh, hm]

theorem set_cursor_mode_result_mode (st : window_state) (os : os_state) (mode : cursor_mode)
    (hh : st.hwnd ≠ 0) :
    ∃ st1, (set_cursor_mode { win := { m_impl := some { state := some st } }, os := os } mode).2.win
        = { m_impl := some { state := some st1 } } ∧
      st1.cursor = mode ∧ st1.hwnd = st.hwnd ∧ st1.events = st.events ∧ st1.is_open = st.is_open := by
  by_cases hm : st.cursor = mode
  · rw [set_cursor_mode_same st os mode hh hm]
    exact ⟨st, rfl, hm, rfl, rfl, rfl⟩
  · cases mode with
    | normal =>
      simp [set_cursor_mode, hh, hm]
    | captured_hidden =>
      simp only [set_cursor_mode, hh, hm, if_false, if_true]
      split
      · simp
      · split <;> simp

/-- C7. Capture idempotence: on a valid window, `set_cursor_mode(m)` when the
current mode is already `m` raises nothing, issues no OS call and leaves the
window state (and everything else) unchanged; hence a second
`set_cursor_mode(m)` right after a first one returns normally and changes
nothing: twice in a row is the same state and the same OS calls as once. -/
theorem set_cursor_mode_idempotent (w : world) (m : cursor_mode) (hvalid : valid_window w = true) :
    (get_cursor_mode w = m → set_cursor_mode w m = (none, w)) ∧
    set_cursor_mode (set_cursor_mode w m).2 m = (none, (set_cursor_mode w m).2) := by
  obtain ⟨st, hst, hh⟩ := (valid_window_iff w).1 hvalid
  rcases w with ⟨⟨mi⟩, os⟩
  simp only at hst
  subst hst
  constructor
  · intro hm
    exact set_cursor_mode_same st os m hh (by simpa [get_cursor_mode] using hm)
  · obtain ⟨st1, h1, h2, h3, -, -⟩ := set_cursor_mode_result_mode st os m hh
    have e : (set_cursor_mode { win := { m_impl := some { state := some st } }, os := os } m).2
        = { win := { m_impl := some { state := some st1 } },
            os := (set_cursor_mode { win := { m_impl := some { state := some st } }, os := os } m).2.os } := by
      rw [← h1]
    rw [e]
    exact set_cursor_mode_same st1 _ m (by rw [h3]; exact hh) h2


/-- C7 at concrete inputs: the example window in normal mode, and twice
`captured_hidden` in a row. -/
theorem set_cursor_mode_idempotent_witness :
    set_cursor_mode example_world cursor_mode.normal = (none, example_world) ∧
    set_cursor_mode (set_cursor_mode example_world cursor_mode.captured_hidden).2
        cursor_mode.captured_hidden
      = (none, (set_cursor_mode example_world cursor_mode.captured_hidden).2) :=
  ⟨(set_cursor_mode_idempotent example_world cursor_mode.normal (by decide)).1 (by decide),
   (set_cursor_mode_idempotent example_world cursor_mode.captured_hidden (by decide)).2⟩

/-- `set_cursor_mode` neither creates nor destroys native windows and does not
touch the handle association. -/
theorem set_cursor_mode_preserves_windows (w : world) (mode : cursor_mode) :
    (set_cursor_mode w mode).2.os.windows = w.os.windows ∧
    (set_cursor_mode w mode).2.os.userdata = w.os.userdata := by
  rcases w with ⟨⟨_ | ⟨_ | st⟩⟩, os⟩
  · simp [set_cursor_mode]
  · simp [set_cursor_mode]
  · by_cases hh : st.hwnd = 0
    · simp [set_cursor_mode, hh]
    · by_cases hm : st.cursor = mode
      · simp [set_cursor_mode, hh, hm]
      · cases mode with
        | normal =>
          simp only [set_cursor_mode, hh, hm, if_false]
          rw [show_cursor_loop_exit _ _ (by simp) (by simp)]
          simp only [reduceCtorEq, if_false]
          cases hc : os.clip_allowed <;> simp [ClipCursor, hc, os_state.record]
        | captured_hidden =>
          simp only [set_cursor_mode, hh, hm, if_false, if_true]
          rw [hide_cursor_loop_exit _ _ (le_refl _)]
          split
          · simp [GetClientRect, os_state.record]
          · cases hc : os.clip_allowed <;>
              simp [GetClientRect, ClientToScreen, ClipCursor, SetCursorPos, os_state.record, hc]

/-- Entering capture on a live window whose clip can be installed, in closed form. -/
theorem set_cursor_mode_enter (st : window_state) (os : os_state) (nw : native_window)
    (hh : st.hwnd ≠ 0)
    (hmode : st.cursor = cursor_mode.normal)
    (hlive : os.windows.lookup st.hwnd = some nw)
    (hclip : os.clip_allowed = true) :
    set_cursor_mode { win := { m_impl := some { state := some st } }, os := os }
        cursor_mode.captured_hidden =
      (none,
       { win := { m_impl := some { state := some ({ st with
           cursor := cursor_mode.captured_hidden, suppress_next_mouse_move := true }) } },
         os := { os with
           display_count := min (os.display_count - 1) (-1),
           clip := some { left := nw.client.left + nw.origin.x,
                          top := nw.client.top + nw.origin.y,
                          right := nw.client.right + nw.origin.x,
                          bottom := nw.client.bottom + nw.origin.y },
           cursor_pos := { x := Int.tdiv nw.client.width 2 + nw.origin.x,
                           y := Int.tdiv nw.client.height 2 + nw.origin.y },
           calls := os.calls
             ++ List.replicate (os.display_count.toNat + 1) (os_call.ShowCursor false)
             ++ [os_call.GetClientRect st.hwnd,
                 os_call.ClientToScreen st.hwnd { x := nw.client.left, y := nw.client.top },
                 os_call.ClientToScreen st.hwnd { x := nw.client.right, y := nw.client.bottom },
                 os_call.ClipCursor (some { left := nw.client.left + nw.origin.x,
                                            top := nw.client.top + nw.origin.y,
                                            right := nw.client.right + nw.origin.x,
                                            bottom := nw.client.bottom + nw.origin.y }),
                 os_call.ClientToScreen st.hwnd
                   { x := Int.tdiv nw.client.width 2, y := Int.tdiv nw.client.height 2 },
                 os_call.SetCursorPos (Int.tdiv nw.client.width 2 + nw.origin.x)
                   (Int.tdiv nw.client.height 2 + nw.origin.y)] } }) := by
  have hne : ¬ cursor_mode.normal = cursor_mode.captured_hidden := by decide
  simp only [set_cursor_mode, hh, hmode, hne, if_false, if_true]
  rw [hide_cursor_loop_exit _ _ (le_refl _)]
  rcases os with ⟨windows, userdata, hook, dc, clip, ca, cp, pending, calls⟩
  simp only at hlive hclip
  subst hclip
  simp [GetClientRect, ClientToScreen, ClipCursor, SetCursorPos, os_state.record, hlive,
    center_no_wrap, RECT.width, RECT.height]

/-- Entering capture on a live window whose clip cannot be installed. -/
theorem set_cursor_mode_enter_no_clip (st : window_state) (os : os_state) (nw : native_window)
    (hh : st.hwnd ≠ 0)
    (hmode : st.cursor = cursor_mode.normal)
    (hlive : os.windows.lookup st.hwnd = some nw)
    (hclip : os.clip_allowed = false) :
    set_cursor_mode { win := { m_impl := some { state := some st } }, os := os }
        cursor_mode.captured_hidden =
      (some (exception.window_error "ClipCursor failed while enabling captured cursor mode."),
       { win := { m_impl := some { state := some ({ st with
           cursor := cursor_mode.captured_hidden }) } },
         os := { os with
           display_count := min (os.display_count - 1) (-1),
           calls := os.calls
             ++ List.replicate (os.display_count.toNat + 1) (os_call.ShowCursor false)
             ++ [os_call.GetClientRect st.hwnd,
                 os_call.ClientToScreen st.hwnd { x := nw.client.left, y := nw.client.top },
                 os_call.ClientToScreen st.hwnd { x := nw.client.right, y := nw.client.bottom },
                 os_call.ClipCursor (some { left := nw.client.left + nw.origin.x,
                                            top := nw.client.top + nw.origin.y,
                                            right := nw.client.right + nw.origin.x,
                                            bottom := nw.client.bottom + nw.origin.y })] } }) := by
  have hne : ¬ cursor_mode.normal = cursor_mode.captured_hidden := by decide
  simp only [set_cursor_mode, hh, hmode, hne, if_false, if_true]
  rw [hide_cursor_loop_exit _ _ (le_refl _)]
  rcases os with ⟨windows, userdata, hook, dc, clip, ca, cp, pending, calls⟩
  simp only at hlive hclip
  subst hclip
  simp [GetClientRect, ClientToScreen, ClipCursor, os_state.record, hlive]

/-- C10. Entering capture: on a valid window in normal mode whose client
rectangle (width `W`, height `H`) can be read and whose clip can be installed,
`set_cursor_mode(captured_hidden)` returns normally with cursor mode
`captured_hidden` and the suppression flag armed, the event queue and `is_open`
unchanged; it has hidden the cursor (display counter below zero), installed a
clip region equal to the client rectangle in screen coordinates, and warped the
cursor to the screen position of the client point `(W/2, H/2)`, which is the
centre the translator subtracts from a later captured move to form its delta. -/
theorem entering_capture (st : window_state) (os : os_state) (nw : native_window)
    (hh : st.hwnd ≠ 0)
    (hmode : st.cursor = cursor_mode.normal)
    (hlive : os.windows.lookup st.hwnd = some nw)
    (hclip : os.clip_allowed = true) :
    (GetClientRect os st.hwnd).1 = some nw.client ∧
    set_cursor_mode { win := { m_impl := some { state := some st } }, os := os }
        cursor_mode.captured_hidden =
      (none,
       { win := { m_impl := some { state := some ({ st with
           cursor := cursor_mode.captured_hidden, suppress_next_mouse_move := true }) } },
         os := { os with
           display_count := min (os.display_count - 1) (-1),
           clip := some { left := nw.client.left + nw.origin.x,
                          top := nw.client.top + nw.origin.y,
                          right := nw.client.right + nw.origin.x,
                          bottom := nw.client.bottom + nw.origin.y },
           cursor_pos := { x := Int.tdiv nw.client.width 2 + nw.origin.x,
                           y := Int.tdiv nw.client.height 2 + nw.origin.y },
           calls := os.calls
             ++ List.replicate (os.display_count.toNat + 1) (os_call.ShowCursor false)
             ++ [os_call.GetClientRect st.hwnd,
                 os_call.ClientToScreen st.hwnd { x := nw.client.left, y := nw.client.top },
                 os_call.ClientToScreen st.hwnd { x := nw.client.right, y := nw.client.bottom },
                 os_call.ClipCursor (some { left := nw.client.left + nw.origin.x,
                                            top := nw.client.top + nw.origin.y,
                                            right := nw.client.right + nw.origin.x,
                                            bottom := nw.client.bottom + nw.origin.y }),
                 os_call.ClientToScreen st.hwnd
                   { x := Int.tdiv nw.client.width 2, y := Int.tdiv nw.client.height 2 },
                 os_call.SetCursorPos (Int.tdiv nw.client.width 2 + nw.origin.x)
                   (Int.tdiv nw.client.height 2 + nw.origin.y)] } }) ∧
    min (os.display_count - 1) (-1) < 0 ∧
    (∀ (wparam : Nat) (lparam : Int), st.hwnd ∈ os.userdata →
      (GET_X_LPARAM lparam, GET_Y_LPARAM lparam)
        ≠ (Int.tdiv nw.client.width 2, Int.tdiv nw.client.height 2) →
      (window_proc
          (some { st with cursor := cursor_mode.captured_hidden,
                          suppress_next_mouse_move := false })
          (set_cursor_mode { win := { m_impl := some { state := some st } }, os := os }
            cursor_mode.captured_hidden).2.os
          st.hwnd WM_MOUSEMOVE wparam lparam).2.1 =
        some { st with
          cursor := cursor_mode.captured_hidden,
          suppress_next_mouse_move := true,
          events := st.events ++
            [event.mouse_move_event (GET_X_LPARAM lparam) (GET_Y_LPARAM lparam),
             event.mouse_delta_event (GET_X_LPARAM lparam - Int.tdiv nw.client.width 2)
               (GET_Y_LPARAM lparam - Int.tdiv nw.client.height 2)] }) := by
  refine ⟨by simp [GetClientRect, hlive], set_cursor_mode_enter st os nw hh hmode hlive hclip,
    by omega, ?_⟩
  intro wparam lparam hassoc hP
  rw [window_proc_mouse_move_delta _ _ st.hwnd wparam lparam nw.client]
  · rw [(set_cursor_mode_preserves_windows _ _).2]; exact hassoc
  · rfl
  · rfl
  · simp [GetClientRect, (set_cursor_mode_preserves_windows _ _).1, hlive]
  · exact hP

/-- C10 at a concrete input: the example window, 640 by 480 at `(100, 50)`. -/
theorem entering_capture_witness :
    (set_cursor_mode example_world cursor_mode.captured_hidden).1 = none ∧
    get_cursor_mode example_captured_world = cursor_mode.captured_hidden ∧
    suppress_flag example_captured_world = true ∧
    example_captured_world.os.clip
      = some { left := 100, top := 50, right := 740, bottom := 530 } ∧
    example_captured_world.os.cursor_pos = { x := 420, y := 290 } ∧
    example_captured_world.os.display_count = -1 := by
  have h := (entering_capture example_state example_os
    { client := example_client, origin := { x := 100, y := 50 } }
    (by decide) (by decide) (by decide) (by decide)).2.1
  have e : example_captured_world =
      (set_cursor_mode { win := { m_impl := some { state := some example_state } }, os := example_os }
        cursor_mode.captured_hidden).2 := rfl
  have e0 : set_cursor_mode example_world cursor_mode.captured_hidden =
      set_cursor_mode { win := { m_impl := some { state := some example_state } }, os := example_os }
        cursor_mode.captured_hidden := rfl
  refine ⟨by rw [e0, h], ?_, ?_, ?_, ?_, ?_⟩ <;>
  · rw [e, h]; decide

/-- Leaving capture, in closed form. -/
theorem set_cursor_mode_leave (st : window_state) (os : os_state)
    (hh : st.hwnd ≠ 0) (hmode : st.cursor = cursor_mode.captured_hidden) :
    set_cursor_mode { win := { m_impl := some { state := some st } }, os := os }
        cursor_mode.normal =
      (none,
       { win := { m_impl := some { state := some ({ st with
           cursor := cursor_mode.normal, suppress_next_mouse_move := false }) } },
         os := { os with
           display_count := max (os.display_count + 1) 0,
           clip := if os.clip_allowed then none else os.clip,
           calls := os.calls ++ [os_call.ClipCursor none]
             ++ List.replicate (max (-os.display_count).toNat 1) (os_call.ShowCursor true) } }) := by
  have hne : ¬ cursor_mode.captured_hidden = cursor_mode.normal := by decide
  have hne2 : ¬ cursor_mode.normal = cursor_mode.captured_hidden := by decide
  simp only [set_cursor_mode, hh, hmode, hne, hne2, if_false, if_true]
  rcases os with ⟨windows, userdata, hook, dc, clip, ca, cp, pending, calls⟩
  cases ca <;>
  · simp only [ClipCursor, os_state.record, if_true, if_false, Bool.false_eq_true]
    rw [show_cursor_loop_exit _ _ (by simp) (by simp)]

/-- Entering capture on a window whose client rectangle cannot be read. -/
theorem set_cursor_mode_enter_no_rect (st : window_state) (os : os_state)
    (hh : st.hwnd ≠ 0) (hmode : st.cursor = cursor_mode.normal)
    (hdead : os.windows.lookup st.hwnd = none) :
    set_cursor_mode { win := { m_impl := some { state := some st } }, os := os }
        cursor_mode.captured_hidden =
      (some (exception.window_error "GetClientRect failed while enabling captured cursor mode."),
       { win := { m_impl := some { state := some ({ st with
           cursor := cursor_mode.captured_hidden }) } },
         os := { os with
           display_count := min (os.display_count - 1) (-1),
           calls := os.calls
             ++ List.replicate (os.display_count.toNat + 1) (os_call.ShowCursor false)
             ++ [os_call.GetClientRect st.hwnd] } }) := by
  have hne : ¬ cursor_mode.normal = cursor_mode.captured_hidden := by decide
  simp only [set_cursor_mode, hh, hmode, hne, if_false, if_true]
  rw [hide_cursor_loop_exit _ _ (le_refl _)]
  rcases os with ⟨windows, userdata, hook, dc, clip, ca, cp, pending, calls⟩
  simp only at hdead
  simp [GetClientRect, os_state.record, hdead]

/-- The destructor of a live window in captured mode restores normal mode
first: the clip is cleared and the cursor shown before `DestroyWindow`. -/
theorem window_destructor_restores_normal (st : window_state) (os : os_state) (nw : native_window)
    (hh : st.hwnd ≠ 0) (hmode : st.cursor = cursor_mode.captured_hidden)
    (hlive : os.windows.lookup st.hwnd = some nw) :
    window_destructor { win := { m_impl := some { state := some st } }, os := os } =
      (none,
       { win := { m_impl := some { state := some ({ st with
           cursor := cursor_mode.normal, suppress_next_mouse_move := false }) } },
         os := { os with
           windows := os.windows.filter (fun p => p.1 != st.hwnd),
           display_count := max (os.display_count + 1) 0,
           clip := if os.clip_allowed then none else os.clip,
           calls := os.calls ++ [os_call.IsWindow st.hwnd, os_call.ClipCursor none]
             ++ List.replicate (max (-os.display_count).toNat 1) (os_call.ShowCursor true)
             ++ [os_call.DestroyWindow st.hwnd] } }) := by
  simp only [window_destructor, hh, hmode, IsWindow, hlive, Option.isSome, ne_eq, not_false_eq_true,
    if_true]
  rw [set_cursor_mode_leave st _ hh hmode]
  simp [DestroyWindow, os_state.record]

/-- C8, at the failing input. The example window enters capture (clip
installed, cursor hidden) and then receives a close notification: the
translator calls `DestroyWindow` with no `ClipCursor` and no `ShowCursor` before
it, the cursor mode is still `captured_hidden` afterwards, and the destructor,
finding the native window gone, restores nothing: the clip and the hidden
cursor outlive the window. -/
theorem close_notification_leaks_capture :
    get_cursor_mode example_captured_world = cursor_mode.captured_hidden ∧
    example_captured_world.os.clip
      = some { left := 100, top := 50, right := 740, bottom := 530 } ∧
    example_captured_world.os.display_count = -1 ∧
    (DispatchMessageW example_captured_world example_close_msg).os.calls
      = example_captured_world.os.calls ++
        [os_call.DispatchMessageW example_close_msg,
         os_call.GetWindowLongPtrW 1, os_call.DestroyWindow 1] ∧
    get_cursor_mode (DispatchMessageW example_captured_world example_close_msg)
      = cursor_mode.captured_hidden ∧
    (window_destructor (DispatchMessageW example_captured_world example_close_msg)).2.os.clip
      = some { left := 100, top := 50, right := 740, bottom := 530 } ∧
    (window_destructor
      (DispatchMessageW example_captured_world example_close_msg)).2.os.display_count = -1 ∧
    (window_destructor
      (DispatchMessageW example_captured_world example_close_msg)).2.os.windows = [] := by
  decide

/-- C9, counterexample. After a close notification the example window is
destroyed (`is_open` false, `IsWindow` false), yet `set_cursor_mode(normal)`
returns normally, changing nothing. -/
theorem set_cursor_mode_on_destroyed_window_returns :
    is_open example_closed_world = false ∧
    (IsWindow example_closed_world.os 1).1 = false ∧
    get_cursor_mode example_closed_world = cursor_mode.normal ∧
    set_cursor_mode example_closed_world cursor_mode.normal = (none, example_closed_world) := by
  decide

/-- C9, amended. On an invalid window (no `impl`, no state, or a null native
handle) `set_cursor_mode` fails with a window error for every target mode and
changes nothing. A destroyed window keeps its non-null handle and is not
rejected as invalid: the call returns normally when the target mode is the
current mode or `normal`, and fails with a window error (the client rectangle
cannot be read) when switching from `normal` to `captured_hidden`. -/
theorem set_cursor_mode_invalid_or_destroyed :
    (∀ (w : world) (mode : cursor_mode), valid_window w = false →
      set_cursor_mode w mode =
        (some (exception.window_error "Cannot set cursor mode on an invalid window."), w)) ∧
    (∀ (st : window_state) (os : os_state) (mode : cursor_mode),
      st.hwnd ≠ 0 → (IsWindow os st.hwnd).1 = false →
      (st.cursor = mode →
        set_cursor_mode { win := { m_impl := some { state := some st } }, os := os } mode
          = (none, { win := { m_impl := some { state := some st } }, os := os })) ∧
      (st.cursor = cursor_mode.normal → mode = cursor_mode.captured_hidden →
        (set_cursor_mode { win := { m_impl := some { state := some st } }, os := os } mode).1
          = some (exception.window_error
              "GetClientRect failed while enabling captured cursor mode.")) ∧
      (st.cursor = cursor_mode.captured_hidden → mode = cursor_mode.normal →
        (set_cursor_mode { win := { m_impl := some { state := some st } }, os := os } mode).1
          = none)) := by
  constructor
  · intro w mode hv
    rcases w with ⟨⟨_ | ⟨_ | st⟩⟩, os⟩
    · simp [set_cursor_mode]
    · simp [set_cursor_mode]
    · have hh : st.hwnd = 0 := by simpa [valid_window, window.state] using hv
      simp [set_cursor_mode, hh]
  · intro st os mode hh hdead
    have hlook : os.windows.lookup st.hwnd = none := by
      simpa [IsWindow] using hdead
    refine ⟨set_cursor_mode_same st os mode hh, ?_, ?_⟩
    · intro hm hmode
      subst hmode
      rw [set_cursor_mode_enter_no_rect st os hh hm hlook]
    · intro hm hmode
      subst hmode
      rw [set_cursor_mode_leave st os hh hm]

/-! ## Every notification -/

theorem message_cases (message : Nat) :
    message = WM_NCCREATE ∨ message = WM_CLOSE ∨ message = WM_DESTROY ∨ message = WM_SIZE ∨
    message = WM_ENTERSIZEMOVE ∨ message = WM_EXITSIZEMOVE ∨ message = WM_KEYDOWN ∨
    message = WM_SYSKEYDOWN ∨ message = WM_KEYUP ∨ message = WM_SYSKEYUP ∨ message = WM_MOUSEMOVE ∨
    message = WM_LBUTTONDOWN ∨ message = WM_LBUTTONUP ∨ message = WM_RBUTTONDOWN ∨
    message = WM_RBUTTONUP ∨ message = WM_MBUTTONDOWN ∨ message = WM_MBUTTONUP ∨
    message = WM_XBUTTONDOWN ∨ message = WM_XBUTTONUP ∨
    (message ≠ WM_NCCREATE ∧ message ≠ WM_CLOSE ∧ message ≠ WM_DESTROY ∧ message ≠ WM_SIZE ∧
     message ≠ WM_ENTERSIZEMOVE ∧ message ≠ WM_EXITSIZEMOVE ∧ message ≠ WM_KEYDOWN ∧
     message ≠ WM_SYSKEYDOWN ∧ message ≠ WM_KEYUP ∧ message ≠ WM_SYSKEYUP ∧ message ≠ WM_MOUSEMOVE ∧
     message ≠ WM_LBUTTONDOWN ∧ message ≠ WM_LBUTTONUP ∧ message ≠ WM_RBUTTONDOWN ∧
     message ≠ WM_RBUTTONUP ∧ message ≠ WM_MBUTTONDOWN ∧ message ≠ WM_MBUTTONUP ∧
     message ≠ WM_XBUTTONDOWN ∧ message ≠ WM_XBUTTONUP) := by
  simp only [WM_NCCREATE, WM_CLOSE, WM_DESTROY, WM_SIZE, WM_ENTERSIZEMOVE, WM_EXITSIZEMOVE, WM_KEYDOWN,
    WM_SYSKEYDOWN, WM_KEYUP, WM_SYSKEYUP, WM_MOUSEMOVE, WM_LBUTTONDOWN, WM_LBUTTONUP, WM_RBUTTONDOWN,
    WM_RBUTTONUP, WM_MBUTTONDOWN, WM_MBUTTONUP, WM_XBUTTONDOWN, WM_XBUTTONUP]
  omega

/-- What every call of `window_proc` on an existing state does: the state
stays, the queue only grows at its end, the cursor mode is kept, only a
mouse-move touches the suppression flag, the pending messages are left alone,
calls are only added, and a warp leaves the window armed. -/
theorem window_proc_facts (st : window_state) (os : os_state) (hwnd message wparam : Nat)
    (lparam : Int) :
    ∃ st1, (window_proc (some st) os hwnd message wparam lparam).2.1 = some st1 ∧
      st1.events = st.events ++ st1.events.drop st.events.length ∧
      st1.cursor = st.cursor ∧
      (message ≠ WM_MOUSEMOVE → st1.suppress_next_mouse_move = st.suppress_next_mouse_move) ∧
      (window_proc (some st) os hwnd message wparam lparam).2.2.pending = os.pending ∧
      (window_proc (some st) os hwnd message wparam lparam).2.2.calls = os.calls ++
        (window_proc (some st) os hwnd message wparam lparam).2.2.calls.drop os.calls.length ∧
      (warp_issued os (window_proc (some st) os hwnd message wparam lparam).2.2 = true →
        st1.cursor = cursor_mode.captured_hidden ∧ st1.suppress_next_mouse_move = true) := by
  rcases os with ⟨windows, userdata, hook, dc, clip, ca, cp, pending, calls⟩
  by_cases hassoc : hwnd ∈ userdata
  · rcases message_cases message with h | h | h | h | h | h | h | h | h | h | h | h | h | h | h | h | h | h | h | h
    iterate 10 
      subst h
      cases hook <;>
      simp [window_proc, GetWindowLongPtrW, SetWindowLongPtrW, DefWindowProcW, DestroyWindow,
        os_state.record, hassoc, warp_issued, is_warp,
        WM_NCCREATE, WM_CLOSE, WM_DESTROY, WM_SIZE, WM_ENTERSIZEMOVE, WM_EXITSIZEMOVE, WM_KEYDOWN,
        WM_SYSKEYDOWN, WM_KEYUP, WM_SYSKEYUP, WM_MOUSEMOVE, WM_LBUTTONDOWN, WM_LBUTTONUP, WM_RBUTTONDOWN,
        WM_RBUTTONUP, WM_MBUTTONDOWN, WM_MBUTTONUP, WM_XBUTTONDOWN, WM_XBUTTONUP]
    · subst h
      cases hcur : st.cursor <;> cases hsup : st.suppress_next_mouse_move <;>
        cases hlook : List.lookup hwnd windows <;> cases hook <;>
      simp [window_proc, GetWindowLongPtrW, SetWindowLongPtrW, DefWindowProcW, DestroyWindow,
        os_state.record, hassoc, warp_issued, is_warp, GetClientRect, ClientToScreen, SetCursorPos, hcur, hsup, hlook,
        WM_NCCREATE, WM_CLOSE, WM_DESTROY, WM_SIZE, WM_ENTERSIZEMOVE, WM_EXITSIZEMOVE, WM_KEYDOWN,
        WM_SYSKEYDOWN, WM_KEYUP, WM_SYSKEYUP, WM_MOUSEMOVE, WM_LBUTTONDOWN, WM_LBUTTONUP, WM_RBUTTONDOWN,
        WM_RBUTTONUP, WM_MBUTTONDOWN, WM_MBUTTONUP, WM_XBUTTONDOWN, WM_XBUTTONUP] <;>
      split_ifs <;> simp [hcur, hsup, is_warp]
    iterate 8
      subst h
      cases hook <;>
      simp [window_proc, GetWindowLongPtrW, SetWindowLongPtrW, DefWindowProcW, DestroyWindow,
        os_state.record, hassoc, warp_issued, is_warp,
        WM_NCCREATE, WM_CLOSE, WM_DESTROY, WM_SIZE, WM_ENTERSIZEMOVE, WM_EXITSIZEMOVE, WM_KEYDOWN,
        WM_SYSKEYDOWN, WM_KEYUP, WM_SYSKEYUP, WM_MOUSEMOVE, WM_LBUTTONDOWN, WM_LBUTTONUP, WM_RBUTTONDOWN,
        WM_RBUTTONUP, WM_MBUTTONDOWN, WM_MBUTTONUP, WM_XBUTTONDOWN, WM_XBUTTONUP]
    · obtain ⟨h1, h2, h3, h4, h5, h6, h7, h8, h9, h10, h11, h12, h13, h14, h15, h16, h17, h18, h19⟩ := h
      cases hook <;>
      simp [window_proc, GetWindowLongPtrW, SetWindowLongPtrW, DefWindowProcW, DestroyWindow,
        os_state.record, hassoc, warp_issued, is_warp, h1, h2, h3, h4, h5, h6, h7, h8, h9, h10, h11, h12, h13, h14, h15, h16, h17, h18, h19]
  · by_cases hnc : message = WM_NCCREATE <;>
    simp [window_proc, GetWindowLongPtrW, SetWindowLongPtrW, DefWindowProcW, 
        os_state.record, hassoc, warp_issued, is_warp, hnc]

/-- Without a state object `window_proc` only forwards to the default handler. -/
theorem window_proc_none_facts (os : os_state) (hwnd message wparam : Nat) (lparam : Int) :
    (window_proc none os hwnd message wparam lparam).2.1 = none ∧
    (window_proc none os hwnd message wparam lparam).2.2.pending = os.pending ∧
    (window_proc none os hwnd message wparam lparam).2.2.calls = os.calls ++
      (window_proc none os hwnd message wparam lparam).2.2.calls.drop os.calls.length ∧
    warp_issued os (window_proc none os hwnd message wparam lparam).2.2 = false := by
  rcases os with ⟨windows, userdata, hook, dc, clip, ca, cp, pending, calls⟩
  by_cases hnc : message = WM_NCCREATE <;> by_cases hassoc : hwnd ∈ userdata <;>
    simp [window_proc, GetWindowLongPtrW, SetWindowLongPtrW, DefWindowProcW, os_state.record,
      hassoc, warp_issued, is_warp, hnc]

/-! ## Sequences of notifications -/

theorem window_state_some_iff (win : window) (st : window_state) :
    win.state = some st ↔ win = { m_impl := some { state := some st } } := by
  rcases win with ⟨_ | ⟨_ | st1⟩⟩ <;> simp [window.state]

theorem warp_issued_after_record (os os1 : os_state) (c : os_call) (hc : is_warp c = false)
    (h : os1.calls = (os.record c).calls ++ os1.calls.drop (os.record c).calls.length) :
    warp_issued os os1 = warp_issued (os.record c) os1 := by
  unfold warp_issued
  generalize ht : os1.calls.drop (os.record c).calls.length = t at h
  have e : os1.calls.drop os.calls.length = c :: t := by
    rw [h]
    simp [os_state.record]
  rw [e]
  simp [hc]

/-- What dispatching a notification does to a world whose window has a state. -/
theorem dispatch_some_facts (st : window_state) (os : os_state) (msg : MSG) :
    ∃ st1, (DispatchMessageW { win := { m_impl := some { state := some st } }, os := os } msg).win
        = { m_impl := some { state := some st1 } } ∧
      st1.events = st.events ++ st1.events.drop st.events.length ∧
      st1.cursor = st.cursor ∧
      (msg.message ≠ WM_MOUSEMOVE → st1.suppress_next_mouse_move = st.suppress_next_mouse_move) ∧
      (DispatchMessageW { win := { m_impl := some { state := some st } }, os := os } msg).os.pending
        = os.pending ∧
      (warp_issued os
          (DispatchMessageW { win := { m_impl := some { state := some st } }, os := os } msg).os = true →
        st1.cursor = cursor_mode.captured_hidden ∧ st1.suppress_next_mouse_move = true) := by
  obtain ⟨st1, h1, h2, h3, h4, h5, h6, h7⟩ :=
    window_proc_facts st (os.record (os_call.DispatchMessageW msg)) msg.hwnd msg.message msg.wParam
      msg.lParam
  refine ⟨st1, ?_, h2, h3, h4, ?_, ?_⟩
  · simp [DispatchMessageW, window.state, window.store, h1]
  · simp only [DispatchMessageW, window.state, h1]
    rw [h5]; rfl
  · intro hw
    apply h7
    simp only [DispatchMessageW, window.state, h1] at hw
    rw [← warp_issued_after_record os _ (os_call.DispatchMessageW msg) rfl h6]
    exact hw

/-- What dispatching a notification does to a world whose window has no state. -/
theorem dispatch_none_facts (w : world) (msg : MSG) (h : w.win.state = none) :
    (DispatchMessageW w msg).win = w.win ∧
    (DispatchMessageW w msg).os.pending = w.os.pending ∧
    warp_issued w.os (DispatchMessageW w msg).os = false := by
  obtain ⟨h1, h2, h3, h4⟩ :=
    window_proc_none_facts (w.os.record (os_call.DispatchMessageW msg)) msg.hwnd msg.message
      msg.wParam msg.lParam
  refine ⟨?_, ?_, ?_⟩
  · simp [DispatchMessageW, h, h1]
  · simp only [DispatchMessageW, h, h1]
    rw [h2]; rfl
  · simp only [DispatchMessageW, h, h1]
    rw [warp_issued_after_record w.os _ (os_call.DispatchMessageW msg) rfl h3]
    exact h4

theorem armed_iff (w : world) :
    armed w = true ↔ ∃ st, w.win = { m_impl := some { state := some st } } ∧
      st.cursor = cursor_mode.captured_hidden ∧ st.suppress_next_mouse_move = true := by
  rcases w with ⟨⟨_ | ⟨_ | st⟩⟩, os⟩ <;> simp [armed, window.state]

theorem warp_issued_self (os : os_state) : warp_issued os os = false := by
  simp [warp_issued]

/-- A notification that warps the cursor leaves the window armed. -/
theorem dispatch_warp_armed (w : world) (msg : MSG)
    (hw : warp_issued w.os (DispatchMessageW w msg).os = true) :
    armed (DispatchMessageW w msg) = true := by
  cases hs : w.win.state with
  | none =>
    rw [(dispatch_none_facts w msg hs).2.2] at hw
    exact absurd hw (by decide)
  | some st =>
    rcases w with ⟨win, os⟩
    simp only at hs
    rw [window_state_some_iff] at hs
    subst hs
    obtain ⟨st1, h1, -, -, -, -, h6⟩ := dispatch_some_facts st os msg
    exact (armed_iff _).2 ⟨st1, h1, h6 hw⟩

/-- A `set_cursor_mode` that warps the cursor leaves the window armed. -/
theorem set_cursor_mode_warp_armed (w : world) (mode : cursor_mode)
    (hw : warp_issued w.os (set_cursor_mode w mode).2.os = true) :
    armed (set_cursor_mode w mode).2 = true := by
  rcases w with ⟨⟨_ | ⟨_ | st⟩⟩, os⟩
  · simp [set_cursor_mode, warp_issued_self] at hw
  · simp [set_cursor_mode, warp_issued_self] at hw
  · by_cases hh : st.hwnd = 0
    · simp [set_cursor_mode, hh, warp_issued_self] at hw
    · by_cases hm : st.cursor = mode
      · rw [set_cursor_mode_same st os mode hh hm] at hw
        simp [warp_issued_self] at hw
      · cases mode with
        | normal =>
          have hc : st.cursor = cursor_mode.captured_hidden := by
            cases h : st.cursor with
            | normal => exact absurd h hm
            | captured_hidden => rfl
          rw [set_cursor_mode_leave st os hh hc] at hw
          simp [warp_issued, is_warp, List.any_replicate] at hw
        | captured_hidden =>
          have hc : st.cursor = cursor_mode.normal := by
            cases h : st.cursor with
            | normal => rfl
            | captured_hidden => exact absurd h hm
          cases hl : os.windows.lookup st.hwnd with
          | none =>
            rw [set_cursor_mode_enter_no_rect st os hh hc hl] at hw
            simp [warp_issued, is_warp, List.any_replicate] at hw
          | some nw =>
            cases hca : os.clip_allowed with
            | false =>
              rw [set_cursor_mode_enter_no_clip st os nw hh hc hl hca] at hw
              simp [warp_issued, is_warp, List.any_replicate] at hw
            | true =>
              rw [set_cursor_mode_enter st os nw hh hc hl hca]
              simp [armed, window.state]

/-- A notification other than a mouse-move keeps an armed window armed. -/
theorem dispatch_keeps_armed (w : world) (msg : MSG) (ha : armed w = true)
    (hm : msg.message ≠ WM_MOUSEMOVE) : armed (DispatchMessageW w msg) = true := by
  obtain ⟨st, hwin, hc, hs⟩ := (armed_iff w).1 ha
  rcases w with ⟨win, os⟩
  simp only at hwin
  subst hwin
  obtain ⟨st1, h1, -, h3, h4, -, -⟩ := dispatch_some_facts st os msg
  exact (armed_iff _).2 ⟨st1, h1, by rw [h3, hc], by rw [h4 hm, hs]⟩

theorem dispatch_all_keeps_armed (msgs : List MSG) (w : world) (ha : armed w = true)
    (hm : ∀ m ∈ msgs, m.message ≠ WM_MOUSEMOVE) : armed (dispatch_all w msgs) = true := by
  induction msgs generalizing w with
  | nil => exact ha
  | cons m rest ih =>
    simp only [dispatch_all, List.foldl_cons]
    exact ih _ (dispatch_keeps_armed w m ha (hm m (List.mem_cons_self _ _)))
      (fun m1 h1 => hm m1 (List.mem_cons_of_mem _ h1))

theorem armed_suppress_flag (w : world) (ha : armed w = true) : suppress_flag w = true := by
  obtain ⟨st, hwin, -, hs⟩ := (armed_iff w).1 ha
  simp [suppress_flag, hwin, window.state, hs]

/-- A mouse-move dispatched to an armed window is only recorded. -/
theorem dispatch_mouse_move_armed (w : world) (msg : MSG) (ha : armed w = true)
    (hm : msg.message = WM_MOUSEMOVE) (hassoc : msg.hwnd ∈ w.os.userdata) :
    queue (DispatchMessageW w msg) = queue w ++
      [event.mouse_move_event (GET_X_LPARAM msg.lParam) (GET_Y_LPARAM msg.lParam)] ∧
    suppress_flag (DispatchMessageW w msg) = false ∧
    warp_issued w.os (DispatchMessageW w msg).os = false := by
  obtain ⟨st, hwin, hc, hs⟩ := (armed_iff w).1 ha
  rcases w with ⟨win, os⟩
  rcases msg with ⟨hwnd, message, wparam, lparam⟩
  simp only at hwin hm hassoc
  subst hwin hm
  have e := window_proc_mouse_move_suppressed st (os.record (os_call.DispatchMessageW
    { hwnd := hwnd, message := WM_MOUSEMOVE, wParam := wparam, lParam := lparam })) hwnd wparam lparam
    (by simpa [os_state.record] using hassoc) hc hs
  simp only [DispatchMessageW, window.state, e, window.store, queue, suppress_flag, warp_issued,
    true_and]
  cases hh : os.g_native_message_hook <;> simp [os_state.record, hook_calls, hh, is_warp]

/-- C2. Capture feedback-loop immunity: from any world, whenever an action (a
`set_cursor_mode` call or a dispatched notification) has issued a warp, the
notifications of any other kind that arrive next leave the suppression flag
set, and the next mouse-move notification for the window, whatever its
coordinates, appends its `mouse_move` and nothing else (no `mouse_delta`),
clears the suppression flag and issues no warp. As the world is arbitrary, this
holds for any number of repeated captures. -/
theorem capture_feedback_loop_immunity (w : world) (a : action) (between : List MSG) (msg : MSG)
    (hwarp : warp_issued w.os (perform w a).os = true)
    (hbetween : ∀ m ∈ between, m.message ≠ WM_MOUSEMOVE)
    (hmsg : msg.message = WM_MOUSEMOVE)
    (hassoc : msg.hwnd ∈ (dispatch_all (perform w a) between).os.userdata) :
    (∀ k, suppress_flag (dispatch_all (perform w a) (between.take k)) = true) ∧
    queue (DispatchMessageW (dispatch_all (perform w a) between) msg) =
      queue (dispatch_all (perform w a) between) ++
        [event.mouse_move_event (GET_X_LPARAM msg.lParam) (GET_Y_LPARAM msg.lParam)] ∧
    ((queue (DispatchMessageW (dispatch_all (perform w a) between) msg)).drop
      (queue (dispatch_all (perform w a) between)).length).any is_mouse_delta = false ∧
    suppress_flag (DispatchMessageW (dispatch_all (perform w a) between) msg) = false ∧
    warp_issued (dispatch_all (perform w a) between).os
      (DispatchMessageW (dispatch_all (perform w a) between) msg).os = false := by
  have ha : armed (perform w a) = true := by
    cases a with
    | notification m => exact dispatch_warp_armed w m hwarp
    | set_cursor_mode mode => exact set_cursor_mode_warp_armed w mode hwarp
  obtain ⟨h1, h2, h3⟩ :=
    dispatch_mouse_move_armed _ msg (dispatch_all_keeps_armed _ _ ha hbetween) hmsg hassoc
  refine ⟨fun k => armed_suppress_flag _ (dispatch_all_keeps_armed _ _ ha
    (fun m hm => hbetween m (List.mem_of_mem_take hm))), h1, ?_, h2, h3⟩
  rw [h1]
  simp [is_mouse_delta]

/-- C2 at concrete inputs: the warp of entering capture on the example window,
then a key and a size notification, then a mouse-move far from the centre. -/
theorem capture_feedback_loop_immunity_witness :
    queue (DispatchMessageW
        (dispatch_all (perform example_world (action.set_cursor_mode cursor_mode.captured_hidden))
          [example_key_msg, example_size_msg]) example_move_msg)
      = [event.key_event key.a true false, event.resize_event 800 600,
         event.mouse_move_event 500 10] ∧
    suppress_flag (DispatchMessageW
        (dispatch_all (perform example_world (action.set_cursor_mode cursor_mode.captured_hidden))
          [example_key_msg, example_size_msg]) example_move_msg) = false :=
  ⟨(capture_feedback_loop_immunity example_world
      (action.set_cursor_mode cursor_mode.captured_hidden) [example_key_msg, example_size_msg]
      example_move_msg (by decide) (by decide) (by decide) (by decide)).2.1.trans (by decide),
   (capture_feedback_loop_immunity example_world
      (action.set_cursor_mode cursor_mode.captured_hidden) [example_key_msg, example_size_msg]
      example_move_msg (by decide) (by decide) (by decide) (by decide)).2.2.2.1⟩

/-- A delivery only appends to the queue, and consumes the message it delivers. -/
theorem deliver_facts (w : world) (msg : MSG) :
    queue (deliver w msg) = queue w ++ translated w msg ∧
    (deliver w msg).os.pending = (PeekMessageW w.os).2.pending := by
  unfold translated
  cases hs : w.win.state with
  | none =>
    have h := dispatch_none_facts
      { w with os := (PeekMessageW w.os).2.record (os_call.TranslateMessage msg) } msg hs
    constructor
    · simp only [deliver, queue, h.1, hs]
      simp
    · simp only [deliver]
      rw [h.2.1]; rfl
  | some st =>
    rcases w with ⟨win, os⟩
    simp only at hs
    rw [window_state_some_iff] at hs
    subst hs
    obtain ⟨st1, h1, h2, -, -, h5, -⟩ := dispatch_some_facts st
      ((PeekMessageW os).2.record (os_call.TranslateMessage msg)) msg
    constructor
    · simp only [deliver, queue, h1, window.state]
      exact h2
    · simp only [deliver]
      rw [h5]; rfl

/-- The loop of `pump_messages` delivers the pending messages in order and
leaves by finding the queue of native messages empty. -/
theorem pump_messages_loop_spec (msgs : List MSG) (w : world) (fuel : Nat)
    (hp : w.os.pending = msgs) (hf : msgs.length + 1 ≤ fuel) :
    queue (pump_messages_loop fuel w) = queue w ++ translated_all w msgs ∧
    (pump_messages_loop fuel w).os.pending = [] := by
  induction msgs generalizing w fuel with
  | nil =>
    obtain ⟨f, rfl⟩ : ∃ f, fuel = f + 1 := ⟨fuel - 1, by simp at hf; omega⟩
    simp [pump_messages_loop, PeekMessageW, hp, translated_all, queue, os_state.record]
  | cons m rest ih =>
    obtain ⟨f, rfl⟩ : ∃ f, fuel = f + 1 := ⟨fuel - 1, by simp at hf; omega⟩
    have hpk : (PeekMessageW w.os).1 = some m := by simp [PeekMessageW, hp]
    have hpk2 : (PeekMessageW w.os).2.pending = rest := by simp [PeekMessageW, hp]
    have e : pump_messages_loop (f + 1) w = pump_messages_loop f (deliver w m) := by
      simp only [pump_messages_loop, hpk, deliver]
    obtain ⟨d1, d2⟩ := deliver_facts w m
    have := ih (deliver w m) f (by rw [d2, hpk2]) (by simp at hf ⊢; omega)
    rw [e, this.1, this.2, d1]
    simp [translated_all]

theorem pump_messages_spec (w : world) :
    queue (pump_messages w) = queue w ++ translated_all w w.os.pending ∧
    (pump_messages w).os.pending = [] :=
  pump_messages_loop_spec w.os.pending w _ rfl (le_refl _)

/-- What `poll_event` returns and leaves, in terms of the queue after pumping. -/
theorem poll_event_spec (w : world) :
    (poll_event w).1 = (queue (pump_messages w)).head? ∧
    queue (poll_event w).2 = (queue (pump_messages w)).tail ∧
    (poll_event w).2.os = (pump_messages w).os := by
  unfold poll_event
  generalize pump_messages w = w1
  rcases w1 with ⟨⟨_ | ⟨_ | st⟩⟩, os⟩
  · simp [queue, window.state]
  · simp [queue, window.state]
  · cases he : st.events <;> simp [queue, window.state, he]

theorem poll_all_spec (n : Nat) (w : world) (hn : (queue (pump_messages w)).length = n) :
    (poll_all (n + 1) w).1 = (queue (pump_messages w)).map some ++ [none] := by
  induction n generalizing w with
  | zero =>
    have hq : queue (pump_messages w) = [] := List.length_eq_zero.1 hn
    simp [poll_all, (poll_event_spec w).1, hq]
  | succ k ih =>
    obtain ⟨p1, p2, p3⟩ := poll_event_spec w
    cases hq : queue (pump_messages w) with
    | nil => rw [hq] at hn; simp at hn
    | cons e rest =>
      rw [hq] at hn p1 p2
      have hpend : (poll_event w).2.os.pending = [] := by rw [p3]; exact (pump_messages_spec w).2
      have hq2 : queue (pump_messages (poll_event w).2) = rest := by
        rw [(pump_messages_spec _).1, hpend, p2]
        simp [translated_all]
      have := ih (poll_event w).2 (by rw [hq2]; simpa using hn)
      rw [poll_all, this, p1, hq2]
      simp

/-- C3. Event queue ordering: every delivery of a notification only appends
the events translated from it to the end of the queue; `pump_messages`
delivers all pending notifications `N1..Nk` in arrival order, so that the queue
becomes the old queue followed by the events translated from `N1`, then `N2`,
..., then `Nk`; successive `poll_event` calls return exactly these events, each
once and in that order, and then return empty; each `poll_event` returns and
removes only the oldest queued event and leaves the rest in order. -/
theorem event_queue_ordering (w : world) :
    (∀ (w1 : world) (msg : MSG), queue (deliver w1 msg) = queue w1 ++ translated w1 msg) ∧
    queue (pump_messages w) = queue w ++ translated_all w w.os.pending ∧
    (pump_messages w).os.pending = [] ∧
    (poll_all ((queue w ++ translated_all w w.os.pending).length + 1) w).1
      = (queue w ++ translated_all w w.os.pending).map some ++ [none] ∧
    (∀ w1 : world,
      (poll_event w1).1 = (queue (pump_messages w1)).head? ∧
      queue (poll_event w1).2 = (queue (pump_messages w1)).tail) := by
  refine ⟨fun w1 msg => (deliver_facts w1 msg).1, (pump_messages_spec w).1,
    (pump_messages_spec w).2, ?_, fun w1 => ⟨(poll_event_spec w1).1, (poll_event_spec w1).2.1⟩⟩
  rw [← (pump_messages_spec w).1]
  exact poll_all_spec _ w rfl


/-- C3 at a concrete input: a key, a size and a close notification pending. -/
theorem event_queue_ordering_witness :
    (poll_all 4 example_pending_world).1
      = [some (event.key_event key.a true false), some (event.resize_event 800 600),
         some event.close_event, none] :=
  ((event_queue_ordering example_pending_world).2.2.2.1).trans (by decide)

/-! ## The translator, the remaining cases -/

/-- A notification for a handle with no associated state goes to the default handler. -/
theorem window_proc_unassociated (heap : Option window_state) (os : os_state)
    (hwnd message wparam : Nat) (lparam : Int)
    (hnc : message ≠ WM_NCCREATE) (hno : hwnd ∉ os.userdata ∨ heap = none) :
    window_proc heap os hwnd message wparam lparam =
      (LRESULT.def_window_proc hwnd message wparam lparam, heap,
       { os with calls := os.calls ++ [os_call.GetWindowLongPtrW hwnd,
           os_call.DefWindowProcW hwnd message wparam lparam] }) := by
  rcases os with ⟨windows, userdata, hook, dc, clip, ca, cp, pending, calls⟩
  rcases hno with hno | hno
  · simp only at hno
    cases heap <;>
      simp [window_proc, GetWindowLongPtrW, DefWindowProcW, os_state.record, hnc, hno]
  · subst hno
    by_cases hassoc : hwnd ∈ userdata <;>
      simp [window_proc, GetWindowLongPtrW, DefWindowProcW, os_state.record, hnc, hassoc]

/-- A notification of a kind without a `case` goes to the default handler. -/
theorem window_proc_default (st : window_state) (os : os_state) (hwnd message wparam : Nat)
    (lparam : Int) (hassoc : hwnd ∈ os.userdata)
    (hm : message ∉ [WM_NCCREATE, WM_CLOSE, WM_DESTROY, WM_SIZE, WM_ENTERSIZEMOVE,
      WM_EXITSIZEMOVE, WM_KEYDOWN, WM_SYSKEYDOWN, WM_KEYUP, WM_SYSKEYUP, WM_MOUSEMOVE,
      WM_LBUTTONDOWN, WM_LBUTTONUP, WM_RBUTTONDOWN, WM_RBUTTONUP, WM_MBUTTONDOWN, WM_MBUTTONUP,
      WM_XBUTTONDOWN, WM_XBUTTONUP]) :
    window_proc (some st) os hwnd message wparam lparam =
      (LRESULT.def_window_proc hwnd message wparam lparam, some st,
       { os with calls := os.calls ++ [os_call.GetWindowLongPtrW hwnd]
           ++ hook_calls os hwnd message wparam lparam
           ++ [os_call.DefWindowProcW hwnd message wparam lparam] }) := by
  simp only [List.mem_cons, List.mem_singleton, List.not_mem_nil, or_false, not_or] at hm
  obtain ⟨h1, h2, h3, h4, h5, h6, h7, h8, h9, h10, h11, h12, h13, h14, h15, h16, h17, h18, h19⟩ := hm
  rcases os with ⟨windows, userdata, hook, dc, clip, ca, cp, pending, calls⟩
  cases hook <;>
  simp [window_proc, GetWindowLongPtrW, DefWindowProcW, os_state.record, hassoc, hook_calls,
    h1, h2, h3, h4, h5, h6, h7, h8, h9, h10, h11, h12, h13, h14, h15, h16, h17, h18, h19]

/-- A key notification appends one key event. -/
theorem window_proc_key (st : window_state) (os : os_state) (hwnd message wparam : Nat)
    (lparam : Int) (hassoc : hwnd ∈ os.userdata)
    (hm : message ∈ [WM_KEYDOWN, WM_SYSKEYDOWN, WM_KEYUP, WM_SYSKEYUP]) :
    window_proc (some st) os hwnd message wparam lparam =
      (LRESULT.zero,
       some { st with events := st.events ++
         [event.key_event (map_key wparam)
           (decide (message = WM_KEYDOWN ∨ message = WM_SYSKEYDOWN))
           (decide (message = WM_KEYDOWN ∨ message = WM_SYSKEYDOWN)
             && Nat.testBit (to_DWORD_PTR lparam) 30)] },
       { os with calls := os.calls ++ [os_call.GetWindowLongPtrW hwnd]
           ++ hook_calls os hwnd message wparam lparam }) := by
  simp only [List.mem_cons, List.mem_singleton, List.not_mem_nil, or_false] at hm
  rcases os with ⟨windows, userdata, hook, dc, clip, ca, cp, pending, calls⟩
  rcases hm with h | h | h | h <;> subst h <;> cases hook <;>
  simp [window_proc, GetWindowLongPtrW, os_state.record, hassoc, hook_calls,
    WM_NCCREATE, WM_CLOSE, WM_DESTROY, WM_SIZE, WM_ENTERSIZEMOVE, WM_EXITSIZEMOVE, WM_KEYDOWN,
    WM_SYSKEYDOWN, WM_KEYUP, WM_SYSKEYUP]

/-- A mouse-button notification appends one mouse-button event. -/
theorem window_proc_button (st : window_state) (os : os_state) (hwnd message wparam : Nat)
    (lparam : Int) (hassoc : hwnd ∈ os.userdata)
    (hm : message ∈ [WM_LBUTTONDOWN, WM_LBUTTONUP, WM_RBUTTONDOWN, WM_RBUTTONUP, WM_MBUTTONDOWN,
      WM_MBUTTONUP, WM_XBUTTONDOWN, WM_XBUTTONUP]) :
    window_proc (some st) os hwnd message wparam lparam =
      (LRESULT.zero,
       some { st with events := st.events ++
         [event.mouse_button_event (map_mouse_button message wparam)
           (decide (message ∈ [WM_LBUTTONDOWN, WM_RBUTTONDOWN, WM_MBUTTONDOWN, WM_XBUTTONDOWN]))
           (GET_X_LPARAM lparam) (GET_Y_LPARAM lparam)] },
       { os with calls := os.calls ++ [os_call.GetWindowLongPtrW hwnd]
           ++ hook_calls os hwnd message wparam lparam }) := by
  simp only [List.mem_cons, List.mem_singleton, List.not_mem_nil, or_false] at hm
  rcases os with ⟨windows, userdata, hook, dc, clip, ca, cp, pending, calls⟩
  rcases hm with h | h | h | h | h | h | h | h <;> subst h <;> cases hook <;>
  simp [window_proc, GetWindowLongPtrW, os_state.record, hassoc, hook_calls,
    WM_NCCREATE, WM_CLOSE, WM_DESTROY, WM_SIZE, WM_ENTERSIZEMOVE, WM_EXITSIZEMOVE, WM_KEYDOWN,
    WM_SYSKEYDOWN, WM_KEYUP, WM_SYSKEYUP, WM_MOUSEMOVE, WM_LBUTTONDOWN, WM_LBUTTONUP,
    WM_RBUTTONDOWN, WM_RBUTTONUP, WM_MBUTTONDOWN, WM_MBUTTONUP, WM_XBUTTONDOWN, WM_XBUTTONUP]

/-- A mouse-move in normal mode is only recorded. -/
theorem window_proc_mouse_move_normal (st : window_state) (os : os_state) (hwnd wparam : Nat)
    (lparam : Int)
    (hassoc : hwnd ∈ os.userdata)
    (hmode : st.cursor = cursor_mode.normal) :
    window_proc (some st) os hwnd WM_MOUSEMOVE wparam lparam =
      (LRESULT.zero,
       some { st with events := st.events ++
         [event.mouse_move_event (GET_X_LPARAM lparam) (GET_Y_LPARAM lparam)] },
       { os with calls := os.calls ++ [os_call.GetWindowLongPtrW hwnd]
           ++ hook_calls os hwnd WM_MOUSEMOVE wparam lparam }) := by
  rcases os with ⟨windows, userdata, hook, dc, clip, ca, cp, pending, calls⟩
  cases hook <;>
  simp [window_proc, GetWindowLongPtrW, hassoc, WM_MOUSEMOVE, WM_NCCREATE, WM_CLOSE, WM_DESTROY,
    WM_SIZE, WM_ENTERSIZEMOVE, WM_EXITSIZEMOVE, WM_KEYDOWN, WM_SYSKEYDOWN, WM_KEYUP, WM_SYSKEYUP,
    hmode, os_state.record, hook_calls]

/-- A captured mouse-move whose client rectangle cannot be read is only recorded. -/
theorem window_proc_mouse_move_no_rect (st : window_state) (os : os_state) (hwnd wparam : Nat)
    (lparam : Int)
    (hassoc : hwnd ∈ os.userdata)
    (hmode : st.cursor = cursor_mode.captured_hidden)
    (hflag : st.suppress_next_mouse_move = false)
    (hrect : (GetClientRect os hwnd).1 = none) :
    window_proc (some st) os hwnd WM_MOUSEMOVE wparam lparam =
      (LRESULT.zero,
       some { st with events := st.events ++
         [event.mouse_move_event (GET_X_LPARAM lparam) (GET_Y_LPARAM lparam)] },
       { os with calls := os.calls ++ [os_call.GetWindowLongPtrW hwnd]
           ++ hook_calls os hwnd WM_MOUSEMOVE wparam lparam
           ++ [os_call.GetClientRect hwnd] }) := by
  rcases os with ⟨windows, userdata, hook, dc, clip, ca, cp, pending, calls⟩
  simp only [GetClientRect] at hrect
  cases hook <;>
  simp [window_proc, GetWindowLongPtrW, hassoc, WM_MOUSEMOVE, WM_NCCREATE, WM_CLOSE, WM_DESTROY,
    WM_SIZE, WM_ENTERSIZEMOVE, WM_EXITSIZEMOVE, WM_KEYDOWN, WM_SYSKEYDOWN, WM_KEYUP, WM_SYSKEYUP,
    hmode, hflag, GetClientRect, hrect, os_state.record, hook_calls]

/-- A captured mouse-move at the centre is only recorded. -/
theorem window_proc_mouse_move_centre (st : window_state) (os : os_state) (hwnd wparam : Nat)
    (lparam : Int) (client : RECT)
    (hassoc : hwnd ∈ os.userdata)
    (hmode : st.cursor = cursor_mode.captured_hidden)
    (hflag : st.suppress_next_mouse_move = false)
    (hrect : (GetClientRect os hwnd).1 = some client)
    (hP : (GET_X_LPARAM lparam, GET_Y_LPARAM lparam)
      = (Int.tdiv client.width 2, Int.tdiv client.height 2)) :
    window_proc (some st) os hwnd WM_MOUSEMOVE wparam lparam =
      (LRESULT.zero,
       some { st with events := st.events ++
         [event.mouse_move_event (GET_X_LPARAM lparam) (GET_Y_LPARAM lparam)] },
       { os with calls := os.calls ++ [os_call.GetWindowLongPtrW hwnd]
           ++ hook_calls os hwnd WM_MOUSEMOVE wparam lparam
           ++ [os_call.GetClientRect hwnd] }) := by
  have hx := delta_no_wrap (LOWORD (to_DWORD_PTR lparam)) (client.right - client.left)
  have hy := delta_no_wrap (HIWORD (to_DWORD_PTR lparam)) (client.bottom - client.top)
  simp only [RECT.width, RECT.height, GET_X_LPARAM, GET_Y_LPARAM, Prod.mk.injEq] at hP ⊢
  have hd1 : to_short (LOWORD (to_DWORD_PTR lparam))
        - Int.tdiv (to_int32 (client.right - client.left)) 2 = 0 := by omega
  have hd2 : to_short (HIWORD (to_DWORD_PTR lparam))
        - Int.tdiv (to_int32 (client.bottom - client.top)) 2 = 0 := by omega
  rcases os with ⟨windows, userdata, hook, dc, clip, ca, cp, pending, calls⟩
  simp only [GetClientRect] at hrect
  cases hook <;>
  simp [window_proc, GetWindowLongPtrW, hassoc, WM_MOUSEMOVE, WM_NCCREATE, WM_CLOSE, WM_DESTROY,
    WM_SIZE, WM_ENTERSIZEMOVE, WM_EXITSIZEMOVE, WM_KEYDOWN, WM_SYSKEYDOWN, WM_KEYUP, WM_SYSKEYUP,
    hmode, hflag, GetClientRect, hrect, center_no_wrap, hx, hy, os_state.record, hook_calls,
    GET_X_LPARAM, GET_Y_LPARAM, hd1, hd2] <;>
  decide

/-- A notification other than a mouse-move appends at most one event, never a `mouse_delta`. -/
theorem window_proc_event_count (st : window_state) (os : os_state) (hwnd message wparam : Nat)
    (lparam : Int) (hm : message ≠ WM_MOUSEMOVE) :
    ∃ st1, (window_proc (some st) os hwnd message wparam lparam).2.1 = some st1 ∧
      (st1.events.drop st.events.length).length ≤ 1 ∧
      (st1.events.drop st.events.length).any is_mouse_delta = false := by
  rcases os with ⟨windows, userdata, hook, dc, clip, ca, cp, pending, calls⟩
  by_cases hassoc : hwnd ∈ userdata
  · rcases message_cases message with h | h | h | h | h | h | h | h | h | h | h | h | h | h | h | h | h | h | h | h
    iterate 10
      subst h
      cases hook <;>
      simp [window_proc, GetWindowLongPtrW, SetWindowLongPtrW, DefWindowProcW, DestroyWindow,
        os_state.record, hassoc, is_mouse_delta,
        WM_NCCREATE, WM_CLOSE, WM_DESTROY, WM_SIZE, WM_ENTERSIZEMOVE, WM_EXITSIZEMOVE, WM_KEYDOWN,
        WM_SYSKEYDOWN, WM_KEYUP, WM_SYSKEYUP, WM_MOUSEMOVE, WM_LBUTTONDOWN, WM_LBUTTONUP,
        WM_RBUTTONDOWN, WM_RBUTTONUP, WM_MBUTTONDOWN, WM_MBUTTONUP, WM_XBUTTONDOWN, WM_XBUTTONUP] <;>
      omega
    · exact absurd h hm
    iterate 8
      subst h
      cases hook <;>
      simp [window_proc, GetWindowLongPtrW, SetWindowLongPtrW, DefWindowProcW, DestroyWindow,
        os_state.record, hassoc, is_mouse_delta,
        WM_NCCREATE, WM_CLOSE, WM_DESTROY, WM_SIZE, WM_ENTERSIZEMOVE, WM_EXITSIZEMOVE, WM_KEYDOWN,
        WM_SYSKEYDOWN, WM_KEYUP, WM_SYSKEYUP, WM_MOUSEMOVE, WM_LBUTTONDOWN, WM_LBUTTONUP,
        WM_RBUTTONDOWN, WM_RBUTTONUP, WM_MBUTTONDOWN, WM_MBUTTONUP, WM_XBUTTONDOWN, WM_XBUTTONUP] <;>
      omega
    · obtain ⟨h1, h2, h3, h4, h5, h6, h7, h8, h9, h10, h11, h12, h13, h14, h15, h16, h17, h18, h19⟩ := h
      cases hook <;>
      simp [window_proc, GetWindowLongPtrW, SetWindowLongPtrW, DefWindowProcW, DestroyWindow,
        os_state.record, hassoc, h1, h2, h3, h4, h5, h6, h7, h8, h9, h10, h11, h12, h13,
        h14, h15, h16, h17, h18, h19]
  · by_cases hnc : message = WM_NCCREATE <;>
    simp [window_proc, GetWindowLongPtrW, SetWindowLongPtrW, DefWindowProcW,
        os_state.record, hassoc, hnc]

/-! ## Keys, buttons and unhandled notifications -/

/-- The bit the code tests with `lparam & (1LL << 30)` is bit 30 of the signed value. -/
theorem repeat_bit_eq (lparam : Int) :
    Nat.testBit (to_DWORD_PTR lparam) 30 = decide (lparam / 1073741824 % 2 = 1) := by
  rw [Nat.testBit_to_div_mod]
  unfold to_DWORD_PTR
  have h : ((lparam % 18446744073709551616).toNat / 2 ^ 30 % 2 = 1) ↔ (lparam / 1073741824 % 2 = 1) := by
    norm_num
    omega
  simp only [h]

/-- The macro `GET_X_LPARAM` yields the low word of `lparam` as a signed 16-bit integer. -/
theorem GET_X_LPARAM_signed (lparam : Int) :
    -32768 ≤ GET_X_LPARAM lparam ∧ GET_X_LPARAM lparam ≤ 32767 ∧
    (GET_X_LPARAM lparam - lparam) % 65536 = 0 := by
  unfold GET_X_LPARAM to_short LOWORD to_DWORD_PTR
  split <;> omega

/-- The macro `GET_Y_LPARAM` yields the high word of `lparam` as a signed 16-bit integer. -/
theorem GET_Y_LPARAM_signed (lparam : Int) :
    -32768 ≤ GET_Y_LPARAM lparam ∧ GET_Y_LPARAM lparam ≤ 32767 ∧
    (GET_Y_LPARAM lparam - lparam / 65536) % 65536 = 0 := by
  unfold GET_Y_LPARAM to_short HIWORD to_DWORD_PTR
  split <;> omega

theorem map_key_unsupported (wparam : Nat) (h : supported_key_code wparam = false) :
    map_key wparam = key.unknown := by
  by_cases hw : wparam < 256
  · revert h
    interval_cases wparam <;> decide
  · exact map_key_large wparam (by omega)

/-- C16. Key notifications: for every native key code and every `lparam`, a
key-down or system key-down notification appends exactly one key event with
value `map_key(code)`, `pressed = true` and `repeated` = (bit 30 of `lparam` is
set); a key-up or system key-up notification appends exactly one key event with
value `map_key(code)`, `pressed = false` and `repeated = false` whatever
`lparam`; a code outside the supported set still produces the event, with value
`unknown`. -/
theorem key_notifications (st : window_state) (os : os_state) (hwnd wparam : Nat) (lparam : Int)
    (hassoc : hwnd ∈ os.userdata) :
    (∀ message, message = WM_KEYDOWN ∨ message = WM_SYSKEYDOWN →
      (window_proc (some st) os hwnd message wparam lparam).2.1 =
        some { st with events := st.events ++
          [event.key_event (map_key wparam) true (decide (lparam / 1073741824 % 2 = 1))] }) ∧
    (∀ message, message = WM_KEYUP ∨ message = WM_SYSKEYUP →
      (window_proc (some st) os hwnd message wparam lparam).2.1 =
        some { st with events := st.events ++
          [event.key_event (map_key wparam) false false] }) ∧
    (supported_key_code wparam = false →
      ∀ message, message ∈ [WM_KEYDOWN, WM_SYSKEYDOWN, WM_KEYUP, WM_SYSKEYUP] →
        ∃ pressed repeated, (window_proc (some st) os hwnd message wparam lparam).2.1 =
          some { st with events := st.events ++
            [event.key_event key.unknown pressed repeated] }) := by
  refine ⟨?_, ?_, ?_⟩
  · intro message hm
    rw [window_proc_key st os hwnd message wparam lparam hassoc
      (by rcases hm with h | h <;> simp [h])]
    simp [hm, repeat_bit_eq]
  · intro message hm
    rw [window_proc_key st os hwnd message wparam lparam hassoc
      (by rcases hm with h | h <;> simp [h])]
    have hne : ¬ (message = WM_KEYDOWN ∨ message = WM_SYSKEYDOWN) := by
      rcases hm with h | h <;> subst h <;> decide
    simp [hne]
  · intro hu message hm
    rw [window_proc_key st os hwnd message wparam lparam hassoc hm, map_key_unsupported wparam hu]
    exact ⟨_, _, rfl⟩

/-- C16 at concrete inputs: an auto-repeated `A`, a released `A`, and a
pressed key with the unmapped code `0xFF`. -/
theorem key_notifications_witness :
    (window_proc (some example_state) example_os 1 WM_KEYDOWN (Char.toNat 'A') 1073741824).2.1 =
      some { example_state with events := [event.key_event key.a true true] } ∧
    (window_proc (some example_state) example_os 1 WM_SYSKEYUP (Char.toNat 'A') 1073741824).2.1 =
      some { example_state with events := [event.key_event key.a false false] } ∧
    (window_proc (some example_state) example_os 1 WM_KEYDOWN 255 0).2.1 =
      some { example_state with events := [event.key_event key.unknown true false] } :=
  ⟨((key_notifications example_state example_os 1 (Char.toNat 'A') 1073741824 (by decide)).1
      WM_KEYDOWN (Or.inl rfl)).trans (by decide),
   ((key_notifications example_state example_os 1 (Char.toNat 'A') 1073741824 (by decide)).2.1
      WM_SYSKEYUP (Or.inr rfl)).trans (by decide),
   ((key_notifications example_state example_os 1 255 0 (by decide)).1
      WM_KEYDOWN (Or.inl rfl)).trans (by decide)⟩

/-- C17. Mouse-button notifications: for each of the eight button messages
and every `wparam` and `lparam`, the translator appends exactly one
`mouse_button` event whose button is `map_mouse_button(message, wparam)`, whose
`pressed` flag is true exactly when the message is a button-down message, and
whose `x` and `y` are the low and the high 16-bit word of `lparam` read as
signed 16-bit integers (so they may be negative). -/
theorem mouse_button_notifications (st : window_state) (os : os_state)
    (hwnd message wparam : Nat) (lparam : Int)
    (hassoc : hwnd ∈ os.userdata)
    (hm : message ∈ [WM_LBUTTONDOWN, WM_LBUTTONUP, WM_RBUTTONDOWN, WM_RBUTTONUP, WM_MBUTTONDOWN,
      WM_MBUTTONUP, WM_XBUTTONDOWN, WM_XBUTTONUP]) :
    (window_proc (some st) os hwnd message wparam lparam).2.1 =
      some { st with events := st.events ++
        [event.mouse_button_event (map_mouse_button message wparam)
          (decide (message ∈ [WM_LBUTTONDOWN, WM_RBUTTONDOWN, WM_MBUTTONDOWN, WM_XBUTTONDOWN]))
          (GET_X_LPARAM lparam) (GET_Y_LPARAM lparam)] } ∧
    (-32768 ≤ GET_X_LPARAM lparam ∧ GET_X_LPARAM lparam ≤ 32767 ∧
      (GET_X_LPARAM lparam - lparam) % 65536 = 0) ∧
    (-32768 ≤ GET_Y_LPARAM lparam ∧ GET_Y_LPARAM lparam ≤ 32767 ∧
      (GET_Y_LPARAM lparam - lparam / 65536) % 65536 = 0) := by
  refine ⟨?_, GET_X_LPARAM_signed lparam, GET_Y_LPARAM_signed lparam⟩
  rw [window_proc_button st os hwnd message wparam lparam hassoc hm]

/-- C17 at a concrete input: the right button released at the client point `(-1, 5)`. -/
theorem mouse_button_notifications_witness :
    (window_proc (some example_state) example_os 1 WM_RBUTTONUP 0 (MAKELPARAM 65535 5)).2.1 =
      some { example_state with events :=
        [event.mouse_button_event mouse_button.right false (-1) 5] } :=
  (mouse_button_notifications example_state example_os 1 WM_RBUTTONUP 0 (MAKELPARAM 65535 5)
    (by decide) (by decide)).1.trans (by decide)

/-- C18, counterexample. An X-button message whose X-button field is `3`,
neither `XBUTTON1` nor `XBUTTON2`: `map_mouse_button` returns `x2`, not
`unknown`, and the translator appends a `mouse_button` event for `x2`. -/
theorem xbutton_field_three_maps_to_x2 :
    GET_XBUTTON_WPARAM 196608 ≠ XBUTTON1 ∧ GET_XBUTTON_WPARAM 196608 ≠ XBUTTON2 ∧
    map_mouse_button WM_XBUTTONDOWN 196608 = mouse_button.x2 ∧
    (window_proc (some example_state) example_os 1 WM_XBUTTONDOWN 196608 0).2.1 =
      some { example_state with events :=
        [event.mouse_button_event mouse_button.x2 true 0 0] } := by
  decide

/-- C18, amended. For an X-button message whose X-button field is not
`XBUTTON1` (be it `XBUTTON2` or any other value), `map_mouse_button` returns
`x2`, and the translator appends exactly one `mouse_button` event for `x2`: such
a combination is neither mapped to `unknown` nor dropped. -/
theorem xbutton_field_not_one_maps_to_x2 (st : window_state) (os : os_state)
    (hwnd message wparam : Nat) (lparam : Int)
    (hassoc : hwnd ∈ os.userdata)
    (hm : message = WM_XBUTTONDOWN ∨ message = WM_XBUTTONUP)
    (hx : GET_XBUTTON_WPARAM wparam ≠ XBUTTON1) :
    map_mouse_button message wparam = mouse_button.x2 ∧
    (window_proc (some st) os hwnd message wparam lparam).2.1 =
      some { st with events := st.events ++
        [event.mouse_button_event mouse_button.x2 (decide (message = WM_XBUTTONDOWN))
          (GET_X_LPARAM lparam) (GET_Y_LPARAM lparam)] } := by
  have hb : map_mouse_button message wparam = mouse_button.x2 := by
    rcases hm with h | h <;> subst h <;>
      simp [map_mouse_button, WM_LBUTTONDOWN, WM_LBUTTONUP, WM_RBUTTONDOWN, WM_RBUTTONUP,
        WM_MBUTTONDOWN, WM_MBUTTONUP, WM_XBUTTONDOWN, WM_XBUTTONUP, hx]
  refine ⟨hb, ?_⟩
  rw [window_proc_button st os hwnd message wparam lparam hassoc
    (by rcases hm with h | h <;> simp [h]), hb]
  rcases hm with h | h <;> subst h <;> rfl

/-- C18, amended, at a concrete input: the X-button field is `3`. -/
theorem xbutton_field_not_one_maps_to_x2_witness :
    map_mouse_button WM_XBUTTONUP 196608 = mouse_button.x2 ∧
    (window_proc (some example_state) example_os 1 WM_XBUTTONUP 196608 0).2.1 =
      some { example_state with events :=
        [event.mouse_button_event mouse_button.x2 false 0 0] } :=
  ⟨(xbutton_field_not_one_maps_to_x2 example_state example_os 1 WM_XBUTTONUP 196608 0
      (by decide) (Or.inr rfl) (by decide)).1,
   (xbutton_field_not_one_maps_to_x2 example_state example_os 1 WM_XBUTTONUP 196608 0
      (by decide) (Or.inr rfl) (by decide)).2.trans (by decide)⟩

/-- C20. Unhandled notifications: a notification of a kind the translator has
no `case` for, and any notification other than the creation one that arrives
while no window state is associated with the handle, appends no event, leaves
the window state (`is_open`, cursor mode, suppression flag, queue) as it was,
and returns the result of the platform default handler. -/
theorem unhandled_notifications (heap : Option window_state) (os : os_state)
    (hwnd message wparam : Nat) (lparam : Int) :
    (message ∉ [WM_NCCREATE, WM_CLOSE, WM_DESTROY, WM_SIZE, WM_ENTERSIZEMOVE,
        WM_EXITSIZEMOVE, WM_KEYDOWN, WM_SYSKEYDOWN, WM_KEYUP, WM_SYSKEYUP, WM_MOUSEMOVE,
        WM_LBUTTONDOWN, WM_LBUTTONUP, WM_RBUTTONDOWN, WM_RBUTTONUP, WM_MBUTTONDOWN, WM_MBUTTONUP,
        WM_XBUTTONDOWN, WM_XBUTTONUP] →
      (window_proc heap os hwnd message wparam lparam).1
        = LRESULT.def_window_proc hwnd message wparam lparam ∧
      (window_proc heap os hwnd message wparam lparam).2.1 = heap ∧
      (window_proc heap os hwnd message wparam lparam).2.2 =
        { os with calls := os.calls ++ [os_call.GetWindowLongPtrW hwnd]
            ++ (if hwnd ∈ os.userdata ∧ heap.isSome = true
                then hook_calls os hwnd message wparam lparam else [])
            ++ [os_call.DefWindowProcW hwnd message wparam lparam] }) ∧
    (message ≠ WM_NCCREATE → (hwnd ∉ os.userdata ∨ heap = none) →
      window_proc heap os hwnd message wparam lparam =
        (LRESULT.def_window_proc hwnd message wparam lparam, heap,
         { os with calls := os.calls ++ [os_call.GetWindowLongPtrW hwnd,
             os_call.DefWindowProcW hwnd message wparam lparam] })) := by
  refine ⟨?_, fun hnc hno => window_proc_unassociated heap os hwnd message wparam lparam hnc hno⟩
  intro hm
  have hnc : message ≠ WM_NCCREATE := fun h => hm (by simp [h])
  by_cases hassoc : hwnd ∈ os.userdata
  · cases heap with
    | none =>
      rw [window_proc_unassociated none os hwnd message wparam lparam hnc (Or.inr rfl)]
      simp
    | some st =>
      rw [window_proc_default st os hwnd message wparam lparam hassoc hm]
      simp [hassoc]
  · rw [window_proc_unassociated heap os hwnd message wparam lparam hnc (Or.inl hassoc)]
    simp [hassoc]

/-- C20 at concrete inputs: a paint notification (`WM_PAINT`, `0x000F`) for the
example window, and a key notification for a handle without association. -/
theorem unhandled_notifications_witness :
    window_proc (some example_state) example_os 1 15 0 0 =
      (LRESULT.def_window_proc 1 15 0 0, some example_state,
       { example_os with calls := [os_call.GetWindowLongPtrW 1, os_call.DefWindowProcW 1 15 0 0] }) ∧
    window_proc (some example_state) example_os 2 WM_KEYDOWN 65 0 =
      (LRESULT.def_window_proc 2 WM_KEYDOWN 65 0, some example_state,
       { example_os with
         calls := [os_call.GetWindowLongPtrW 2, os_call.DefWindowProcW 2 WM_KEYDOWN 65 0] }) :=
  ⟨by
    have h := (unhandled_notifications (some example_state) example_os 1 15 0 0).1 (by decide)
    exact Prod.ext h.1 (Prod.ext h.2.1 (h.2.2.trans (by decide))),
   (unhandled_notifications (some example_state) example_os 2 WM_KEYDOWN 65 0).2 (by decide)
     (Or.inl (by decide))⟩

/-! ## Counting the events of a notification -/

/-- C19. The translator only appends: for every window state and every
notification, the queue afterwards is the queue before followed by 0, 1 or 2
new events. It appends exactly two if and only if the notification is a
mouse-move for the associated handle, the cursor mode is `captured_hidden`, the
suppression flag is clear, the client rectangle is read successfully and the
point differs from the centre; they are then the `mouse_move` immediately
followed by its `mouse_delta`. In normal mode no `mouse_delta` is appended and a
mouse-move leaves the suppression flag unchanged. -/
theorem translator_only_appends (st : window_state) (os : os_state) (hwnd message wparam : Nat)
    (lparam : Int) :
    ∃ st1, (window_proc (some st) os hwnd message wparam lparam).2.1 = some st1 ∧
      st1.events = st.events ++ st1.events.drop st.events.length ∧
      (st1.events.drop st.events.length).length ≤ 2 ∧
      ((st1.events.drop st.events.length).length = 2 ↔
        (hwnd ∈ os.userdata ∧ message = WM_MOUSEMOVE ∧
          st.cursor = cursor_mode.captured_hidden ∧ st.suppress_next_mouse_move = false ∧
          ∃ client, (GetClientRect os hwnd).1 = some client ∧
            (GET_X_LPARAM lparam, GET_Y_LPARAM lparam)
              ≠ (Int.tdiv client.width 2, Int.tdiv client.height 2))) ∧
      (∀ client, (GetClientRect os hwnd).1 = some client →
        (st1.events.drop st.events.length).length = 2 →
        st1.events.drop st.events.length =
          [event.mouse_move_event (GET_X_LPARAM lparam) (GET_Y_LPARAM lparam),
           event.mouse_delta_event (GET_X_LPARAM lparam - Int.tdiv client.width 2)
             (GET_Y_LPARAM lparam - Int.tdiv client.height 2)]) ∧
      (st.cursor = cursor_mode.normal →
        (st1.events.drop st.events.length).any is_mouse_delta = false ∧
        (message = WM_MOUSEMOVE →
          st1.suppress_next_mouse_move = st.suppress_next_mouse_move)) := by
  by_cases hmm : message = WM_MOUSEMOVE
  · subst hmm
    by_cases hassoc : hwnd ∈ os.userdata
    · cases hc : st.cursor with
      | normal =>
        refine ⟨_, by rw [window_proc_mouse_move_normal st os hwnd wparam lparam hassoc hc], ?_⟩
        simp [hc, is_mouse_delta]
      | captured_hidden =>
        cases hf : st.suppress_next_mouse_move with
        | true =>
          refine ⟨_, by rw [window_proc_mouse_move_suppressed st os hwnd wparam lparam hassoc hc hf], ?_⟩
          simp [hc, hf]
        | false =>
          cases hr : (GetClientRect os hwnd).1 with
          | none =>
            refine ⟨_, by rw [window_proc_mouse_move_no_rect st os hwnd wparam lparam hassoc hc hf hr], ?_⟩
            simp [hc, hf]
          | some client =>
            by_cases hP : (GET_X_LPARAM lparam, GET_Y_LPARAM lparam)
                = (Int.tdiv client.width 2, Int.tdiv client.height 2)
            · refine ⟨_, by rw [window_proc_mouse_move_centre st os hwnd wparam lparam client
                hassoc hc hf hr hP], ?_⟩
              simp only [Prod.mk.injEq] at hP
              simp [hc, hf, hP]
            · refine ⟨_, by rw [window_proc_mouse_move_delta st os hwnd wparam lparam client
                hassoc hc hf hr hP], ?_⟩
              simp only [Prod.mk.injEq] at hP
              simp [hc, hf, hassoc, hP]
              exact fun a b => hP ⟨a, b⟩
    · refine ⟨st, by rw [window_proc_unassociated (some st) os hwnd WM_MOUSEMOVE wparam lparam
        (by decide) (Or.inl hassoc)], ?_⟩
      simp [hassoc, is_mouse_delta]
  · obtain ⟨st1, h1, h2, h3⟩ := window_proc_event_count st os hwnd message wparam lparam hmm
    obtain ⟨st2, g1, g2, -⟩ := window_proc_facts st os hwnd message wparam lparam
    have e : st2 = st1 := by
      rw [h1] at g1
      exact (Option.some.inj g1).symm
    subst e
    refine ⟨st2, h1, g2, by omega, ?_, ?_, ?_⟩
    · constructor
      · intro h; omega
      · intro h; exact absurd h.2.1 hmm
    · intro client _ h; omega
    · intro _
      exact ⟨h3, fun h => absurd h hmm⟩

/-! ## Capture, end to end -/

/-- The shape of a dispatch: what `window_proc` returns is stored back. -/
theorem dispatch_eq (st st1 : window_state) (os os1 : os_state) (msg : MSG) (r : LRESULT)
    (h : window_proc (some st) (os.record (os_call.DispatchMessageW msg)) msg.hwnd msg.message
      msg.wParam msg.lParam = (r, some st1, os1)) :
    DispatchMessageW { win := { m_impl := some { state := some st } }, os := os } msg =
      { win := { m_impl := some { state := some st1 } }, os := os1 } := by
  simp [DispatchMessageW, window.state, window.store, h]

/-- A mouse-move dispatched to a captured window, case by case. -/
theorem dispatch_mouse_move_captured (st : window_state) (os : os_state) (hwnd wparam : Nat)
    (lparam : Int)
    (hassoc : hwnd ∈ os.userdata) (hmode : st.cursor = cursor_mode.captured_hidden) :
    (DispatchMessageW { win := { m_impl := some { state := some st } }, os := os }
      { hwnd := hwnd, message := WM_MOUSEMOVE, wParam := wparam, lParam := lparam }).os.windows
      = os.windows ∧
    (DispatchMessageW { win := { m_impl := some { state := some st } }, os := os }
      { hwnd := hwnd, message := WM_MOUSEMOVE, wParam := wparam, lParam := lparam }).os.userdata
      = os.userdata ∧
    (st.suppress_next_mouse_move = true →
      (DispatchMessageW { win := { m_impl := some { state := some st } }, os := os }
        { hwnd := hwnd, message := WM_MOUSEMOVE, wParam := wparam, lParam := lparam }).win
        = { m_impl := some { state := some { st with
            events := st.events ++
              [event.mouse_move_event (GET_X_LPARAM lparam) (GET_Y_LPARAM lparam)],
            suppress_next_mouse_move := false } } }) ∧
    (st.suppress_next_mouse_move = false → ∀ client, (GetClientRect os hwnd).1 = some client →
      ((GET_X_LPARAM lparam, GET_Y_LPARAM lparam)
          = (Int.tdiv client.width 2, Int.tdiv client.height 2) →
        (DispatchMessageW { win := { m_impl := some { state := some st } }, os := os }
          { hwnd := hwnd, message := WM_MOUSEMOVE, wParam := wparam, lParam := lparam }).win
          = { m_impl := some { state := some { st with
              events := st.events ++
                [event.mouse_move_event (GET_X_LPARAM lparam) (GET_Y_LPARAM lparam)] } } }) ∧
      ((GET_X_LPARAM lparam, GET_Y_LPARAM lparam)
          ≠ (Int.tdiv client.width 2, Int.tdiv client.height 2) →
        (DispatchMessageW { win := { m_impl := some { state := some st } }, os := os }
          { hwnd := hwnd, message := WM_MOUSEMOVE, wParam := wparam, lParam := lparam }).win
          = { m_impl := some { state := some { st with
              events := st.events ++
                [event.mouse_move_event (GET_X_LPARAM lparam) (GET_Y_LPARAM lparam),
                 event.mouse_delta_event (GET_X_LPARAM lparam - Int.tdiv client.width 2)
                   (GET_Y_LPARAM lparam - Int.tdiv client.height 2)],
              suppress_next_mouse_move := true } } })) := by
  have hassoc1 : hwnd ∈ (os.record (os_call.DispatchMessageW
      { hwnd := hwnd, message := WM_MOUSEMOVE, wParam := wparam, lParam := lparam })).userdata :=
    hassoc
  cases hf : st.suppress_next_mouse_move with
  | true =>
    rw [dispatch_eq st _ os _ _ _
      (window_proc_mouse_move_suppressed st _ hwnd wparam lparam hassoc1 hmode hf)]
    simp [os_state.record, hf]
  | false =>
    cases hr : (GetClientRect os hwnd).1 with
    | none =>
      rw [dispatch_eq st _ os _ _ _
        (window_proc_mouse_move_no_rect st _ hwnd wparam lparam hassoc1 hmode hf hr)]
      simp [os_state.record, hf]
    | some client =>
      by_cases hP : (GET_X_LPARAM lparam, GET_Y_LPARAM lparam)
          = (Int.tdiv client.width 2, Int.tdiv client.height 2)
      · rw [dispatch_eq st _ os _ _ _
          (window_proc_mouse_move_centre st _ hwnd wparam lparam client hassoc1 hmode hf hr hP)]
        simp only [Prod.mk.injEq] at hP
        simp [os_state.record, hP, hf]
      · rw [dispatch_eq st _ os _ _ _
          (window_proc_mouse_move_delta st _ hwnd wparam lparam client hassoc1 hmode hf hr hP)]
        simp only [Prod.mk.injEq] at hP
        simp [os_state.record, hP, hf]
        intro a b
        exact absurd ⟨a, b⟩ hP

/-- A mouse-move dispatched to an armed window: only recorded, the flag is cleared. -/
theorem step_suppressed (w : world) (st : window_state) (hwnd wparam : Nat) (lparam : Int)
    (hw : w.win = { m_impl := some { state := some st } })
    (hassoc : hwnd ∈ w.os.userdata) (hmode : st.cursor = cursor_mode.captured_hidden)
    (hf : st.suppress_next_mouse_move = true) :
    ∃ os1, DispatchMessageW w (mouse_move_msg hwnd wparam lparam) =
        { win := { m_impl := some { state := some { st with
            events := st.events ++
              [event.mouse_move_event (GET_X_LPARAM lparam) (GET_Y_LPARAM lparam)],
            suppress_next_mouse_move := false } } },
          os := os1 } ∧
      os1.windows = w.os.windows ∧ os1.userdata = w.os.userdata := by
  rcases w with ⟨win, os⟩
  simp only at hw hassoc
  subst hw
  obtain ⟨h1, h2, h3, -⟩ := dispatch_mouse_move_captured st os hwnd wparam lparam hassoc hmode
  exact ⟨_, by rw [← h3 hf]; rfl, h1, h2⟩

/-- A mouse-move away from the centre dispatched to a captured window with
the flag clear: recorded, followed by its delta, and the flag is set. -/
theorem step_delta (w : world) (st : window_state) (hwnd wparam : Nat) (lparam : Int)
    (nw : native_window)
    (hw : w.win = { m_impl := some { state := some st } })
    (hassoc : hwnd ∈ w.os.userdata) (hmode : st.cursor = cursor_mode.captured_hidden)
    (hf : st.suppress_next_mouse_move = false)
    (hlive : w.os.windows.lookup hwnd = some nw)
    (hP : (GET_X_LPARAM lparam, GET_Y_LPARAM lparam)
      ≠ (Int.tdiv nw.client.width 2, Int.tdiv nw.client.height 2)) :
    ∃ os1, DispatchMessageW w (mouse_move_msg hwnd wparam lparam) =
        { win := { m_impl := some { state := some { st with
            events := st.events ++
              [event.mouse_move_event (GET_X_LPARAM lparam) (GET_Y_LPARAM lparam),
               event.mouse_delta_event (GET_X_LPARAM lparam - Int.tdiv nw.client.width 2)
                 (GET_Y_LPARAM lparam - Int.tdiv nw.client.height 2)],
            suppress_next_mouse_move := true } } },
          os := os1 } ∧
      os1.windows = w.os.windows ∧ os1.userdata = w.os.userdata := by
  rcases w with ⟨win, os⟩
  simp only at hw hassoc hlive
  subst hw
  obtain ⟨h1, h2, -, h4⟩ := dispatch_mouse_move_captured st os hwnd wparam lparam hassoc hmode
  have hr : (GetClientRect os hwnd).1 = some nw.client := by simp [GetClientRect, hlive]
  exact ⟨_, by rw [← (h4 hf nw.client hr).2 hP]; rfl, h1, h2⟩

/-- A mouse-move at the centre dispatched to a captured window with the flag
clear: only recorded. -/
theorem step_centre (w : world) (st : window_state) (hwnd wparam : Nat) (lparam : Int)
    (nw : native_window)
    (hw : w.win = { m_impl := some { state := some st } })
    (hassoc : hwnd ∈ w.os.userdata) (hmode : st.cursor = cursor_mode.captured_hidden)
    (hf : st.suppress_next_mouse_move = false)
    (hlive : w.os.windows.lookup hwnd = some nw)
    (hP : (GET_X_LPARAM lparam, GET_Y_LPARAM lparam)
      = (Int.tdiv nw.client.width 2, Int.tdiv nw.client.height 2)) :
    ∃ os1, DispatchMessageW w (mouse_move_msg hwnd wparam lparam) =
        { win := { m_impl := some { state := some { st with
            events := st.events ++
              [event.mouse_move_event (GET_X_LPARAM lparam) (GET_Y_LPARAM lparam)] } } },
          os := os1 } ∧
      os1.windows = w.os.windows ∧ os1.userdata = w.os.userdata := by
  rcases w with ⟨win, os⟩
  simp only at hw hassoc hlive
  subst hw
  obtain ⟨h1, h2, -, h4⟩ := dispatch_mouse_move_captured st os hwnd wparam lparam hassoc hmode
  have hr : (GetClientRect os hwnd).1 = some nw.client := by simp [GetClientRect, hlive]
  exact ⟨_, by rw [← (h4 hf nw.client hr).1 hP]; rfl, h1, h2⟩

/-- Two mouse-moves dispatched to an armed window, the second at the centre:
the first is taken as the warp-induced one, no delta is produced. -/
theorem armed_then_two_moves (s1 : window_state) (osA : os_state) (nw : native_window)
    (hwnd wparam : Nat) (lparamP lparamC : Int)
    (hmode : s1.cursor = cursor_mode.captured_hidden)
    (hf : s1.suppress_next_mouse_move = true)
    (hassoc : hwnd ∈ osA.userdata) (hlive : osA.windows.lookup hwnd = some nw)
    (hC : (GET_X_LPARAM lparamC, GET_Y_LPARAM lparamC)
      = (Int.tdiv nw.client.width 2, Int.tdiv nw.client.height 2)) :
    queue (dispatch_all { win := { m_impl := some { state := some s1 } }, os := osA }
        [mouse_move_msg hwnd wparam lparamP, mouse_move_msg hwnd wparam lparamC])
      = s1.events ++
        [event.mouse_move_event (GET_X_LPARAM lparamP) (GET_Y_LPARAM lparamP),
         event.mouse_move_event (GET_X_LPARAM lparamC) (GET_Y_LPARAM lparamC)] := by
  simp only [dispatch_all, List.foldl_cons, List.foldl_nil]
  obtain ⟨os1, e1, w1, u1⟩ := step_suppressed
    { win := { m_impl := some { state := some s1 } }, os := osA } s1 hwnd wparam lparamP rfl
    hassoc hmode hf
  rw [e1]
  obtain ⟨os2, e2, -, -⟩ := step_centre
    { win := { m_impl := some { state := some { s1 with
        events := s1.events ++
          [event.mouse_move_event (GET_X_LPARAM lparamP) (GET_Y_LPARAM lparamP)],
        suppress_next_mouse_move := false } } }, os := os1 }
    _ hwnd wparam lparamC nw rfl (by rw [u1]; exact hassoc) hmode rfl (by rw [w1]; exact hlive) hC
  rw [e2]
  simp [queue, window.state]

/-- The warp-induced move, a move away from the centre and the warp-induced
move it causes, dispatched to an armed window: one delta, after its move. -/
theorem armed_then_three_moves (s1 : window_state) (osA : os_state) (nw : native_window)
    (hwnd wparam : Nat) (lparamP lparamC : Int)
    (hmode : s1.cursor = cursor_mode.captured_hidden)
    (hf : s1.suppress_next_mouse_move = true)
    (hassoc : hwnd ∈ osA.userdata) (hlive : osA.windows.lookup hwnd = some nw)
    (hP : (GET_X_LPARAM lparamP, GET_Y_LPARAM lparamP)
      ≠ (Int.tdiv nw.client.width 2, Int.tdiv nw.client.height 2)) :
    queue (dispatch_all { win := { m_impl := some { state := some s1 } }, os := osA }
        [mouse_move_msg hwnd wparam lparamC, mouse_move_msg hwnd wparam lparamP,
         mouse_move_msg hwnd wparam lparamC])
      = s1.events ++
        [event.mouse_move_event (GET_X_LPARAM lparamC) (GET_Y_LPARAM lparamC),
         event.mouse_move_event (GET_X_LPARAM lparamP) (GET_Y_LPARAM lparamP),
         event.mouse_delta_event (GET_X_LPARAM lparamP - Int.tdiv nw.client.width 2)
           (GET_Y_LPARAM lparamP - Int.tdiv nw.client.height 2),
         event.mouse_move_event (GET_X_LPARAM lparamC) (GET_Y_LPARAM lparamC)] := by
  simp only [dispatch_all, List.foldl_cons, List.foldl_nil]
  obtain ⟨os1, e1, w1, u1⟩ := step_suppressed
    { win := { m_impl := some { state := some s1 } }, os := osA } s1 hwnd wparam lparamC rfl
    hassoc hmode hf
  rw [e1]
  obtain ⟨os2, e2, w2, u2⟩ := step_delta
    { win := { m_impl := some { state := some { s1 with
        events := s1.events ++
          [event.mouse_move_event (GET_X_LPARAM lparamC) (GET_Y_LPARAM lparamC)],
        suppress_next_mouse_move := false } } }, os := os1 }
    _ hwnd wparam lparamP nw rfl (by rw [u1]; exact hassoc) hmode rfl (by rw [w1]; exact hlive) hP
  rw [e2]
  obtain ⟨os3, e3, -, -⟩ := step_suppressed
    { win := { m_impl := some { state := some { s1 with
        events := s1.events ++
          [event.mouse_move_event (GET_X_LPARAM lparamC) (GET_Y_LPARAM lparamC)] ++
          [event.mouse_move_event (GET_X_LPARAM lparamP) (GET_Y_LPARAM lparamP),
           event.mouse_delta_event (GET_X_LPARAM lparamP - Int.tdiv nw.client.width 2)
             (GET_Y_LPARAM lparamP - Int.tdiv nw.client.height 2)],
        suppress_next_mouse_move := true } } }, os := os2 }
    _ hwnd wparam lparamC rfl (by rw [u2, u1]; exact hassoc) hmode rfl
  rw [e3]
  simp [queue, window.state]

/-- C12, amended. End-to-end capture: from a window in normal mode with an
empty queue and client centre `(cx, cy)`, `set_cursor_mode(captured_hidden)`
succeeds and leaves the suppression flag armed, so the first mouse-move
dispatched after it is taken as the warp-induced one: a move to
`(cx+10, cy-5)` and then a move at `(cx, cy)` leave `mouse_move{cx+10, cy-5}`,
`mouse_move{cx, cy}` and no `mouse_delta`. When the warp-induced move of
`set_cursor_mode` at `(cx, cy)` is dispatched first, the move to `(cx+10, cy-5)`
and the warp-induced move at `(cx, cy)` that follows leave, in order,
`mouse_move{cx, cy}`, `mouse_move{cx+10, cy-5}`, `mouse_delta{10, -5}`,
`mouse_move{cx, cy}`: one delta, right after its move, and each suppressed warp
move adds its `mouse_move` but no `mouse_delta`. -/
theorem end_to_end_capture (st : window_state) (os : os_state) (nw : native_window)
    (wparam : Nat) (lparamP lparamC : Int)
    (hh : st.hwnd ≠ 0) (hmode : st.cursor = cursor_mode.normal) (hq : st.events = [])
    (hlive : os.windows.lookup st.hwnd = some nw) (hclip : os.clip_allowed = true)
    (hassoc : st.hwnd ∈ os.userdata)
    (hP : (GET_X_LPARAM lparamP, GET_Y_LPARAM lparamP)
      = (Int.tdiv nw.client.width 2 + 10, Int.tdiv nw.client.height 2 - 5))
    (hC : (GET_X_LPARAM lparamC, GET_Y_LPARAM lparamC)
      = (Int.tdiv nw.client.width 2, Int.tdiv nw.client.height 2)) :
    (set_cursor_mode { win := { m_impl := some { state := some st } }, os := os }
      cursor_mode.captured_hidden).1 = none ∧
    queue (dispatch_all
        (set_cursor_mode { win := { m_impl := some { state := some st } }, os := os }
          cursor_mode.captured_hidden).2
        [mouse_move_msg st.hwnd wparam lparamP, mouse_move_msg st.hwnd wparam lparamC])
      = [event.mouse_move_event (Int.tdiv nw.client.width 2 + 10)
           (Int.tdiv nw.client.height 2 - 5),
         event.mouse_move_event (Int.tdiv nw.client.width 2) (Int.tdiv nw.client.height 2)] ∧
    queue (dispatch_all
        (set_cursor_mode { win := { m_impl := some { state := some st } }, os := os }
          cursor_mode.captured_hidden).2
        [mouse_move_msg st.hwnd wparam lparamC, mouse_move_msg st.hwnd wparam lparamP,
         mouse_move_msg st.hwnd wparam lparamC])
      = [event.mouse_move_event (Int.tdiv nw.client.width 2) (Int.tdiv nw.client.height 2),
         event.mouse_move_event (Int.tdiv nw.client.width 2 + 10)
           (Int.tdiv nw.client.height 2 - 5),
         event.mouse_delta_event 10 (-5),
         event.mouse_move_event (Int.tdiv nw.client.width 2) (Int.tdiv nw.client.height 2)] := by
  rw [set_cursor_mode_enter st os nw hh hmode hlive hclip]
  have hPne : (GET_X_LPARAM lparamP, GET_Y_LPARAM lparamP)
      ≠ (Int.tdiv nw.client.width 2, Int.tdiv nw.client.height 2) := by
    rw [hP, Ne, Prod.mk.injEq]; omega
  dsimp only
  simp only [Prod.mk.injEq] at hP hC
  refine ⟨rfl, ?_, ?_⟩
  · rw [armed_then_two_moves _ _ nw st.hwnd wparam lparamP lparamC rfl rfl ?_ ?_
      (by rw [Prod.mk.injEq]; exact hC)]
    · simp [hq, hP, hC]
    · exact hassoc
    · exact hlive
  · rw [armed_then_three_moves _ _ nw st.hwnd wparam lparamP lparamC rfl rfl ?_ ?_ hPne]
    · simp [hq, hP, hC]
    · exact hassoc
    · exact hlive

/-- C12, amended, at a concrete input: the example window, centre `(320, 240)`. -/
theorem end_to_end_capture_witness :
    queue (dispatch_all (set_cursor_mode example_world cursor_mode.captured_hidden).2
        [mouse_move_msg 1 0 (MAKELPARAM 320 240), mouse_move_msg 1 0 (MAKELPARAM 330 235),
         mouse_move_msg 1 0 (MAKELPARAM 320 240)])
      = [event.mouse_move_event 320 240, event.mouse_move_event 330 235,
         event.mouse_delta_event 10 (-5), event.mouse_move_event 320 240] :=
  (end_to_end_capture example_state example_os
    { client := example_client, origin := { x := 100, y := 50 } } 0 (MAKELPARAM 330 235)
    (MAKELPARAM 320 240) (by decide) (by decide) (by decide) (by decide) (by decide) (by decide)
    (by decide) (by decide)).2.2.trans (by decide)

/-- C12, counterexample. On the example window (centre `(320, 240)`, empty
queue, normal mode) `set_cursor_mode(captured_hidden)` succeeds; the move to
`(330, 235)` and then the move at `(320, 240)` leave two `mouse_move` events:
the queue is not `mouse_move{330, 235}`, `mouse_delta{10, -5}`. -/
theorem first_move_after_capture_is_suppressed :
    (set_cursor_mode example_world cursor_mode.captured_hidden).1 = none ∧
    queue (dispatch_all (set_cursor_mode example_world cursor_mode.captured_hidden).2
        [mouse_move_msg 1 0 (MAKELPARAM 330 235), mouse_move_msg 1 0 (MAKELPARAM 320 240)])
      = [event.mouse_move_event 330 235, event.mouse_move_event 320 240] ∧
    queue (dispatch_all (set_cursor_mode example_world cursor_mode.captured_hidden).2
        [mouse_move_msg 1 0 (MAKELPARAM 330 235), mouse_move_msg 1 0 (MAKELPARAM 320 240)])
      ≠ [event.mouse_move_event 330 235, event.mouse_delta_event 10 (-5)] := by
  decide

/-! ## Deltas of captured moves -/

/-- C13, amended. In `captured_hidden` mode with the suppression flag clear
and the client rectangle readable, every mouse-move notification to a point
other than the client-area centre yields exactly one `mouse_delta` event, right
after its `mouse_move`. With the flag clear and the client rectangle unreadable
it yields none; with the suppression flag set (as it is after entering capture
and after every delta-producing move) it yields none and clears the flag. -/
theorem captured_move_delta_count (st : window_state) (os : os_state) (hwnd wparam : Nat)
    (lparam : Int)
    (hassoc : hwnd ∈ os.userdata) (hmode : st.cursor = cursor_mode.captured_hidden) :
    ∃ st1, (window_proc (some st) os hwnd WM_MOUSEMOVE wparam lparam).2.1 = some st1 ∧
      st1.events = st.events ++ st1.events.drop st.events.length ∧
      (st.suppress_next_mouse_move = false →
        ∀ client, (GetClientRect os hwnd).1 = some client →
          (GET_X_LPARAM lparam, GET_Y_LPARAM lparam)
            ≠ (Int.tdiv client.width 2, Int.tdiv client.height 2) →
          (st1.events.drop st.events.length).countP is_mouse_delta = 1 ∧
          st1.events.drop st.events.length =
            [event.mouse_move_event (GET_X_LPARAM lparam) (GET_Y_LPARAM lparam),
             event.mouse_delta_event (GET_X_LPARAM lparam - Int.tdiv client.width 2)
               (GET_Y_LPARAM lparam - Int.tdiv client.height 2)]) ∧
      (st.suppress_next_mouse_move = false → (GetClientRect os hwnd).1 = none →
        (st1.events.drop st.events.length).countP is_mouse_delta = 0) ∧
      (st.suppress_next_mouse_move = true →
        (st1.events.drop st.events.length).countP is_mouse_delta = 0 ∧
        st1.suppress_next_mouse_move = false) := by
  cases hf : st.suppress_next_mouse_move with
  | true =>
    refine ⟨_, by rw [window_proc_mouse_move_suppressed st os hwnd wparam lparam hassoc hmode hf], ?_⟩
    simp [is_mouse_delta]
  | false =>
    cases hr : (GetClientRect os hwnd).1 with
    | none =>
      refine ⟨_, by rw [window_proc_mouse_move_no_rect st os hwnd wparam lparam hassoc hmode hf hr], ?_⟩
      simp [is_mouse_delta]
    | some client =>
      by_cases hP : (GET_X_LPARAM lparam, GET_Y_LPARAM lparam)
          = (Int.tdiv client.width 2, Int.tdiv client.height 2)
      · refine ⟨_, by rw [window_proc_mouse_move_centre st os hwnd wparam lparam client
          hassoc hmode hf hr hP], ?_⟩
        simp only [Prod.mk.injEq] at hP
        simp [is_mouse_delta, hP]
      · refine ⟨_, by rw [window_proc_mouse_move_delta st os hwnd wparam lparam client
          hassoc hmode hf hr hP], ?_⟩
        simp [is_mouse_delta]

/-- C13, amended, at a concrete input: the flag clear, a move to `(500, 10)`. -/
theorem captured_move_delta_count_witness :
    ∃ st1, (window_proc (some example_captured_state) example_os 1 WM_MOUSEMOVE 0
        (MAKELPARAM 500 10)).2.1 = some st1 ∧
      (st1.events.drop example_captured_state.events.length).countP is_mouse_delta = 1 ∧
      st1.events.drop example_captured_state.events.length
        = [event.mouse_move_event 500 10, event.mouse_delta_event 180 (-230)] := by
  obtain ⟨st1, h1, -, h3, -, -⟩ := captured_move_delta_count example_captured_state example_os 1 0
    (MAKELPARAM 500 10) (by decide) (by decide)
  have h := h3 (by decide) example_client (by decide) (by decide)
  exact ⟨st1, h1, h.1, h.2.trans (by decide)⟩

/-- C13, counterexample. The example window right after
`set_cursor_mode(captured_hidden)` is reachable and in captured mode; a
mouse-move to `(500, 10)`, not the centre `(320, 240)`, appends its `mouse_move`
and no `mouse_delta`. -/
theorem captured_move_without_delta :
    reachable example_captured_world ∧
    get_cursor_mode example_captured_world = cursor_mode.captured_hidden ∧
    (GET_X_LPARAM example_move_msg.lParam, GET_Y_LPARAM example_move_msg.lParam) = (500, 10) ∧
    (Int.tdiv example_client.width 2, Int.tdiv example_client.height 2) = (320, 240) ∧
    queue (DispatchMessageW example_captured_world example_move_msg)
      = queue example_captured_world ++ [event.mouse_move_event 500 10] ∧
    ((queue (DispatchMessageW example_captured_world example_move_msg)).drop
      (queue example_captured_world).length).countP is_mouse_delta = 0 :=
  ⟨reachable.by_set_cursor_mode cursor_mode.captured_hidden (reachable.created 1 0 example_os),
   by decide⟩

/-- C14. Delta bound: for a client rectangle of width `W ≥ 1` and height
`H ≥ 1` and a mouse-move to a point inside it (`0 ≤ x < W`, `0 ≤ y < H`), every
`mouse_delta{dx, dy}` the translator appends satisfies `|dx| ≤ W/2` and
`|dy| ≤ H/2` (integer division). -/
theorem delta_bound (st : window_state) (os : os_state) (hwnd wparam : Nat) (lparam : Int)
    (client : RECT)
    (hrect : (GetClientRect os hwnd).1 = some client)
    (hW : 1 ≤ client.width) (hH : 1 ≤ client.height)
    (hx : 0 ≤ GET_X_LPARAM lparam ∧ GET_X_LPARAM lparam < client.width)
    (hy : 0 ≤ GET_Y_LPARAM lparam ∧ GET_Y_LPARAM lparam < client.height) :
    ∃ st1, (window_proc (some st) os hwnd WM_MOUSEMOVE wparam lparam).2.1 = some st1 ∧
      st1.events = st.events ++ st1.events.drop st.events.length ∧
      ∀ dx dy, event.mouse_delta_event dx dy ∈ st1.events.drop st.events.length →
        |dx| ≤ Int.tdiv client.width 2 ∧ |dy| ≤ Int.tdiv client.height 2 := by
  have hW2 : Int.tdiv client.width 2 = client.width / 2 := Int.tdiv_eq_ediv (by omega) (by norm_num)
  have hH2 : Int.tdiv client.height 2 = client.height / 2 :=
    Int.tdiv_eq_ediv (by omega) (by norm_num)
  by_cases hassoc : hwnd ∈ os.userdata
  · cases hc : st.cursor with
    | normal =>
      refine ⟨_, by rw [window_proc_mouse_move_normal st os hwnd wparam lparam hassoc hc], ?_⟩
      simp
    | captured_hidden =>
      cases hf : st.suppress_next_mouse_move with
      | true =>
        refine ⟨_, by rw [window_proc_mouse_move_suppressed st os hwnd wparam lparam hassoc hc hf], ?_⟩
        simp
      | false =>
        by_cases hP : (GET_X_LPARAM lparam, GET_Y_LPARAM lparam)
            = (Int.tdiv client.width 2, Int.tdiv client.height 2)
        · refine ⟨_, by rw [window_proc_mouse_move_centre st os hwnd wparam lparam client
            hassoc hc hf hrect hP], ?_⟩
          simp
        · refine ⟨_, by rw [window_proc_mouse_move_delta st os hwnd wparam lparam client
            hassoc hc hf hrect hP], ?_⟩
          simp only [List.drop_left, List.mem_cons, List.mem_singleton, List.not_mem_nil,
            or_false, reduceCtorEq, false_or, event.mouse_delta_event.injEq, true_and]
          rintro dx dy ⟨rfl, rfl⟩
          rw [hW2, hH2, abs_le, abs_le]
          omega
  · refine ⟨st, by rw [window_proc_unassociated (some st) os hwnd WM_MOUSEMOVE wparam lparam
      (by decide) (Or.inl hassoc)], ?_⟩
    simp

/-- C14 at a concrete input: the top right corner `(639, 0)` of a 640 by 480 client area. -/
theorem delta_bound_witness :
    ∃ st1, (window_proc (some example_captured_state) example_os 1 WM_MOUSEMOVE 0
        (MAKELPARAM 639 0)).2.1 = some st1 ∧
      st1.events = [event.mouse_move_event 639 0, event.mouse_delta_event 319 (-240)] ∧
      |(319 : Int)| ≤ 320 ∧ |(-240 : Int)| ≤ 240 := by
  obtain ⟨st1, h1, h2, h3⟩ := delta_bound example_captured_state example_os 1 0 (MAKELPARAM 639 0)
    example_client (by decide) (by decide) (by decide) (by decide) (by decide)
  have e : st1.events = [event.mouse_move_event 639 0, event.mouse_delta_event 319 (-240)] := by
    have h0 : (window_proc (some example_captured_state) example_os 1 WM_MOUSEMOVE 0
        (MAKELPARAM 639 0)).2.1 = some { example_captured_state with
          events := [event.mouse_move_event 639 0, event.mouse_delta_event 319 (-240)],
          suppress_next_mouse_move := true } := by decide
    rw [h0] at h1
    rw [← Option.some.inj h1]
  exact ⟨st1, h1, e, h3 319 (-240) (by rw [e]; decide)⟩

/-! ## Failing and leaving capture -/

/-- `set_cursor_mode(normal)` on a valid window returns normally. -/
theorem set_cursor_mode_normal_no_throw (w : world) (hv : valid_window w = true) :
    (set_cursor_mode w cursor_mode.normal).1 = none := by
  obtain ⟨st, hst, hh⟩ := (valid_window_iff w).1 hv
  rcases w with ⟨⟨mi⟩, os⟩
  simp only at hst
  subst hst
  cases hc : st.cursor with
  | normal => rw [set_cursor_mode_same st os _ hh hc]
  | captured_hidden => rw [set_cursor_mode_leave st os hh hc]

/-- C11. On a valid window in normal mode `set_cursor_mode(captured_hidden)`
raises (a window error) if and only if reading the client rectangle fails or
installing the clip region fails; in that case no warp is issued and the
suppression flag is left as it was, not armed. `set_cursor_mode(normal)` on a
valid window never raises. -/
theorem capture_failure_conditions (st : window_state) (os : os_state)
    (hh : st.hwnd ≠ 0) (hmode : st.cursor = cursor_mode.normal) :
    ((set_cursor_mode { win := { m_impl := some { state := some st } }, os := os }
        cursor_mode.captured_hidden).1 ≠ none ↔
      ((GetClientRect os st.hwnd).1 = none ∨ os.clip_allowed = false)) ∧
    ((GetClientRect os st.hwnd).1 = none →
      (set_cursor_mode { win := { m_impl := some { state := some st } }, os := os }
        cursor_mode.captured_hidden).1 =
        some (exception.window_error
          "GetClientRect failed while enabling captured cursor mode.")) ∧
    ((GetClientRect os st.hwnd).1 ≠ none → os.clip_allowed = false →
      (set_cursor_mode { win := { m_impl := some { state := some st } }, os := os }
        cursor_mode.captured_hidden).1 =
        some (exception.window_error
          "ClipCursor failed while enabling captured cursor mode.")) ∧
    ((set_cursor_mode { win := { m_impl := some { state := some st } }, os := os }
        cursor_mode.captured_hidden).1 ≠ none →
      warp_issued os
        (set_cursor_mode { win := { m_impl := some { state := some st } }, os := os }
          cursor_mode.captured_hidden).2.os = false ∧
      suppress_flag
        (set_cursor_mode { win := { m_impl := some { state := some st } }, os := os }
          cursor_mode.captured_hidden).2 = st.suppress_next_mouse_move) ∧
    (∀ w : world, valid_window w = true → (set_cursor_mode w cursor_mode.normal).1 = none) := by
  refine ⟨?_, ?_, ?_, ?_, set_cursor_mode_normal_no_throw⟩
  all_goals
    cases hl : os.windows.lookup st.hwnd with
    | none =>
      rw [set_cursor_mode_enter_no_rect st os hh hmode hl]
      simp [GetClientRect, hl, warp_issued, is_warp, List.any_replicate, suppress_flag,
        window.state]
    | some nw =>
      cases hca : os.clip_allowed with
      | false =>
        rw [set_cursor_mode_enter_no_clip st os nw hh hmode hl hca]
        simp [GetClientRect, hl, warp_issued, is_warp, List.any_replicate, suppress_flag,
          window.state]
      | true =>
        rw [set_cursor_mode_enter st os nw hh hmode hl hca]
        simp [GetClientRect, hl]

/-- C11 at concrete inputs: the example window with its native window gone,
with the clip refused, and as it is. -/
theorem capture_failure_conditions_witness :
    (set_cursor_mode
      { win := example_world.win, os := { example_os with windows := [] } }
      cursor_mode.captured_hidden).1 =
      some (exception.window_error "GetClientRect failed while enabling captured cursor mode.") ∧
    (set_cursor_mode
      { win := example_world.win, os := { example_os with clip_allowed := false } }
      cursor_mode.captured_hidden).1 =
      some (exception.window_error "ClipCursor failed while enabling captured cursor mode.") ∧
    ((set_cursor_mode example_world cursor_mode.captured_hidden).1 ≠ none ↔
      ((GetClientRect example_os 1).1 = none ∨ example_os.clip_allowed = false)) :=
  ⟨(capture_failure_conditions example_state { example_os with windows := [] }
      (by decide) (by decide)).2.1 (by decide),
   (capture_failure_conditions example_state { example_os with clip_allowed := false }
      (by decide) (by decide)).2.2.1 (by decide) (by decide),
   (capture_failure_conditions example_state example_os (by decide) (by decide)).1⟩

/-- A translated notification keeps the suppression flag confined to captured mode. -/
theorem window_proc_flag_invariant (st : window_state) (os : os_state)
    (hwnd message wparam : Nat) (lparam : Int)
    (hinv : st.suppress_next_mouse_move = true → st.cursor = cursor_mode.captured_hidden) :
    ∃ st1, (window_proc (some st) os hwnd message wparam lparam).2.1 = some st1 ∧
      (st1.suppress_next_mouse_move = true → st1.cursor = cursor_mode.captured_hidden) := by
  by_cases hmm : message = WM_MOUSEMOVE
  · subst hmm
    by_cases hassoc : hwnd ∈ os.userdata
    · cases hc : st.cursor with
      | normal =>
        refine ⟨_, by rw [window_proc_mouse_move_normal st os hwnd wparam lparam hassoc hc], ?_⟩
        intro h
        exact absurd (hinv h) (by rw [hc]; decide)
      | captured_hidden =>
        cases hf : st.suppress_next_mouse_move with
        | true =>
          refine ⟨_, by rw [window_proc_mouse_move_suppressed st os hwnd wparam lparam hassoc hc hf], ?_⟩
          simp
        | false =>
          cases hr : (GetClientRect os hwnd).1 with
          | none =>
            refine ⟨_, by rw [window_proc_mouse_move_no_rect st os hwnd wparam lparam hassoc hc hf hr], ?_⟩
            simp [hc]
          | some client =>
            by_cases hP : (GET_X_LPARAM lparam, GET_Y_LPARAM lparam)
                = (Int.tdiv client.width 2, Int.tdiv client.height 2)
            · refine ⟨_, by rw [window_proc_mouse_move_centre st os hwnd wparam lparam client
                hassoc hc hf hr hP], ?_⟩
              simp [hc]
            · refine ⟨_, by rw [window_proc_mouse_move_delta st os hwnd wparam lparam client
                hassoc hc hf hr hP], ?_⟩
              simp [hc]
    · exact ⟨st, by rw [window_proc_unassociated (some st) os hwnd WM_MOUSEMOVE wparam lparam
        (by decide) (Or.inl hassoc)], hinv⟩
  · obtain ⟨st1, h1, -, h3, h4, -⟩ := window_proc_facts st os hwnd message wparam lparam
    exact ⟨st1, h1, fun h => by rw [h3]; exact hinv (by rw [← h4 hmm]; exact h)⟩

/-- The invariant, spelled out on the window state. -/
theorem flag_implies_capture_iff (w : world) :
    flag_implies_capture w = true ↔
      ∀ st, w.win.state = some st →
        st.suppress_next_mouse_move = true → st.cursor = cursor_mode.captured_hidden := by
  rcases w with ⟨⟨_ | ⟨_ | st⟩⟩, os⟩ <;>
    simp [flag_implies_capture, suppress_flag, get_cursor_mode, window.state]
  cases st.suppress_next_mouse_move <;> simp

/-- The invariant depends on the window only. -/
theorem flag_implies_capture_of_win (w w1 : world) (h : w1.win = w.win)
    (hinv : flag_implies_capture w = true) : flag_implies_capture w1 = true := by
  rw [flag_implies_capture_iff] at hinv ⊢
  rw [h]
  exact hinv

theorem dispatch_flag_invariant (w : world) (msg : MSG)
    (hinv : flag_implies_capture w = true) :
    flag_implies_capture (DispatchMessageW w msg) = true := by
  cases hs : w.win.state with
  | none => exact flag_implies_capture_of_win w _ (dispatch_none_facts w msg hs).1 hinv
  | some st =>
    rcases w with ⟨win, os⟩
    simp only at hs
    rw [window_state_some_iff] at hs
    subst hs
    obtain ⟨st1, h1, h2⟩ := window_proc_flag_invariant st
      (os.record (os_call.DispatchMessageW msg)) msg.hwnd msg.message msg.wParam msg.lParam
      ((flag_implies_capture_iff _).1 hinv st rfl)
    rw [flag_implies_capture_iff]
    intro st2 hst2
    simp only [DispatchMessageW, window.state, h1, window.store] at hst2
    rw [← Option.some.inj hst2]
    exact h2

theorem set_cursor_mode_flag_invariant (w : world) (mode : cursor_mode)
    (hinv : flag_implies_capture w = true) :
    flag_implies_capture (set_cursor_mode w mode).2 = true := by
  rcases w with ⟨⟨_ | ⟨_ | st⟩⟩, os⟩
  · simpa [set_cursor_mode] using hinv
  · simpa [set_cursor_mode] using hinv
  · by_cases hh : st.hwnd = 0
    · simpa [set_cursor_mode, hh] using hinv
    · by_cases hm : st.cursor = mode
      · rw [set_cursor_mode_same st os mode hh hm]; exact hinv
      · cases mode with
        | normal =>
          have hc : st.cursor = cursor_mode.captured_hidden := by
            cases h : st.cursor with
            | normal => exact absurd h hm
            | captured_hidden => rfl
          rw [set_cursor_mode_leave st os hh hc]
          simp [flag_implies_capture, suppress_flag, window.state]
        | captured_hidden =>
          have hc : st.cursor = cursor_mode.normal := by
            cases h : st.cursor with
            | normal => rfl
            | captured_hidden => exact absurd h hm
          cases hl : os.windows.lookup st.hwnd with
          | none =>
            rw [set_cursor_mode_enter_no_rect st os hh hc hl]
            simp [flag_implies_capture, get_cursor_mode]
          | some nw =>
            cases hca : os.clip_allowed with
            | false =>
              rw [set_cursor_mode_enter_no_clip st os nw hh hc hl hca]
              simp [flag_implies_capture, get_cursor_mode]
            | true =>
              rw [set_cursor_mode_enter st os nw hh hc hl hca]
              simp [flag_implies_capture, get_cursor_mode]

theorem pump_messages_loop_flag_invariant (fuel : Nat) (w : world)
    (hinv : flag_implies_capture w = true) :
    flag_implies_capture (pump_messages_loop fuel w) = true := by
  induction fuel generalizing w with
  | zero => exact hinv
  | succ n ih =>
    unfold pump_messages_loop
    split
    · exact flag_implies_capture_of_win w _ rfl hinv
    · exact ih _ (dispatch_flag_invariant _ _ (flag_implies_capture_of_win w _ rfl hinv))

theorem poll_event_flag_invariant (w : world) (hinv : flag_implies_capture w = true) :
    flag_implies_capture (poll_event w).2 = true := by
  have hp := pump_messages_loop_flag_invariant (w.os.pending.length + 1) w hinv
  unfold poll_event
  change flag_implies_capture (pump_messages w) = true at hp
  generalize pump_messages w = w1 at hp
  rcases w1 with ⟨⟨_ | ⟨_ | st⟩⟩, os⟩
  · exact hp
  · exact hp
  · cases he : st.events with
    | nil => simpa [he] using hp
    | cons e rest =>
      simp only [he]
      simpa [flag_implies_capture, suppress_flag, get_cursor_mode, window.state] using hp

theorem request_close_win (w : world) : (request_close w).win = w.win := by
  rcases w with ⟨⟨_ | ⟨_ | st⟩⟩, os⟩ <;> simp [request_close]
  split <;> (try split) <;> rfl

theorem show_win (w : world) : (show_ w).win = w.win := by
  rcases w with ⟨⟨_ | ⟨_ | st⟩⟩, os⟩ <;> simp [show_]
  split <;> rfl

theorem size_win (w : world) : (size w).2.win = w.win := by
  rcases w with ⟨⟨_ | ⟨_ | st⟩⟩, os⟩ <;> simp [size]
  split
  · rfl
  · split <;> rfl

/-- In every reachable world the suppression flag is set only in captured mode. -/
theorem reachable_flag_implies_capture (w : world) (h : reachable w) :
    flag_implies_capture w = true := by
  induction h with
  | created hwnd instance_ os => rfl
  | by_notification msg _ ih => exact dispatch_flag_invariant _ msg ih
  | by_set_cursor_mode mode _ ih => exact set_cursor_mode_flag_invariant _ mode ih
  | by_pump_messages _ ih => exact pump_messages_loop_flag_invariant _ _ ih
  | by_poll_event _ ih => exact poll_event_flag_invariant _ ih
  | by_request_close _ ih => exact flag_implies_capture_of_win _ _ (request_close_win _) ih
  | by_show _ ih => exact flag_implies_capture_of_win _ _ (show_win _) ih
  | by_size _ ih => exact flag_implies_capture_of_win _ _ (size_win _) ih

/-- C15. Leaving capture restores the pre-capture state: on a valid window in
normal mode (of a reachable world), a successful
`set_cursor_mode(captured_hidden)` followed by `set_cursor_mode(normal)` returns
normally and ends with the window state equal to the state before the first
call (cursor mode `normal`, suppression flag clear, event queue and `is_open`
unchanged), the clip region cleared (no clip call after the clearing one) and
the cursor shown (display counter not negative). -/
theorem leaving_capture_restores (w : world) (hr : reachable w)
    (hv : valid_window w = true) (hmode : get_cursor_mode w = cursor_mode.normal)
    (hok : (set_cursor_mode w cursor_mode.captured_hidden).1 = none) :
    (set_cursor_mode (set_cursor_mode w cursor_mode.captured_hidden).2 cursor_mode.normal).1
      = none ∧
    (set_cursor_mode (set_cursor_mode w cursor_mode.captured_hidden).2 cursor_mode.normal).2.win
      = w.win ∧
    get_cursor_mode
      (set_cursor_mode (set_cursor_mode w cursor_mode.captured_hidden).2 cursor_mode.normal).2
      = cursor_mode.normal ∧
    suppress_flag
      (set_cursor_mode (set_cursor_mode w cursor_mode.captured_hidden).2 cursor_mode.normal).2
      = false ∧
    (set_cursor_mode (set_cursor_mode w cursor_mode.captured_hidden).2
      cursor_mode.normal).2.os.clip = none ∧
    0 ≤ (set_cursor_mode (set_cursor_mode w cursor_mode.captured_hidden).2
      cursor_mode.normal).2.os.display_count ∧
    (∃ before after,
      (set_cursor_mode (set_cursor_mode w cursor_mode.captured_hidden).2
        cursor_mode.normal).2.os.calls = before ++ [os_call.ClipCursor none] ++ after ∧
      after.any is_clip_call = false) := by
  obtain ⟨st, hst, hh⟩ := (valid_window_iff w).1 hv
  have hinv := (flag_implies_capture_iff w).1 (reachable_flag_implies_capture w hr) st
    (by simp [window.state, hst])
  rcases w with ⟨⟨mi⟩, os⟩
  simp only at hst
  subst hst
  have hc : st.cursor = cursor_mode.normal := by simpa [get_cursor_mode] using hmode
  have hf : st.suppress_next_mouse_move = false := by
    cases h : st.suppress_next_mouse_move with
    | false => rfl
    | true => exact absurd (hinv h) (by rw [hc]; decide)
  cases hl : os.windows.lookup st.hwnd with
  | none =>
    rw [set_cursor_mode_enter_no_rect st os hh hc hl] at hok
    exact absurd hok (by simp)
  | some nw =>
    cases hca : os.clip_allowed with
    | false =>
      rw [set_cursor_mode_enter_no_clip st os nw hh hc hl hca] at hok
      exact absurd hok (by simp)
    | true =>
      rw [set_cursor_mode_enter st os nw hh hc hl hca]
      dsimp only
      rw [set_cursor_mode_leave _ _ ?_ ?_]
      rotate_left
      · exact hh
      · rfl
      refine ⟨rfl, ?_, ?_, ?_, ?_, ?_, ?_⟩
      · rcases st with ⟨a, b, c, d, e, f⟩
        simp only at hc hf
        subst hc hf
        rfl
      · simp [get_cursor_mode]
      · simp [suppress_flag, window.state]
      · simp [hca]
      · simp
      · refine ⟨_, List.replicate _ (os_call.ShowCursor true), rfl, ?_⟩
        simp [List.any_replicate, is_clip_call]

/-- C15 at a concrete input: the example window. -/
theorem leaving_capture_restores_witness :
    (set_cursor_mode (set_cursor_mode example_world cursor_mode.captured_hidden).2
      cursor_mode.normal).2.win = example_world.win ∧
    (set_cursor_mode (set_cursor_mode example_world cursor_mode.captured_hidden).2
      cursor_mode.normal).2.os.clip = none :=
  ⟨(leaving_capture_restores example_world (reachable.created 1 0 example_os) (by decide)
      (by decide) (by decide)).2.1,
   (leaving_capture_restores example_world (reachable.created 1 0 example_os) (by decide)
      (by decide) (by decide)).2.2.2.2.1⟩

/-! ## Monotonicity of `is_open`, failed capture, and the suppression invariant -/

/-- What a translated notification does to `is_open`: it is cleared by a close
or destroy notification for the associated handle and otherwise kept. -/
theorem window_proc_is_open (st : window_state) (os : os_state) (hwnd message wparam : Nat)
    (lparam : Int) :
    ∃ st1, (window_proc (some st) os hwnd message wparam lparam).2.1 = some st1 ∧
      st1.is_open = (st.is_open && !(decide (hwnd ∈ os.userdata)
        && decide (message = WM_CLOSE ∨ message = WM_DESTROY))) := by
  rcases os with ⟨windows, userdata, hook, dc, clip, ca, cp, pending, calls⟩
  by_cases hassoc : hwnd ∈ userdata
  · rcases message_cases message with h | h | h | h | h | h | h | h | h | h | h | h | h | h | h | h | h | h | h | h
    iterate 10
      subst h
      cases hook <;>
      simp [window_proc, GetWindowLongPtrW, SetWindowLongPtrW, DefWindowProcW, DestroyWindow,
        os_state.record, hassoc,
        WM_NCCREATE, WM_CLOSE, WM_DESTROY, WM_SIZE, WM_ENTERSIZEMOVE, WM_EXITSIZEMOVE, WM_KEYDOWN,
        WM_SYSKEYDOWN, WM_KEYUP, WM_SYSKEYUP, WM_MOUSEMOVE, WM_LBUTTONDOWN, WM_LBUTTONUP,
        WM_RBUTTONDOWN, WM_RBUTTONUP, WM_MBUTTONDOWN, WM_MBUTTONUP, WM_XBUTTONDOWN, WM_XBUTTONUP]
    · subst h
      cases hcur : st.cursor <;> cases hsup : st.suppress_next_mouse_move <;>
        cases hlook : List.lookup hwnd windows <;> cases hook <;>
      simp [window_proc, GetWindowLongPtrW, SetWindowLongPtrW, DefWindowProcW, DestroyWindow,
        os_state.record, hassoc, GetClientRect, ClientToScreen, SetCursorPos, hcur, hsup, hlook,
        WM_NCCREATE, WM_CLOSE, WM_DESTROY, WM_SIZE, WM_ENTERSIZEMOVE, WM_EXITSIZEMOVE, WM_KEYDOWN,
        WM_SYSKEYDOWN, WM_KEYUP, WM_SYSKEYUP, WM_MOUSEMOVE, WM_LBUTTONDOWN, WM_LBUTTONUP,
        WM_RBUTTONDOWN, WM_RBUTTONUP, WM_MBUTTONDOWN, WM_MBUTTONUP, WM_XBUTTONDOWN, WM_XBUTTONUP] <;>
      split_ifs <;> simp [hcur, hsup]
    iterate 8
      subst h
      cases hook <;>
      simp [window_proc, GetWindowLongPtrW, SetWindowLongPtrW, DefWindowProcW, DestroyWindow,
        os_state.record, hassoc,
        WM_NCCREATE, WM_CLOSE, WM_DESTROY, WM_SIZE, WM_ENTERSIZEMOVE, WM_EXITSIZEMOVE, WM_KEYDOWN,
        WM_SYSKEYDOWN, WM_KEYUP, WM_SYSKEYUP, WM_MOUSEMOVE, WM_LBUTTONDOWN, WM_LBUTTONUP,
        WM_RBUTTONDOWN, WM_RBUTTONUP, WM_MBUTTONDOWN, WM_MBUTTONUP, WM_XBUTTONDOWN, WM_XBUTTONUP]
    · obtain ⟨h1, h2, h3, h4, h5, h6, h7, h8, h9, h10, h11, h12, h13, h14, h15, h16, h17, h18, h19⟩ := h
      cases hook <;>
      simp [window_proc, GetWindowLongPtrW, SetWindowLongPtrW, DefWindowProcW, DestroyWindow,
        os_state.record, hassoc, h1, h2, h3, h4, h5, h6, h7, h8, h9, h10, h11, h12, h13,
        h14, h15, h16, h17, h18, h19]
  · by_cases hnc : message = WM_NCCREATE <;>
    simp [window_proc, GetWindowLongPtrW, SetWindowLongPtrW, DefWindowProcW,
        os_state.record, hassoc, hnc]



/-- `is_open()` looks at the window object only. -/
theorem is_open_of_win (w w1 : world) (h : w1.win = w.win) : is_open w1 = is_open w := by
  simp [is_open, h]

/-- A dispatched notification clears `is_open()` exactly when it is a close or
destroy notification for the associated handle, and never sets it. -/
theorem dispatch_is_open (w : world) (msg : MSG) :
    is_open (DispatchMessageW w msg) =
      (is_open w && !(decide (msg.hwnd ∈ w.os.userdata) && closes msg)) := by
  cases hs : w.win.state with
  | none =>
    rw [is_open_of_win w _ (dispatch_none_facts w msg hs).1]
    rcases w with ⟨⟨_ | ⟨_ | st⟩⟩, os⟩ <;> simp_all [is_open, window.state]
  | some st =>
    rcases w with ⟨win, os⟩
    simp only at hs
    rw [window_state_some_iff] at hs
    subst hs
    obtain ⟨st1, h1, h2⟩ := window_proc_is_open st (os.record (os_call.DispatchMessageW msg))
      msg.hwnd msg.message msg.wParam msg.lParam
    simp only [DispatchMessageW, window.state, h1, window.store, is_open, h2, closes]
    rfl

/-- The function `set_cursor_mode` never touches `is_open`. -/
theorem set_cursor_mode_is_open (w : world) (mode : cursor_mode) :
    is_open (set_cursor_mode w mode).2 = is_open w := by
  rcases w with ⟨⟨_ | ⟨_ | st⟩⟩, os⟩
  · simp [set_cursor_mode]
  · simp [set_cursor_mode]
  · by_cases hh : st.hwnd = 0
    · simp [set_cursor_mode, hh]
    · obtain ⟨st1, h1, -, -, -, h5⟩ := set_cursor_mode_result_mode st os mode hh
      simp [is_open, h1, h5]

/-- Popping an event leaves `is_open` as `pump_messages` left it. -/
theorem poll_event_is_open (w : world) : is_open (poll_event w).2 = is_open (pump_messages w) := by
  unfold poll_event
  generalize pump_messages w = w1
  rcases w1 with ⟨⟨_ | ⟨_ | st⟩⟩, os⟩
  · rfl
  · rfl
  · cases he : st.events <;> simp [is_open, he]

/-- The loop of `pump_messages` never sets `is_open()`, and clears it only when
a close or destroy notification is among the pending messages. -/
theorem pump_messages_loop_is_open (fuel : Nat) (w : world) :
    (is_open (pump_messages_loop fuel w) = true → is_open w = true) ∧
    (is_open w = true → is_open (pump_messages_loop fuel w) = false →
      ∃ msg ∈ w.os.pending, closes msg = true) := by
  induction fuel generalizing w with
  | zero => exact ⟨fun h => h, fun h1 h2 => absurd (h1.symm.trans h2) (by decide)⟩
  | succ n ih =>
    cases hp : w.os.pending with
    | nil =>
      have e : pump_messages_loop (n + 1) w = { w with os := (PeekMessageW w.os).2 } := by
        simp [pump_messages_loop, PeekMessageW, hp]
      have e2 : is_open (pump_messages_loop (n + 1) w) = is_open w := by rw [e]; rfl
      rw [e2]
      exact ⟨fun h => h, fun h1 h2 => absurd (h1.symm.trans h2) (by decide)⟩
    | cons m rest =>
      have e : pump_messages_loop (n + 1) w = pump_messages_loop n (deliver w m) := by
        simp [pump_messages_loop, PeekMessageW, hp, deliver]
      have hd : is_open (deliver w m) =
          (is_open w && !(decide (m.hwnd ∈ w.os.userdata) && closes m)) := by
        unfold deliver
        rw [dispatch_is_open]
        simp [PeekMessageW, hp, os_state.record, is_open]
      have hpd : (deliver w m).os.pending = rest := by
        rw [(deliver_facts w m).2]
        simp [PeekMessageW, hp]
      obtain ⟨i1, i2⟩ := ih (deliver w m)
      rw [e]
      constructor
      · intro h
        have := i1 h
        rw [hd] at this
        simp only [Bool.and_eq_true] at this
        exact this.1
      · intro h1 h2
        cases hdo : is_open (deliver w m) with
        | false =>
          rw [hd, h1] at hdo
          refine ⟨m, List.mem_cons_self _ _, ?_⟩
          simp only [Bool.true_and, Bool.not_eq_false', Bool.and_eq_true] at hdo
          exact hdo.2
        | true =>
          obtain ⟨msg, hm, hc⟩ := i2 hdo h2
          rw [hpd] at hm
          exact ⟨msg, List.mem_cons_of_mem _ hm, hc⟩

/-- Nothing sets `is_open()` back to true. -/
theorem evolves_is_open (w w1 : world) (h : evolves w w1) (hc : is_open w = false) :
    is_open w1 = false := by
  induction h with
  | here => exact hc
  | by_notification msg _ ih => rw [dispatch_is_open, ih]; rfl
  | by_set_cursor_mode mode _ ih => rw [set_cursor_mode_is_open, ih]
  | by_pump_messages _ ih =>
    cases h : is_open (pump_messages _) with
    | false => rfl
    | true => rw [(pump_messages_loop_is_open _ _).1 h] at ih; exact absurd ih (by decide)
  | by_poll_event _ ih =>
    rw [poll_event_is_open]
    cases h : is_open (pump_messages _) with
    | false => rfl
    | true => rw [(pump_messages_loop_is_open _ _).1 h] at ih; exact absurd ih (by decide)
  | by_request_close _ ih => rw [is_open_of_win _ _ (request_close_win _), ih]
  | by_show _ ih => rw [is_open_of_win _ _ (show_win _), ih]
  | by_size _ ih => rw [is_open_of_win _ _ (size_win _), ih]



/-- Every failed capture on a valid window in normal mode leaves the mode at
`captured_hidden` with the cursor hidden and the clip as it was, and a retried
call returns at once. -/
theorem set_cursor_mode_failed_capture (w : world)
    (hv : valid_window w = true)
    (hn : get_cursor_mode w = cursor_mode.normal)
    (hf : (set_cursor_mode w cursor_mode.captured_hidden).1 ≠ none) :
    get_cursor_mode (set_cursor_mode w cursor_mode.captured_hidden).2
      = cursor_mode.captured_hidden ∧
    (set_cursor_mode w cursor_mode.captured_hidden).2.os.clip = w.os.clip ∧
    (set_cursor_mode w cursor_mode.captured_hidden).2.os.display_count < 0 ∧
    set_cursor_mode (set_cursor_mode w cursor_mode.captured_hidden).2 cursor_mode.captured_hidden
      = (none, (set_cursor_mode w cursor_mode.captured_hidden).2) := by
  obtain ⟨st, hst, hh⟩ := (valid_window_iff w).1 hv
  rcases w with ⟨⟨impl⟩, os⟩
  simp only at hst
  subst hst
  have hmode : st.cursor = cursor_mode.normal := hn
  cases hlook : os.windows.lookup st.hwnd with
  | none =>
    rw [set_cursor_mode_enter_no_rect st os hh hmode hlook]
    refine ⟨rfl, rfl, ?_, set_cursor_mode_same _ _ _ hh rfl⟩
    simp only
    omega
  | some nw =>
    cases hclip : os.clip_allowed with
    | true =>
      rw [set_cursor_mode_enter st os nw hh hmode hlook hclip] at hf
      exact absurd rfl hf
    | false =>
      rw [set_cursor_mode_enter_no_clip st os nw hh hmode hlook hclip]
      refine ⟨rfl, rfl, ?_, set_cursor_mode_same _ _ _ hh rfl⟩
      simp only
      omega

/-- C21, at the failing input. The example window is valid and in normal mode,
on a system that refuses the clip. `set_cursor_mode(captured_hidden)` returns
the window error of the failed `ClipCursor`, and afterwards `get_cursor_mode()`
reports `captured_hidden`, not `normal`: the mode was stored before the steps
that can fail. No clip is installed, the cursor is hidden (display counter
`-1`), and a retried `set_cursor_mode(captured_hidden)` returns at once with no
exception and no further OS call, so the capture is not attempted again. -/
theorem failed_capture_stores_captured_mode :
    valid_window example_refused_world = true ∧
    get_cursor_mode example_refused_world = cursor_mode.normal ∧
    (set_cursor_mode example_refused_world cursor_mode.captured_hidden).1
      = some (exception.window_error "ClipCursor failed while enabling captured cursor mode.") ∧
    get_cursor_mode (set_cursor_mode example_refused_world cursor_mode.captured_hidden).2
      = cursor_mode.captured_hidden ∧
    (set_cursor_mode example_refused_world cursor_mode.captured_hidden).2.os.clip = none ∧
    (set_cursor_mode example_refused_world cursor_mode.captured_hidden).2.os.display_count = -1 ∧
    (set_cursor_mode example_refused_world cursor_mode.captured_hidden).2.os.calls
      = [os_call.ShowCursor false, os_call.GetClientRect 1,
         os_call.ClientToScreen 1 { x := 0, y := 0 },
         os_call.ClientToScreen 1 { x := 640, y := 480 },
         os_call.ClipCursor (some { left := 100, top := 50, right := 740, bottom := 530 })] ∧
    set_cursor_mode (set_cursor_mode example_refused_world cursor_mode.captured_hidden).2
        cursor_mode.captured_hidden
      = (none, (set_cursor_mode example_refused_world cursor_mode.captured_hidden).2) := by
  decide

/-- C22. `is_open` is monotone. A freshly created window state has `is_open`
true. A notification dispatched to the translator leaves `is_open()` as it was,
except that a close or destroy notification for the associated handle makes it
false. `set_cursor_mode`, `request_close`, `show` and `size` leave it as it was;
`poll_event` leaves it as its `pump_messages` left it, and `pump_messages` never
sets it and clears it only when a close or destroy notification was pending.
Hence along any sequence of notifications and facade operations leading from
`w` to `w1`, if `is_open()` is false in `w` it is false in `w1`. -/
theorem is_open_monotone (w w1 : world) (h : evolves w w1) :
    (is_open w = false → is_open w1 = false) ∧
    (∀ (hwnd instance_ : Nat) (os : os_state),
      is_open { win := { m_impl := some { state := some (initial_state hwnd instance_) } },
                os := os } = true) ∧
    (∀ (v : world) (msg : MSG), is_open (DispatchMessageW v msg) =
      (is_open v && !(decide (msg.hwnd ∈ v.os.userdata) && closes msg))) ∧
    (∀ (v : world) (mode : cursor_mode), is_open (set_cursor_mode v mode).2 = is_open v) ∧
    (∀ v : world, is_open (request_close v) = is_open v) ∧
    (∀ v : world, is_open (show_ v) = is_open v) ∧
    (∀ v : world, is_open (size v).2 = is_open v) ∧
    (∀ v : world, is_open (poll_event v).2 = is_open (pump_messages v)) ∧
    (∀ v : world, (is_open (pump_messages v) = true → is_open v = true) ∧
      (is_open v = true → is_open (pump_messages v) = false →
        ∃ msg ∈ v.os.pending, closes msg = true)) :=
  ⟨evolves_is_open w w1 h,
   fun _ _ _ => rfl,
   dispatch_is_open,
   set_cursor_mode_is_open,
   fun v => is_open_of_win _ _ (request_close_win v),
   fun v => is_open_of_win _ _ (show_win v),
   fun v => is_open_of_win _ _ (size_win v),
   poll_event_is_open,
   fun v => pump_messages_loop_is_open _ v⟩

/-- The example window, closed by a close notification, then receives a key
notification, a `set_cursor_mode(captured_hidden)` call and a `poll_event`
call: `is_open()` is false before and after. -/
theorem is_open_monotone_witness :
    is_open example_world = true ∧
    is_open example_closed_world = false ∧
    evolves example_closed_world
      (poll_event (set_cursor_mode (DispatchMessageW example_closed_world example_key_msg)
        cursor_mode.captured_hidden).2).2 ∧
    is_open (poll_event (set_cursor_mode (DispatchMessageW example_closed_world example_key_msg)
        cursor_mode.captured_hidden).2).2 = false :=
  ⟨by decide, by decide,
   evolves.by_poll_event (evolves.by_set_cursor_mode _ (evolves.by_notification _ evolves.here)),
   (is_open_monotone example_closed_world _
      (evolves.by_poll_event
        (evolves.by_set_cursor_mode _ (evolves.by_notification _ evolves.here)))).1 (by decide)⟩

/-- C23. Suppression implies capture. In every world reachable from a freshly
created window state by notifications dispatched to the translator and
operations of the facade, among them `set_cursor_mode` calls whether they
succeed or fail, a set suppression flag means the cursor mode is
`captured_hidden`; equivalently, in normal mode the flag is clear. -/
theorem suppression_implies_capture (w : world) (h : reachable w) :
    (suppress_flag w = true → get_cursor_mode w = cursor_mode.captured_hidden) ∧
    (get_cursor_mode w = cursor_mode.normal → suppress_flag w = false) := by
  have hinv := reachable_flag_implies_capture w h
  simp only [flag_implies_capture, Bool.or_eq_true, Bool.not_eq_true', decide_eq_true_eq] at hinv
  constructor
  · intro hf
    rcases hinv with h1 | h1
    · rw [hf] at h1
      exact absurd h1 (by decide)
    · exact h1
  · intro hn
    rcases hinv with h1 | h1
    · exact h1
    · rw [hn] at h1
      exact absurd h1 (by decide)

/-- The example window after a successful capture is reachable and has the flag
set in captured mode; after a failed capture it is reachable too, and there the
flag is clear. -/
theorem suppression_implies_capture_witness :
    reachable example_captured_world ∧
    suppress_flag example_captured_world = true ∧
    get_cursor_mode example_captured_world = cursor_mode.captured_hidden ∧
    reachable (set_cursor_mode example_refused_world cursor_mode.captured_hidden).2 ∧
    (set_cursor_mode example_refused_world cursor_mode.captured_hidden).1 ≠ none ∧
    suppress_flag (set_cursor_mode example_refused_world cursor_mode.captured_hidden).2 = false :=
  ⟨reachable.by_set_cursor_mode _ (reachable.created 1 0 example_os),
   by decide,
   (suppression_implies_capture example_captured_world
      (reachable.by_set_cursor_mode _ (reachable.created 1 0 example_os))).1 (by decide),
   reachable.by_set_cursor_mode _
     (reachable.created 1 0 { example_os with clip_allowed := false }),
   by decide,
   by decide⟩

end Detri
